import Mathlib

/-!
# MIRAO-52E device adapter: tracked Zernike coefficients and command translation

A shallow embedding of `Mirao52e.cpp` / `Mirao52e.h`.  The two device classes
`Mirao52e` (store-then-apply) and `Mirao52e_FAKE` (apply-on-set) become records of
their member variables; every member function becomes a function on that record
returning the `int` result together with the new record.  Coefficients are exact
rationals: the rounding of `float` and the narrowing of a handler's `double` to the
setter's `float` are not modelled, nor is the pause `Sleep(10)`.  The vendor driver and
the file system are external: every driver call is appended to the `calls` field in
program order, and the outcome of a call is supplied by an oracle whose answer the
source never inspects.  A call through a handle is recorded whether or not the handle
was assigned before; the validity of the pointer is not modelled.
-/

/-! ## Result codes -/

/-- Modelled from the spec: `DEVICE_OK` is declared by the host framework (MMDevice), which is
not part of this repository; it is the success result, 0, different from every `ERR_*` code. -/
def DEVICE_OK : Int := 0

/-- Source `Mirao52e.h`: `#define ERR_PORT_CHANGE_FORBIDDEN 10001`. -/
def ERR_PORT_CHANGE_FORBIDDEN : Int := 10001

/-- Source `Mirao52e.h`: `#define ERR_MIRRORINIT_FILE_NONEXIST 10201`. -/
def ERR_MIRRORINIT_FILE_NONEXIST : Int := 10201

/-- Source `Mirao52e.h`: `#define ERR_DIVINIT_FILE_NONEXIST 10202`. -/
def ERR_DIVINIT_FILE_NONEXIST : Int := 10202

/-- Source `Mirao52e.h`: `#define ERR_CAL_FILE_NONEXIST 10203`. -/
def ERR_CAL_FILE_NONEXIST : Int := 10203

/-- Source `Mirao52e.h`: `#define ERR_DIVPREF_FILE_NONEXIST 10204`. -/
def ERR_DIVPREF_FILE_NONEXIST : Int := 10204

/-- Source `Mirao52e.h`: `#define ERR_FILE_NONEXIST 10205`. -/
def ERR_FILE_NONEXIST : Int := 10205

/-! ## Default paths (file-scope constants of `Mirao52e.cpp`) -/

/-- Source `g_fakemirrorinit_path`. -/
def g_fakemirrorinit_path : String := "MIRAO/init/Fake_Mirao52-e_0219.dat"

/-- Source `g_mirrorinit_path`. -/
def g_mirrorinit_path : String := "MIRAO/init/MIRAO_initialization.dat"

/-- Source `g_calib_initpath`. -/
def g_calib_initpath : String := "MIRAO/init/MIRAO_calibration.aomi"

/-- Source `g_calibparams_initpath`. -/
def g_calibparams_initpath : String := "MIRAO/init/Diversity_calibration.xml"

/-- Source `g_divpref_initpath`. -/
def g_divpref_initpath : String := "MIRAO/init/Diversity_prefs.xml"

/-- Source `g_wfc_initpath`. -/
def g_wfc_initpath : String := "MIRAO/init/WavefrontCorrection.wcs"

/-- Source `g_savepath`. -/
def g_savepath : String := "MIRAO/WavefrontCorrection_save.wcs"

/-! ## Property names (file-scope constants of `Mirao52e.cpp`) -/

/-- Source `g_SetCalibration`. -/
def g_SetCalibration : String := "Set calibration path"

/-- Source `g_SetCalibrationParams`. -/
def g_SetCalibrationParams : String := "Set calibration params path"

/-- Source `g_SetDiversityPref`. -/
def g_SetDiversityPref : String := "Set diversity preferences path"

/-- Source `g_LoadWavefront`. -/
def g_LoadWavefront : String := "Load wavefront"

/-- Source `g_SaveCurrentPosition`. -/
def g_SaveCurrentPosition : String := "Save current position [input filename]"

/-- Source `g_SetZernMode_Tip`. -/
def g_SetZernMode_Tip : String := "Z11"

/-- Source `g_SetZernMode_Tilt`. -/
def g_SetZernMode_Tilt : String := "Z1-1"

/-- Source `g_SetZernMode_Defocus`. -/
def g_SetZernMode_Defocus : String := "Z20"

/-- Source `g_SetZernMode_Astig0deg`. -/
def g_SetZernMode_Astig0deg : String := "Z22"

/-- Source `g_SetZernMode_Astig45deg`. -/
def g_SetZernMode_Astig45deg : String := "Z2-2"

/-- Source `g_SetZernMode_Coma0deg`. -/
def g_SetZernMode_Coma0deg : String := "Z31"

/-- Source `g_SetZernMode_Coma90deg`. -/
def g_SetZernMode_Coma90deg : String := "Z3-1"

/-- Source `g_SetZernMode_PrimSpherical`. -/
def g_SetZernMode_PrimSpherical : String := "Z40"

/-- Source `g_SetZernMode_Trefoil0deg`. -/
def g_SetZernMode_Trefoil0deg : String := "Z33"

/-- Source `g_SetZernMode_Trefoil90deg`. -/
def g_SetZernMode_Trefoil90deg : String := "Z3-3"

/-- Source `g_SetZernMode_SecondAstig0deg`. -/
def g_SetZernMode_SecondAstig0deg : String := "Z42"

/-- Source `g_SetZernMode_SecondAstig45deg`. -/
def g_SetZernMode_SecondAstig45deg : String := "Z4-2"

/-- Source `g_SetZernMode_Quadrafoil0deg`. -/
def g_SetZernMode_Quadrafoil0deg : String := "Z44"

/-- Source `g_SetZernMode_Quadrafoil45deg`. -/
def g_SetZernMode_Quadrafoil45deg : String := "Z4-4"

/-- Source `g_SetZernMode_SecondComa0deg`. -/
def g_SetZernMode_SecondComa0deg : String := "Z51"

/-- Source `g_SetZernMode_SecondComa90deg`. -/
def g_SetZernMode_SecondComa90deg : String := "Z5-1"

/-- Source `g_SetZernMode_SecondTrefoil0deg`. -/
def g_SetZernMode_SecondTrefoil0deg : String := "Z53"

/-- Source `g_SetZernMode_SecondTrefoil90deg`. -/
def g_SetZernMode_SecondTrefoil90deg : String := "Z5-3"

/-- Source `g_SetZernMode_SecondSpherical`. -/
def g_SetZernMode_SecondSpherical : String := "Z60"

/-- Source `g_ApplyZernmodes`. -/
def g_ApplyZernmodes : String := "ApplyZernikes"

/-- The properties `Mirao52e::Initialize` creates, in source order. -/
def initProperties : List String :=
   [g_SetCalibration, g_SetCalibrationParams, g_SetDiversityPref, g_LoadWavefront,
    g_SaveCurrentPosition, g_SetZernMode_Tip, g_SetZernMode_Tilt, g_SetZernMode_Defocus,
    g_SetZernMode_Astig0deg, g_SetZernMode_Astig45deg, g_SetZernMode_Coma0deg, g_SetZernMode_Coma90deg,
    g_SetZernMode_PrimSpherical, g_SetZernMode_Trefoil0deg, g_SetZernMode_Trefoil90deg, g_SetZernMode_SecondAstig0deg,
    g_SetZernMode_SecondAstig45deg, g_SetZernMode_Quadrafoil0deg, g_SetZernMode_Quadrafoil45deg, g_SetZernMode_SecondComa0deg,
    g_SetZernMode_SecondComa90deg, g_SetZernMode_SecondTrefoil0deg, g_SetZernMode_SecondTrefoil90deg, g_SetZernMode_SecondSpherical,
    g_ApplyZernmodes]

/-- The properties `Mirao52e_FAKE::Initialize` creates, in source order. -/
def fakeInitProperties : List String :=
   [g_SetCalibration, g_SetCalibrationParams, g_SetDiversityPref, g_LoadWavefront,
    g_SaveCurrentPosition, g_SetZernMode_Tip, g_SetZernMode_Tilt, g_SetZernMode_Defocus,
    g_SetZernMode_Astig0deg, g_SetZernMode_Astig45deg, g_SetZernMode_Coma0deg, g_SetZernMode_Coma90deg,
    g_SetZernMode_PrimSpherical, g_SetZernMode_Trefoil0deg, g_SetZernMode_Trefoil90deg, g_SetZernMode_SecondAstig0deg,
    g_SetZernMode_SecondAstig45deg, g_SetZernMode_Quadrafoil0deg, g_SetZernMode_Quadrafoil45deg]

/-! ## Coefficient buffers -/

/-- Modelled from the spec: the vendor type `imop::microscopy::Zernikes` is declared outside this
repository.  It is the coefficient buffer of the spec: a map from a mode index to a coefficient,
here an exact rational. -/
@[ext]
structure Zernikes where
  zernike_coefficients : Nat → ℚ

/-- Modelled from the spec: the default constructor of the vendor type `Zernikes` is outside this
repository; the spec's buffer "returns 0 for never-set modes". -/
def Zernikes.new : Zernikes := ⟨fun _ => 0⟩

/-- The assignment `z.zernike_coefficients[i] = v`. -/
def Zernikes.assign (z : Zernikes) (i : Nat) (v : ℚ) : Zernikes :=
  ⟨fun j => if j = i then v else z.zernike_coefficients j⟩

/-- The indices 1 to 19 that the unrolled blocks of `ApplyZernmodes` and `LoadWavefront` visit,
in source order. -/
def zernIndices : List Nat :=
  [1, 2, 3, 4, 5, 6, 7, 8, 9, 10, 11, 12, 13, 14, 15, 16, 17, 18, 19]

/-- The block `z.zernike_coefficients[1] = 0; ...; z.zernike_coefficients[19] = 0;`. -/
def Zernikes.clear (z : Zernikes) : Zernikes :=
  zernIndices.foldl (fun acc i => acc.assign i 0) z

/-- The block `store[1] = store[1] + rel[1]; ...; store[19] = store[19] + rel[19];`. -/
def Zernikes.merge (store rel : Zernikes) : Zernikes :=
  zernIndices.foldl
    (fun acc i => acc.assign i (acc.zernike_coefficients i + rel.zernike_coefficients i)) store

/-! ## External collaborators -/

/-- The calls the adapter makes on the vendor SDK objects, with the arguments it passes. -/
inductive DriverCall
  | Mirror_new (path : String)
  | init_hardware
  | Diversity_new (calibpath : String) (mirror : Option String)
  | CalibrationParams_Load (path : String)
  | DiversityPreferences_Load (path : String)
  | Init_Diversity (calibparams divprefs : Option String)
  | Apply_Absolute_Commands_From_File (path : String)
  | Save_Current_Positions_ToFile (path : String)
  | Apply_Relative_Commands (zer : Zernikes)

/-- Outcome oracle of the vendor driver: whether a given call succeeds.  A failure is an outcome
of the call; no caller in the source inspects it. -/
abbrev Driver := DriverCall → Bool

/-- The files that can be opened for reading. -/
abbrev FileSystem := String → Bool

/-- Source `fileexists`: true exactly when `fopen(name, "r")` succeeds. -/
def fileexists (fs : FileSystem) (name : String) : Bool :=
  if fs name then true else false

/-- Outcome oracle of the host framework's `CreateProperty`: the result code returned for a
property name.  The host's property table itself is not part of the device record. -/
abbrev Host := String → Int

/-- The repeated step `ret = CreateProperty(name, ...); if (ret != DEVICE_OK) return ret;` over a
list of names: the first result that is not `DEVICE_OK`, or `DEVICE_OK` when there is none. -/
def createProperties (host : Host) : List String → Int
  | [] => DEVICE_OK
  | name :: rest => if host name ≠ DEVICE_OK then host name else createProperties host rest

/-- The host framework's `MM::ActionType`, the reason a property handler is invoked. -/
inductive ActionType
  | NoAction
  | BeforeGet
  | AfterSet
  | IsSequenceable
  | AfterLoadSequence
  | StartSequence
  | StopSequence
  deriving DecidableEq, Repr

/-- What a property handler leaves behind: its `int` result, the value held by the property
object `pProp`, and the device. -/
structure Handled (α σ : Type) where
  ret : Int
  pProp : α
  dev : σ

/-! ## The deferred-mode device `Mirao52e` -/

/-- Member variables of class `Mirao52e`.  A handle is `none` until it is assigned; an object
is identified by the path last passed to its constructor or to its `Load`, whatever the outcome
of that call.  `calls` is the sequence of driver calls made so far. -/
structure Mirao52e where
  mirrorhandle : Option String
  diversityhandle : Option String
  calibparamshandle : Option String
  divprefshandle : Option String
  zer_store : Zernikes
  zer_rel : Zernikes
  mirrorinitpath_ : String
  calibpath_ : String
  calibparamspath_ : String
  divprefpath_ : String
  wfcpath_ : String
  savepath_ : String
  initialized_ : Bool
  port_ : String
  calls : List DriverCall

/-- Source constructor `Mirao52e::Mirao52e()`. -/
def Mirao52e.new : Mirao52e where
  mirrorhandle := none
  diversityhandle := none
  calibparamshandle := none
  divprefshandle := none
  zer_store := Zernikes.new
  zer_rel := Zernikes.new
  mirrorinitpath_ := g_mirrorinit_path
  calibpath_ := g_calib_initpath
  calibparamspath_ := g_calibparams_initpath
  divprefpath_ := g_divpref_initpath
  wfcpath_ := g_wfc_initpath
  savepath_ := g_savepath
  initialized_ := false
  port_ := "Undefined"
  calls := []

/-- Source `Mirao52e::LoadWavefront`: when the file can be opened, records the path, sends the
absolute command file to the driver and zeroes both buffers at indices 1 to 19. -/
def Mirao52e.LoadWavefront (s : Mirao52e) (fs : FileSystem) (drv : Driver) (path : String) :
    Int × Mirao52e :=
  if fileexists fs path then
    let s := { s with wfcpath_ := path }
    let _outcome := drv (DriverCall.Apply_Absolute_Commands_From_File s.wfcpath_)
    let s := { s with calls := s.calls ++ [DriverCall.Apply_Absolute_Commands_From_File s.wfcpath_] }
    let s := { s with zer_store := s.zer_store.clear }
    let s := { s with zer_rel := s.zer_rel.clear }
    (DEVICE_OK, s)
  else
    (ERR_FILE_NONEXIST, s)

/-- Source `Mirao52e::ApplyZernmodes`: sends `zer_rel` as one relative command, adds it into
`zer_store` at indices 1 to 19, then zeroes `zer_rel` at indices 1 to 19. -/
def Mirao52e.ApplyZernmodes (s : Mirao52e) (drv : Driver) : Int × Mirao52e :=
  let _outcome := drv (DriverCall.Apply_Relative_Commands s.zer_rel)
  let s := { s with calls := s.calls ++ [DriverCall.Apply_Relative_Commands s.zer_rel] }
  let s := { s with zer_store := s.zer_store.merge s.zer_rel }
  let s := { s with zer_rel := s.zer_rel.clear }
  (DEVICE_OK, s)

/-- Source `Mirao52e::SetZernMode_Tip`: stores the delta to the requested value in `zer_rel[1]`. -/
def Mirao52e.SetZernMode_Tip (s : Mirao52e) (Acoef : ℚ) : Int × Mirao52e :=
  let s := { s with zer_rel := s.zer_rel.assign 1 (Acoef - s.zer_store.zernike_coefficients 1) }
  (DEVICE_OK, s)

/-- Source `Mirao52e::SetZernMode_Tilt`: stores the delta to the requested value in `zer_rel[2]`. -/
def Mirao52e.SetZernMode_Tilt (s : Mirao52e) (Acoef : ℚ) : Int × Mirao52e :=
  let s := { s with zer_rel := s.zer_rel.assign 2 (Acoef - s.zer_store.zernike_coefficients 2) }
  (DEVICE_OK, s)

/-- Source `Mirao52e::SetZernMode_Defocus`: stores the delta to the requested value in `zer_rel[3]`. -/
def Mirao52e.SetZernMode_Defocus (s : Mirao52e) (Acoef : ℚ) : Int × Mirao52e :=
  let s := { s with zer_rel := s.zer_rel.assign 3 (Acoef - s.zer_store.zernike_coefficients 3) }
  (DEVICE_OK, s)

/-- Source `Mirao52e::SetZernMode_Astig0deg`: stores the delta to the requested value in `zer_rel[4]`. -/
def Mirao52e.SetZernMode_Astig0deg (s : Mirao52e) (Acoef : ℚ) : Int × Mirao52e :=
  let s := { s with zer_rel := s.zer_rel.assign 4 (Acoef - s.zer_store.zernike_coefficients 4) }
  (DEVICE_OK, s)

/-- Source `Mirao52e::SetZernMode_Astig45deg`: stores the delta to the requested value in `zer_rel[5]`. -/
def Mirao52e.SetZernMode_Astig45deg (s : Mirao52e) (Acoef : ℚ) : Int × Mirao52e :=
  let s := { s with zer_rel := s.zer_rel.assign 5 (Acoef - s.zer_store.zernike_coefficients 5) }
  (DEVICE_OK, s)

/-- Source `Mirao52e::SetZernMode_Coma0deg`: stores the delta to the requested value in `zer_rel[6]`. -/
def Mirao52e.SetZernMode_Coma0deg (s : Mirao52e) (Acoef : ℚ) : Int × Mirao52e :=
  let s := { s with zer_rel := s.zer_rel.assign 6 (Acoef - s.zer_store.zernike_coefficients 6) }
  (DEVICE_OK, s)

/-- Source `Mirao52e::SetZernMode_Coma90deg`: stores the delta to the requested value in `zer_rel[7]`. -/
def Mirao52e.SetZernMode_Coma90deg (s : Mirao52e) (Acoef : ℚ) : Int × Mirao52e :=
  let s := { s with zer_rel := s.zer_rel.assign 7 (Acoef - s.zer_store.zernike_coefficients 7) }
  (DEVICE_OK, s)

/-- Source `Mirao52e::SetZernMode_PrimSpherical`: stores the delta to the requested value in `zer_rel[8]`. -/
def Mirao52e.SetZernMode_PrimSpherical (s : Mirao52e) (Acoef : ℚ) : Int × Mirao52e :=
  let s := { s with zer_rel := s.zer_rel.assign 8 (Acoef - s.zer_store.zernike_coefficients 8) }
  (DEVICE_OK, s)

/-- Source `Mirao52e::SetZernMode_Trefoil0deg`: stores the delta to the requested value in `zer_rel[9]`. -/
def Mirao52e.SetZernMode_Trefoil0deg (s : Mirao52e) (Acoef : ℚ) : Int × Mirao52e :=
  let s := { s with zer_rel := s.zer_rel.assign 9 (Acoef - s.zer_store.zernike_coefficients 9) }
  (DEVICE_OK, s)

/-- Source `Mirao52e::SetZernMode_Trefoil90deg`: stores the delta to the requested value in `zer_rel[10]`. -/
def Mirao52e.SetZernMode_Trefoil90deg (s : Mirao52e) (Acoef : ℚ) : Int × Mirao52e :=
  let s := { s with zer_rel := s.zer_rel.assign 10 (Acoef - s.zer_store.zernike_coefficients 10) }
  (DEVICE_OK, s)

/-- Source `Mirao52e::SetZernMode_SecondAstig0deg`: stores the delta to the requested value in `zer_rel[11]`. -/
def Mirao52e.SetZernMode_SecondAstig0deg (s : Mirao52e) (Acoef : ℚ) : Int × Mirao52e :=
  let s := { s with zer_rel := s.zer_rel.assign 11 (Acoef - s.zer_store.zernike_coefficients 11) }
  (DEVICE_OK, s)

/-- Source `Mirao52e::SetZernMode_SecondAstig45deg`: stores the delta to the requested value in `zer_rel[12]`. -/
def Mirao52e.SetZernMode_SecondAstig45deg (s : Mirao52e) (Acoef : ℚ) : Int × Mirao52e :=
  let s := { s with zer_rel := s.zer_rel.assign 12 (Acoef - s.zer_store.zernike_coefficients 12) }
  (DEVICE_OK, s)

/-- Source `Mirao52e::SetZernMode_SecondComa0deg`: stores the delta to the requested value in `zer_rel[13]`. -/
def Mirao52e.SetZernMode_SecondComa0deg (s : Mirao52e) (Acoef : ℚ) : Int × Mirao52e :=
  let s := { s with zer_rel := s.zer_rel.assign 13 (Acoef - s.zer_store.zernike_coefficients 13) }
  (DEVICE_OK, s)

/-- Source `Mirao52e::SetZernMode_SecondComa90deg`: stores the delta to the requested value in `zer_rel[14]`. -/
def Mirao52e.SetZernMode_SecondComa90deg (s : Mirao52e) (Acoef : ℚ) : Int × Mirao52e :=
  let s := { s with zer_rel := s.zer_rel.assign 14 (Acoef - s.zer_store.zernike_coefficients 14) }
  (DEVICE_OK, s)

/-- Source `Mirao52e::SetZernMode_SecondSpherical`: stores the delta to the requested value in `zer_rel[15]`. -/
def Mirao52e.SetZernMode_SecondSpherical (s : Mirao52e) (Acoef : ℚ) : Int × Mirao52e :=
  let s := { s with zer_rel := s.zer_rel.assign 15 (Acoef - s.zer_store.zernike_coefficients 15) }
  (DEVICE_OK, s)

/-- Source `Mirao52e::SetZernMode_Quadrafoil0deg`: stores the delta to the requested value in `zer_rel[16]`. -/
def Mirao52e.SetZernMode_Quadrafoil0deg (s : Mirao52e) (Acoef : ℚ) : Int × Mirao52e :=
  let s := { s with zer_rel := s.zer_rel.assign 16 (Acoef - s.zer_store.zernike_coefficients 16) }
  (DEVICE_OK, s)

/-- Source `Mirao52e::SetZernMode_Quadrafoil45deg`: stores the delta to the requested value in `zer_rel[17]`. -/
def Mirao52e.SetZernMode_Quadrafoil45deg (s : Mirao52e) (Acoef : ℚ) : Int × Mirao52e :=
  let s := { s with zer_rel := s.zer_rel.assign 17 (Acoef - s.zer_store.zernike_coefficients 17) }
  (DEVICE_OK, s)

/-- Source `Mirao52e::SetZernMode_SecondTrefoil0deg`: stores the delta to the requested value in `zer_rel[18]`. -/
def Mirao52e.SetZernMode_SecondTrefoil0deg (s : Mirao52e) (Acoef : ℚ) : Int × Mirao52e :=
  let s := { s with zer_rel := s.zer_rel.assign 18 (Acoef - s.zer_store.zernike_coefficients 18) }
  (DEVICE_OK, s)

/-- Source `Mirao52e::SetZernMode_SecondTrefoil90deg`: stores the delta to the requested value in `zer_rel[19]`. -/
def Mirao52e.SetZernMode_SecondTrefoil90deg (s : Mirao52e) (Acoef : ℚ) : Int × Mirao52e :=
  let s := { s with zer_rel := s.zer_rel.assign 19 (Acoef - s.zer_store.zernike_coefficients 19) }
  (DEVICE_OK, s)

/-- Source `Mirao52e::OnSetZernMode_Tip`: a read reports `zer_store[1] + zer_rel[1]`, a write calls the setter. -/
def Mirao52e.OnSetZernMode_Tip (s : Mirao52e) (pProp : ℚ) (eAct : ActionType) : Handled ℚ Mirao52e :=
  if eAct = ActionType.BeforeGet then
    let Acoef := s.zer_store.zernike_coefficients 1 + s.zer_rel.zernike_coefficients 1
    ⟨DEVICE_OK, Acoef, s⟩
  else if eAct = ActionType.AfterSet then
    let Acoef := pProp
    let r := s.SetZernMode_Tip Acoef
    ⟨r.1, pProp, r.2⟩
  else ⟨DEVICE_OK, pProp, s⟩

/-- Source `Mirao52e::OnSetZernMode_Tilt`: a read reports `zer_store[2] + zer_rel[2]`, a write calls the setter. -/
def Mirao52e.OnSetZernMode_Tilt (s : Mirao52e) (pProp : ℚ) (eAct : ActionType) : Handled ℚ Mirao52e :=
  if eAct = ActionType.BeforeGet then
    let Acoef := s.zer_store.zernike_coefficients 2 + s.zer_rel.zernike_coefficients 2
    ⟨DEVICE_OK, Acoef, s⟩
  else if eAct = ActionType.AfterSet then
    let Acoef := pProp
    let r := s.SetZernMode_Tilt Acoef
    ⟨r.1, pProp, r.2⟩
  else ⟨DEVICE_OK, pProp, s⟩

/-- Source `Mirao52e::OnSetZernMode_Defocus`: a read reports `zer_store[3] + zer_rel[3]`, a write calls the setter. -/
def Mirao52e.OnSetZernMode_Defocus (s : Mirao52e) (pProp : ℚ) (eAct : ActionType) : Handled ℚ Mirao52e :=
  if eAct = ActionType.BeforeGet then
    let Acoef := s.zer_store.zernike_coefficients 3 + s.zer_rel.zernike_coefficients 3
    ⟨DEVICE_OK, Acoef, s⟩
  else if eAct = ActionType.AfterSet then
    let Acoef := pProp
    let r := s.SetZernMode_Defocus Acoef
    ⟨r.1, pProp, r.2⟩
  else ⟨DEVICE_OK, pProp, s⟩

/-- Source `Mirao52e::OnSetZernMode_Astig0deg`: a read reports `zer_store[4] + zer_rel[4]`, a write calls the setter. -/
def Mirao52e.OnSetZernMode_Astig0deg (s : Mirao52e) (pProp : ℚ) (eAct : ActionType) : Handled ℚ Mirao52e :=
  if eAct = ActionType.BeforeGet then
    let Acoef := s.zer_store.zernike_coefficients 4 + s.zer_rel.zernike_coefficients 4
    ⟨DEVICE_OK, Acoef, s⟩
  else if eAct = ActionType.AfterSet then
    let Acoef := pProp
    let r := s.SetZernMode_Astig0deg Acoef
    ⟨r.1, pProp, r.2⟩
  else ⟨DEVICE_OK, pProp, s⟩

/-- Source `Mirao52e::OnSetZernMode_Astig45deg`: a read reports `zer_store[5] + zer_rel[5]`, a write calls the setter. -/
def Mirao52e.OnSetZernMode_Astig45deg (s : Mirao52e) (pProp : ℚ) (eAct : ActionType) : Handled ℚ Mirao52e :=
  if eAct = ActionType.BeforeGet then
    let Acoef := s.zer_store.zernike_coefficients 5 + s.zer_rel.zernike_coefficients 5
    ⟨DEVICE_OK, Acoef, s⟩
  else if eAct = ActionType.AfterSet then
    let Acoef := pProp
    let r := s.SetZernMode_Astig45deg Acoef
    ⟨r.1, pProp, r.2⟩
  else ⟨DEVICE_OK, pProp, s⟩

/-- Source `Mirao52e::OnSetZernMode_Coma0deg`: a read reports `zer_store[6] + zer_rel[6]`, a write calls the setter. -/
def Mirao52e.OnSetZernMode_Coma0deg (s : Mirao52e) (pProp : ℚ) (eAct : ActionType) : Handled ℚ Mirao52e :=
  if eAct = ActionType.BeforeGet then
    let Acoef := s.zer_store.zernike_coefficients 6 + s.zer_rel.zernike_coefficients 6
    ⟨DEVICE_OK, Acoef, s⟩
  else if eAct = ActionType.AfterSet then
    let Acoef := pProp
    let r := s.SetZernMode_Coma0deg Acoef
    ⟨r.1, pProp, r.2⟩
  else ⟨DEVICE_OK, pProp, s⟩

/-- Source `Mirao52e::OnSetZernMode_Coma90deg`: a read reports `zer_store[7] + zer_rel[7]`, a write calls the setter. -/
def Mirao52e.OnSetZernMode_Coma90deg (s : Mirao52e) (pProp : ℚ) (eAct : ActionType) : Handled ℚ Mirao52e :=
  if eAct = ActionType.BeforeGet then
    let Acoef := s.zer_store.zernike_coefficients 7 + s.zer_rel.zernike_coefficients 7
    ⟨DEVICE_OK, Acoef, s⟩
  else if eAct = ActionType.AfterSet then
    let Acoef := pProp
    let r := s.SetZernMode_Coma90deg Acoef
    ⟨r.1, pProp, r.2⟩
  else ⟨DEVICE_OK, pProp, s⟩

/-- Source `Mirao52e::OnSetZernMode_PrimSpherical`: a read reports `zer_store[8] + zer_rel[8]`, a write calls the setter. -/
def Mirao52e.OnSetZernMode_PrimSpherical (s : Mirao52e) (pProp : ℚ) (eAct : ActionType) : Handled ℚ Mirao52e :=
  if eAct = ActionType.BeforeGet then
    let Acoef := s.zer_store.zernike_coefficients 8 + s.zer_rel.zernike_coefficients 8
    ⟨DEVICE_OK, Acoef, s⟩
  else if eAct = ActionType.AfterSet then
    let Acoef := pProp
    let r := s.SetZernMode_PrimSpherical Acoef
    ⟨r.1, pProp, r.2⟩
  else ⟨DEVICE_OK, pProp, s⟩

/-- Source `Mirao52e::OnSetZernMode_Trefoil0deg`: a read reports `zer_store[9] + zer_rel[9]`, a write calls the setter. -/
def Mirao52e.OnSetZernMode_Trefoil0deg (s : Mirao52e) (pProp : ℚ) (eAct : ActionType) : Handled ℚ Mirao52e :=
  if eAct = ActionType.BeforeGet then
    let Acoef := s.zer_store.zernike_coefficients 9 + s.zer_rel.zernike_coefficients 9
    ⟨DEVICE_OK, Acoef, s⟩
  else if eAct = ActionType.AfterSet then
    let Acoef := pProp
    let r := s.SetZernMode_Trefoil0deg Acoef
    ⟨r.1, pProp, r.2⟩
  else ⟨DEVICE_OK, pProp, s⟩

/-- Source `Mirao52e::OnSetZernMode_Trefoil90deg`: a read reports `zer_store[10] + zer_rel[10]`, a write calls the setter. -/
def Mirao52e.OnSetZernMode_Trefoil90deg (s : Mirao52e) (pProp : ℚ) (eAct : ActionType) : Handled ℚ Mirao52e :=
  if eAct = ActionType.BeforeGet then
    let Acoef := s.zer_store.zernike_coefficients 10 + s.zer_rel.zernike_coefficients 10
    ⟨DEVICE_OK, Acoef, s⟩
  else if eAct = ActionType.AfterSet then
    let Acoef := pProp
    let r := s.SetZernMode_Trefoil90deg Acoef
    ⟨r.1, pProp, r.2⟩
  else ⟨DEVICE_OK, pProp, s⟩

/-- Source `Mirao52e::OnSetZernMode_SecondAstig0deg`: a read reports `zer_store[11] + zer_rel[11]`, a write calls the setter. -/
def Mirao52e.OnSetZernMode_SecondAstig0deg (s : Mirao52e) (pProp : ℚ) (eAct : ActionType) : Handled ℚ Mirao52e :=
  if eAct = ActionType.BeforeGet then
    let Acoef := s.zer_store.zernike_coefficients 11 + s.zer_rel.zernike_coefficients 11
    ⟨DEVICE_OK, Acoef, s⟩
  else if eAct = ActionType.AfterSet then
    let Acoef := pProp
    let r := s.SetZernMode_SecondAstig0deg Acoef
    ⟨r.1, pProp, r.2⟩
  else ⟨DEVICE_OK, pProp, s⟩

/-- Source `Mirao52e::OnSetZernMode_SecondAstig45deg`: a read reports `zer_store[12] + zer_rel[12]`, a write calls the setter. -/
def Mirao52e.OnSetZernMode_SecondAstig45deg (s : Mirao52e) (pProp : ℚ) (eAct : ActionType) : Handled ℚ Mirao52e :=
  if eAct = ActionType.BeforeGet then
    let Acoef := s.zer_store.zernike_coefficients 12 + s.zer_rel.zernike_coefficients 12
    ⟨DEVICE_OK, Acoef, s⟩
  else if eAct = ActionType.AfterSet then
    let Acoef := pProp
    let r := s.SetZernMode_SecondAstig45deg Acoef
    ⟨r.1, pProp, r.2⟩
  else ⟨DEVICE_OK, pProp, s⟩

/-- Source `Mirao52e::OnSetZernMode_SecondComa0deg`: a read reports `zer_store[13] + zer_rel[13]`, a write calls the setter. -/
def Mirao52e.OnSetZernMode_SecondComa0deg (s : Mirao52e) (pProp : ℚ) (eAct : ActionType) : Handled ℚ Mirao52e :=
  if eAct = ActionType.BeforeGet then
    let Acoef := s.zer_store.zernike_coefficients 13 + s.zer_rel.zernike_coefficients 13
    ⟨DEVICE_OK, Acoef, s⟩
  else if eAct = ActionType.AfterSet then
    let Acoef := pProp
    let r := s.SetZernMode_SecondComa0deg Acoef
    ⟨r.1, pProp, r.2⟩
  else ⟨DEVICE_OK, pProp, s⟩

/-- Source `Mirao52e::OnSetZernMode_SecondComa90deg`: a read reports `zer_store[14] + zer_rel[14]`, a write calls the setter. -/
def Mirao52e.OnSetZernMode_SecondComa90deg (s : Mirao52e) (pProp : ℚ) (eAct : ActionType) : Handled ℚ Mirao52e :=
  if eAct = ActionType.BeforeGet then
    let Acoef := s.zer_store.zernike_coefficients 14 + s.zer_rel.zernike_coefficients 14
    ⟨DEVICE_OK, Acoef, s⟩
  else if eAct = ActionType.AfterSet then
    let Acoef := pProp
    let r := s.SetZernMode_SecondComa90deg Acoef
    ⟨r.1, pProp, r.2⟩
  else ⟨DEVICE_OK, pProp, s⟩

/-- Source `Mirao52e::OnSetZernMode_SecondSpherical`: a read reports `zer_store[15] + zer_rel[15]`, a write calls the setter. -/
def Mirao52e.OnSetZernMode_SecondSpherical (s : Mirao52e) (pProp : ℚ) (eAct : ActionType) : Handled ℚ Mirao52e :=
  if eAct = ActionType.BeforeGet then
    let Acoef := s.zer_store.zernike_coefficients 15 + s.zer_rel.zernike_coefficients 15
    ⟨DEVICE_OK, Acoef, s⟩
  else if eAct = ActionType.AfterSet then
    let Acoef := pProp
    let r := s.SetZernMode_SecondSpherical Acoef
    ⟨r.1, pProp, r.2⟩
  else ⟨DEVICE_OK, pProp, s⟩

/-- Source `Mirao52e::OnSetZernMode_Quadrafoil0deg`: a read reports `zer_store[16] + zer_rel[16]`, a write calls the setter. -/
def Mirao52e.OnSetZernMode_Quadrafoil0deg (s : Mirao52e) (pProp : ℚ) (eAct : ActionType) : Handled ℚ Mirao52e :=
  if eAct = ActionType.BeforeGet then
    let Acoef := s.zer_store.zernike_coefficients 16 + s.zer_rel.zernike_coefficients 16
    ⟨DEVICE_OK, Acoef, s⟩
  else if eAct = ActionType.AfterSet then
    let Acoef := pProp
    let r := s.SetZernMode_Quadrafoil0deg Acoef
    ⟨r.1, pProp, r.2⟩
  else ⟨DEVICE_OK, pProp, s⟩

/-- Source `Mirao52e::OnSetZernMode_Quadrafoil45deg`: a read reports `zer_store[17] + zer_rel[17]`, a write calls the setter. -/
def Mirao52e.OnSetZernMode_Quadrafoil45deg (s : Mirao52e) (pProp : ℚ) (eAct : ActionType) : Handled ℚ Mirao52e :=
  if eAct = ActionType.BeforeGet then
    let Acoef := s.zer_store.zernike_coefficients 17 + s.zer_rel.zernike_coefficients 17
    ⟨DEVICE_OK, Acoef, s⟩
  else if eAct = ActionType.AfterSet then
    let Acoef := pProp
    let r := s.SetZernMode_Quadrafoil45deg Acoef
    ⟨r.1, pProp, r.2⟩
  else ⟨DEVICE_OK, pProp, s⟩

/-- Source `Mirao52e::OnSetZernMode_SecondTrefoil0deg`: a read reports `zer_store[18] + zer_rel[18]`, a write calls the setter. -/
def Mirao52e.OnSetZernMode_SecondTrefoil0deg (s : Mirao52e) (pProp : ℚ) (eAct : ActionType) : Handled ℚ Mirao52e :=
  if eAct = ActionType.BeforeGet then
    let Acoef := s.zer_store.zernike_coefficients 18 + s.zer_rel.zernike_coefficients 18
    ⟨DEVICE_OK, Acoef, s⟩
  else if eAct = ActionType.AfterSet then
    let Acoef := pProp
    let r := s.SetZernMode_SecondTrefoil0deg Acoef
    ⟨r.1, pProp, r.2⟩
  else ⟨DEVICE_OK, pProp, s⟩

/-- Source `Mirao52e::OnSetZernMode_SecondTrefoil90deg`: a read reports `zer_store[19] + zer_rel[19]`, a write calls the setter. -/
def Mirao52e.OnSetZernMode_SecondTrefoil90deg (s : Mirao52e) (pProp : ℚ) (eAct : ActionType) : Handled ℚ Mirao52e :=
  if eAct = ActionType.BeforeGet then
    let Acoef := s.zer_store.zernike_coefficients 19 + s.zer_rel.zernike_coefficients 19
    ⟨DEVICE_OK, Acoef, s⟩
  else if eAct = ActionType.AfterSet then
    let Acoef := pProp
    let r := s.SetZernMode_SecondTrefoil90deg Acoef
    ⟨r.1, pProp, r.2⟩
  else ⟨DEVICE_OK, pProp, s⟩

/-! ### Life cycle, port and calibration artifacts of `Mirao52e` -/

/-- Source `Mirao52e::Initialize`: nothing to do when already initialized; otherwise the four
configured files are probed in order, the vendor objects are created and loaded, the default
wavefront file is applied when it exists, the properties are created, and only then is the
device marked initialized. -/
def Mirao52e.Initialize (s : Mirao52e) (fs : FileSystem) (drv : Driver) (host : Host) :
    Int × Mirao52e :=
  if s.initialized_ then
    (DEVICE_OK, s)
  else if !fileexists fs s.mirrorinitpath_ then
    (ERR_MIRRORINIT_FILE_NONEXIST, s)
  else if !fileexists fs s.calibpath_ then
    (ERR_DIVINIT_FILE_NONEXIST, s)
  else if !fileexists fs s.calibparamspath_ then
    (ERR_CAL_FILE_NONEXIST, s)
  else if !fileexists fs s.divprefpath_ then
    (ERR_DIVPREF_FILE_NONEXIST, s)
  else
    let _outcome := drv (DriverCall.Mirror_new g_mirrorinit_path)
    let s := { s with
      mirrorhandle := some g_mirrorinit_path
      calls := s.calls ++ [DriverCall.Mirror_new g_mirrorinit_path] }
    let _outcome := drv DriverCall.init_hardware
    let s := { s with calls := s.calls ++ [DriverCall.init_hardware] }
    let _outcome := drv (DriverCall.Diversity_new s.calibpath_ s.mirrorhandle)
    let s := { s with
      diversityhandle := some s.calibpath_
      calls := s.calls ++ [DriverCall.Diversity_new s.calibpath_ s.mirrorhandle] }
    let _outcome := drv (DriverCall.CalibrationParams_Load s.calibparamspath_)
    let s := { s with
      calibparamshandle := some s.calibparamspath_
      calls := s.calls ++ [DriverCall.CalibrationParams_Load s.calibparamspath_] }
    let _outcome := drv (DriverCall.DiversityPreferences_Load s.divprefpath_)
    let s := { s with
      divprefshandle := some s.divprefpath_
      calls := s.calls ++ [DriverCall.DiversityPreferences_Load s.divprefpath_] }
    let _outcome := drv (DriverCall.Init_Diversity s.calibparamshandle s.divprefshandle)
    let s := { s with
      calls := s.calls ++ [DriverCall.Init_Diversity s.calibparamshandle s.divprefshandle] }
    let s := if fileexists fs g_wfc_initpath then (s.LoadWavefront fs drv g_wfc_initpath).2 else s
    let ret := createProperties host initProperties
    if ret ≠ DEVICE_OK then
      (ret, s)
    else
      (DEVICE_OK, { s with initialized_ := true })

/-- Source `Mirao52e::Shutdown`. -/
def Mirao52e.Shutdown (s : Mirao52e) : Int × Mirao52e :=
  (DEVICE_OK, { s with initialized_ := false })

/-- Source `Mirao52e::OnPort`: a read reports `port_`; a write is refused and reverted once the
device is initialized, and stored otherwise. -/
def Mirao52e.OnPort (s : Mirao52e) (pProp : String) (eAct : ActionType) : Handled String Mirao52e :=
  if eAct = ActionType.BeforeGet then
    ⟨DEVICE_OK, s.port_, s⟩
  else if eAct = ActionType.AfterSet then
    if s.initialized_ then
      ⟨ERR_PORT_CHANGE_FORBIDDEN, s.port_, s⟩
    else
      ⟨DEVICE_OK, pProp, { s with port_ := pProp }⟩
  else ⟨DEVICE_OK, pProp, s⟩

/-- Source `Mirao52e::SetCalibration`: when the file can be opened, stores the path, builds a new
`Diversity` object from it against the mirror handle and initializes the diversity engine. -/
def Mirao52e.SetCalibration (s : Mirao52e) (fs : FileSystem) (drv : Driver) (path : String) :
    Int × Mirao52e :=
  if fileexists fs path then
    let s := { s with calibpath_ := path }
    let _outcome := drv (DriverCall.Diversity_new s.calibpath_ s.mirrorhandle)
    let s := { s with
      diversityhandle := some s.calibpath_
      calls := s.calls ++ [DriverCall.Diversity_new s.calibpath_ s.mirrorhandle] }
    let _outcome := drv (DriverCall.Init_Diversity s.calibparamshandle s.divprefshandle)
    let s := { s with
      calls := s.calls ++ [DriverCall.Init_Diversity s.calibparamshandle s.divprefshandle] }
    (DEVICE_OK, s)
  else
    (ERR_FILE_NONEXIST, s)

/-- Source `Mirao52e::SetDiversityPref`: when the file can be opened, stores the path, loads it
into the existing preferences object and initializes the diversity engine. -/
def Mirao52e.SetDiversityPref (s : Mirao52e) (fs : FileSystem) (drv : Driver) (path : String) :
    Int × Mirao52e :=
  if fileexists fs path then
    let s := { s with divprefpath_ := path }
    let _outcome := drv (DriverCall.DiversityPreferences_Load s.divprefpath_)
    let s := { s with
      divprefshandle := s.divprefshandle.map (fun _ => s.divprefpath_)
      calls := s.calls ++ [DriverCall.DiversityPreferences_Load s.divprefpath_] }
    let _outcome := drv (DriverCall.Init_Diversity s.calibparamshandle s.divprefshandle)
    let s := { s with
      calls := s.calls ++ [DriverCall.Init_Diversity s.calibparamshandle s.divprefshandle] }
    (DEVICE_OK, s)
  else
    (ERR_FILE_NONEXIST, s)

/-- Source `Mirao52e::SetCalibrationParams`: when the file can be opened, stores the path, loads
it into the existing parameters object and initializes the diversity engine. -/
def Mirao52e.SetCalibrationParams (s : Mirao52e) (fs : FileSystem) (drv : Driver)
    (path : String) : Int × Mirao52e :=
  if fileexists fs path then
    let s := { s with calibparamspath_ := path }
    let _outcome := drv (DriverCall.CalibrationParams_Load s.calibparamspath_)
    let s := { s with
      calibparamshandle := s.calibparamshandle.map (fun _ => s.calibparamspath_)
      calls := s.calls ++ [DriverCall.CalibrationParams_Load s.calibparamspath_] }
    let _outcome := drv (DriverCall.Init_Diversity s.calibparamshandle s.divprefshandle)
    let s := { s with
      calls := s.calls ++ [DriverCall.Init_Diversity s.calibparamshandle s.divprefshandle] }
    (DEVICE_OK, s)
  else
    (ERR_FILE_NONEXIST, s)

/-- Source `Mirao52e::SaveCurrentPosition`: stores the path and asks the driver to save the
current positions to it. -/
def Mirao52e.SaveCurrentPosition (s : Mirao52e) (drv : Driver) (path : String) : Int × Mirao52e :=
  let s := { s with savepath_ := path }
  let _outcome := drv (DriverCall.Save_Current_Positions_ToFile s.savepath_)
  let s := { s with calls := s.calls ++ [DriverCall.Save_Current_Positions_ToFile s.savepath_] }
  (DEVICE_OK, s)

/-- Whether the four vendor handles `mirrorhandle`, `diversityhandle`, `calibparamshandle` and
`divprefshandle` have been assigned.  `Initialize` assigns them once the four file checks have
passed and nothing unassigns them afterwards, `Shutdown` included; on a device that never got
that far they are unassigned pointers. -/
def Mirao52e.handlesAssigned (s : Mirao52e) : Bool :=
  s.mirrorhandle.isSome && s.diversityhandle.isSome && s.calibparamshandle.isSome &&
    s.divprefshandle.isSome

/-! ### Property handlers of the path properties and of the apply trigger -/

/-- Source `Mirao52e::OnSetCalibration`: a read reports `calibpath_`, a write calls `SetCalibration` with the
value of the property. -/
def Mirao52e.OnSetCalibration (s : Mirao52e) (fs : FileSystem) (drv : Driver) (pProp : String) (eAct : ActionType) :
    Handled String Mirao52e :=
  if eAct = ActionType.BeforeGet then
    ⟨DEVICE_OK, s.calibpath_, s⟩
  else if eAct = ActionType.AfterSet then
    let path := pProp
    let r := s.SetCalibration fs drv path
    ⟨r.1, pProp, r.2⟩
  else ⟨DEVICE_OK, pProp, s⟩

/-- Source `Mirao52e::OnSetCalibrationParams`: a read reports `calibparamspath_`, a write calls `SetCalibrationParams` with the
value of the property. -/
def Mirao52e.OnSetCalibrationParams (s : Mirao52e) (fs : FileSystem) (drv : Driver) (pProp : String) (eAct : ActionType) :
    Handled String Mirao52e :=
  if eAct = ActionType.BeforeGet then
    ⟨DEVICE_OK, s.calibparamspath_, s⟩
  else if eAct = ActionType.AfterSet then
    let path := pProp
    let r := s.SetCalibrationParams fs drv path
    ⟨r.1, pProp, r.2⟩
  else ⟨DEVICE_OK, pProp, s⟩

/-- Source `Mirao52e::OnSetDiversityPref`: a read reports `divprefpath_`, a write calls `SetDiversityPref` with the
value of the property. -/
def Mirao52e.OnSetDiversityPref (s : Mirao52e) (fs : FileSystem) (drv : Driver) (pProp : String) (eAct : ActionType) :
    Handled String Mirao52e :=
  if eAct = ActionType.BeforeGet then
    ⟨DEVICE_OK, s.divprefpath_, s⟩
  else if eAct = ActionType.AfterSet then
    let path := pProp
    let r := s.SetDiversityPref fs drv path
    ⟨r.1, pProp, r.2⟩
  else ⟨DEVICE_OK, pProp, s⟩

/-- Source `Mirao52e::OnLoadWavefront`: a read reports `wfcpath_`, a write calls `LoadWavefront` with the
value of the property. -/
def Mirao52e.OnLoadWavefront (s : Mirao52e) (fs : FileSystem) (drv : Driver) (pProp : String) (eAct : ActionType) :
    Handled String Mirao52e :=
  if eAct = ActionType.BeforeGet then
    ⟨DEVICE_OK, s.wfcpath_, s⟩
  else if eAct = ActionType.AfterSet then
    let path := pProp
    let r := s.LoadWavefront fs drv path
    ⟨r.1, pProp, r.2⟩
  else ⟨DEVICE_OK, pProp, s⟩

/-- Source `Mirao52e::OnSaveCurrentPosition`: a read reports `savepath_`, a write calls `SaveCurrentPosition` with the
value of the property. -/
def Mirao52e.OnSaveCurrentPosition (s : Mirao52e) (drv : Driver) (pProp : String) (eAct : ActionType) :
    Handled String Mirao52e :=
  if eAct = ActionType.BeforeGet then
    ⟨DEVICE_OK, s.savepath_, s⟩
  else if eAct = ActionType.AfterSet then
    let path := pProp
    let r := s.SaveCurrentPosition drv path
    ⟨r.1, pProp, r.2⟩
  else ⟨DEVICE_OK, pProp, s⟩

/-- Source `Mirao52e::OnApplyZernmodes`: a read does nothing, a write calls `ApplyZernmodes`. -/
def Mirao52e.OnApplyZernmodes (s : Mirao52e) (drv : Driver) (pProp : Int) (eAct : ActionType) :
    Handled Int Mirao52e :=
  if eAct = ActionType.BeforeGet then
    ⟨DEVICE_OK, pProp, s⟩
  else if eAct = ActionType.AfterSet then
    let r := s.ApplyZernmodes drv
    ⟨r.1, pProp, r.2⟩
  else ⟨DEVICE_OK, pProp, s⟩

/-! ## The immediate-mode device `Mirao52e_FAKE` -/

/-- Member variables of class `Mirao52e_FAKE`, as for `Mirao52e`. -/
structure Mirao52e_FAKE where
  mirrorhandle : Option String
  diversityhandle : Option String
  calibparamshandle : Option String
  divprefshandle : Option String
  zer_store : Zernikes
  zer_rel : Zernikes
  mirrorinitpath_ : String
  calibpath_ : String
  calibparamspath_ : String
  divprefpath_ : String
  wfcpath_ : String
  savepath_ : String
  initialized_ : Bool
  port_ : String
  calls : List DriverCall

/-- Source constructor `Mirao52e_FAKE::Mirao52e_FAKE()`. -/
def Mirao52e_FAKE.new : Mirao52e_FAKE where
  mirrorhandle := none
  diversityhandle := none
  calibparamshandle := none
  divprefshandle := none
  zer_store := Zernikes.new
  zer_rel := Zernikes.new
  mirrorinitpath_ := g_mirrorinit_path
  calibpath_ := g_calib_initpath
  calibparamspath_ := g_calibparams_initpath
  divprefpath_ := g_divpref_initpath
  wfcpath_ := g_wfc_initpath
  savepath_ := g_savepath
  initialized_ := false
  port_ := "Undefined"
  calls := []

/-- Source `Mirao52e_FAKE::LoadWavefront`: identical to `Mirao52e::LoadWavefront`. -/
def Mirao52e_FAKE.LoadWavefront (s : Mirao52e_FAKE) (fs : FileSystem) (drv : Driver)
    (path : String) : Int × Mirao52e_FAKE :=
  if fileexists fs path then
    let s := { s with wfcpath_ := path }
    let _outcome := drv (DriverCall.Apply_Absolute_Commands_From_File s.wfcpath_)
    let s := { s with calls := s.calls ++ [DriverCall.Apply_Absolute_Commands_From_File s.wfcpath_] }
    let s := { s with zer_store := s.zer_store.clear }
    let s := { s with zer_rel := s.zer_rel.clear }
    (DEVICE_OK, s)
  else
    (ERR_FILE_NONEXIST, s)

/-- Source `Mirao52e_FAKE::SetZernMode_Tip`: computes the delta at index 1, dispatches it, commits. -/
def Mirao52e_FAKE.SetZernMode_Tip (s : Mirao52e_FAKE) (drv : Driver) (Acoef : ℚ) : Int × Mirao52e_FAKE :=
  let s := { s with zer_rel := s.zer_rel.assign 1 (Acoef - s.zer_store.zernike_coefficients 1) }
  let _outcome := drv (DriverCall.Apply_Relative_Commands s.zer_rel)
  let s := { s with calls := s.calls ++ [DriverCall.Apply_Relative_Commands s.zer_rel] }
  let s := { s with zer_store := s.zer_store.assign 1 Acoef }
  let s := { s with zer_rel := s.zer_rel.assign 1 0 }
  (DEVICE_OK, s)

/-- Source `Mirao52e_FAKE::SetZernMode_Tilt`: computes the delta at index 2, dispatches it, commits. -/
def Mirao52e_FAKE.SetZernMode_Tilt (s : Mirao52e_FAKE) (drv : Driver) (Acoef : ℚ) : Int × Mirao52e_FAKE :=
  let s := { s with zer_rel := s.zer_rel.assign 2 (Acoef - s.zer_store.zernike_coefficients 2) }
  let _outcome := drv (DriverCall.Apply_Relative_Commands s.zer_rel)
  let s := { s with calls := s.calls ++ [DriverCall.Apply_Relative_Commands s.zer_rel] }
  let s := { s with zer_store := s.zer_store.assign 2 Acoef }
  let s := { s with zer_rel := s.zer_rel.assign 2 0 }
  (DEVICE_OK, s)

/-- Source `Mirao52e_FAKE::SetZernMode_Defocus`: computes the delta at index 3, dispatches it, commits. -/
def Mirao52e_FAKE.SetZernMode_Defocus (s : Mirao52e_FAKE) (drv : Driver) (Acoef : ℚ) : Int × Mirao52e_FAKE :=
  let s := { s with zer_rel := s.zer_rel.assign 3 (Acoef - s.zer_store.zernike_coefficients 3) }
  let _outcome := drv (DriverCall.Apply_Relative_Commands s.zer_rel)
  let s := { s with calls := s.calls ++ [DriverCall.Apply_Relative_Commands s.zer_rel] }
  let s := { s with zer_store := s.zer_store.assign 3 Acoef }
  let s := { s with zer_rel := s.zer_rel.assign 3 0 }
  (DEVICE_OK, s)

/-- Source `Mirao52e_FAKE::SetZernMode_Astig0deg`: computes the delta at index 4, dispatches it, commits. -/
def Mirao52e_FAKE.SetZernMode_Astig0deg (s : Mirao52e_FAKE) (drv : Driver) (Acoef : ℚ) : Int × Mirao52e_FAKE :=
  let s := { s with zer_rel := s.zer_rel.assign 4 (Acoef - s.zer_store.zernike_coefficients 4) }
  let _outcome := drv (DriverCall.Apply_Relative_Commands s.zer_rel)
  let s := { s with calls := s.calls ++ [DriverCall.Apply_Relative_Commands s.zer_rel] }
  let s := { s with zer_store := s.zer_store.assign 4 Acoef }
  let s := { s with zer_rel := s.zer_rel.assign 4 0 }
  (DEVICE_OK, s)

/-- Source `Mirao52e_FAKE::SetZernMode_Astig45deg`: computes the delta at index 5, dispatches it, commits. -/
def Mirao52e_FAKE.SetZernMode_Astig45deg (s : Mirao52e_FAKE) (drv : Driver) (Acoef : ℚ) : Int × Mirao52e_FAKE :=
  let s := { s with zer_rel := s.zer_rel.assign 5 (Acoef - s.zer_store.zernike_coefficients 5) }
  let _outcome := drv (DriverCall.Apply_Relative_Commands s.zer_rel)
  let s := { s with calls := s.calls ++ [DriverCall.Apply_Relative_Commands s.zer_rel] }
  let s := { s with zer_store := s.zer_store.assign 5 Acoef }
  let s := { s with zer_rel := s.zer_rel.assign 5 0 }
  (DEVICE_OK, s)

/-- Source `Mirao52e_FAKE::SetZernMode_Coma0deg`: computes the delta at index 6, dispatches it, commits. -/
def Mirao52e_FAKE.SetZernMode_Coma0deg (s : Mirao52e_FAKE) (drv : Driver) (Acoef : ℚ) : Int × Mirao52e_FAKE :=
  let s := { s with zer_rel := s.zer_rel.assign 6 (Acoef - s.zer_store.zernike_coefficients 6) }
  let _outcome := drv (DriverCall.Apply_Relative_Commands s.zer_rel)
  let s := { s with calls := s.calls ++ [DriverCall.Apply_Relative_Commands s.zer_rel] }
  let s := { s with zer_store := s.zer_store.assign 6 Acoef }
  let s := { s with zer_rel := s.zer_rel.assign 6 0 }
  (DEVICE_OK, s)

/-- Source `Mirao52e_FAKE::SetZernMode_Coma90deg`: computes the delta at index 7, dispatches it, commits. -/
def Mirao52e_FAKE.SetZernMode_Coma90deg (s : Mirao52e_FAKE) (drv : Driver) (Acoef : ℚ) : Int × Mirao52e_FAKE :=
  let s := { s with zer_rel := s.zer_rel.assign 7 (Acoef - s.zer_store.zernike_coefficients 7) }
  let _outcome := drv (DriverCall.Apply_Relative_Commands s.zer_rel)
  let s := { s with calls := s.calls ++ [DriverCall.Apply_Relative_Commands s.zer_rel] }
  let s := { s with zer_store := s.zer_store.assign 7 Acoef }
  let s := { s with zer_rel := s.zer_rel.assign 7 0 }
  (DEVICE_OK, s)

/-- Source `Mirao52e_FAKE::SetZernMode_PrimSpherical`: computes the delta at index 8, dispatches it, commits. -/
def Mirao52e_FAKE.SetZernMode_PrimSpherical (s : Mirao52e_FAKE) (drv : Driver) (Acoef : ℚ) : Int × Mirao52e_FAKE :=
  let s := { s with zer_rel := s.zer_rel.assign 8 (Acoef - s.zer_store.zernike_coefficients 8) }
  let _outcome := drv (DriverCall.Apply_Relative_Commands s.zer_rel)
  let s := { s with calls := s.calls ++ [DriverCall.Apply_Relative_Commands s.zer_rel] }
  let s := { s with zer_store := s.zer_store.assign 8 Acoef }
  let s := { s with zer_rel := s.zer_rel.assign 8 0 }
  (DEVICE_OK, s)

/-- Source `Mirao52e_FAKE::SetZernMode_Trefoil0deg`: computes the delta at index 9, dispatches it, commits. -/
def Mirao52e_FAKE.SetZernMode_Trefoil0deg (s : Mirao52e_FAKE) (drv : Driver) (Acoef : ℚ) : Int × Mirao52e_FAKE :=
  let s := { s with zer_rel := s.zer_rel.assign 9 (Acoef - s.zer_store.zernike_coefficients 9) }
  let _outcome := drv (DriverCall.Apply_Relative_Commands s.zer_rel)
  let s := { s with calls := s.calls ++ [DriverCall.Apply_Relative_Commands s.zer_rel] }
  let s := { s with zer_store := s.zer_store.assign 9 Acoef }
  let s := { s with zer_rel := s.zer_rel.assign 9 0 }
  (DEVICE_OK, s)

/-- Source `Mirao52e_FAKE::SetZernMode_Trefoil90deg`: computes the delta at index 10, dispatches it, commits. -/
def Mirao52e_FAKE.SetZernMode_Trefoil90deg (s : Mirao52e_FAKE) (drv : Driver) (Acoef : ℚ) : Int × Mirao52e_FAKE :=
  let s := { s with zer_rel := s.zer_rel.assign 10 (Acoef - s.zer_store.zernike_coefficients 10) }
  let _outcome := drv (DriverCall.Apply_Relative_Commands s.zer_rel)
  let s := { s with calls := s.calls ++ [DriverCall.Apply_Relative_Commands s.zer_rel] }
  let s := { s with zer_store := s.zer_store.assign 10 Acoef }
  let s := { s with zer_rel := s.zer_rel.assign 10 0 }
  (DEVICE_OK, s)

/-- Source `Mirao52e_FAKE::SetZernMode_SecondAstig0deg`: computes the delta at index 11, dispatches it, commits. -/
def Mirao52e_FAKE.SetZernMode_SecondAstig0deg (s : Mirao52e_FAKE) (drv : Driver) (Acoef : ℚ) : Int × Mirao52e_FAKE :=
  let s := { s with zer_rel := s.zer_rel.assign 11 (Acoef - s.zer_store.zernike_coefficients 11) }
  let _outcome := drv (DriverCall.Apply_Relative_Commands s.zer_rel)
  let s := { s with calls := s.calls ++ [DriverCall.Apply_Relative_Commands s.zer_rel] }
  let s := { s with zer_store := s.zer_store.assign 11 Acoef }
  let s := { s with zer_rel := s.zer_rel.assign 11 0 }
  (DEVICE_OK, s)

/-- Source `Mirao52e_FAKE::SetZernMode_SecondAstig45deg`: computes the delta at index 12, dispatches it, commits. -/
def Mirao52e_FAKE.SetZernMode_SecondAstig45deg (s : Mirao52e_FAKE) (drv : Driver) (Acoef : ℚ) : Int × Mirao52e_FAKE :=
  let s := { s with zer_rel := s.zer_rel.assign 12 (Acoef - s.zer_store.zernike_coefficients 12) }
  let _outcome := drv (DriverCall.Apply_Relative_Commands s.zer_rel)
  let s := { s with calls := s.calls ++ [DriverCall.Apply_Relative_Commands s.zer_rel] }
  let s := { s with zer_store := s.zer_store.assign 12 Acoef }
  let s := { s with zer_rel := s.zer_rel.assign 12 0 }
  (DEVICE_OK, s)

/-- Source `Mirao52e_FAKE::SetZernMode_Quadrafoil0deg`: computes the delta at index 16, dispatches it, commits. -/
def Mirao52e_FAKE.SetZernMode_Quadrafoil0deg (s : Mirao52e_FAKE) (drv : Driver) (Acoef : ℚ) : Int × Mirao52e_FAKE :=
  let s := { s with zer_rel := s.zer_rel.assign 16 (Acoef - s.zer_store.zernike_coefficients 16) }
  let _outcome := drv (DriverCall.Apply_Relative_Commands s.zer_rel)
  let s := { s with calls := s.calls ++ [DriverCall.Apply_Relative_Commands s.zer_rel] }
  let s := { s with zer_store := s.zer_store.assign 16 Acoef }
  let s := { s with zer_rel := s.zer_rel.assign 16 0 }
  (DEVICE_OK, s)

/-- Source `Mirao52e_FAKE::SetZernMode_Quadrafoil45deg`: computes the delta at index 17, dispatches it, commits. -/
def Mirao52e_FAKE.SetZernMode_Quadrafoil45deg (s : Mirao52e_FAKE) (drv : Driver) (Acoef : ℚ) : Int × Mirao52e_FAKE :=
  let s := { s with zer_rel := s.zer_rel.assign 17 (Acoef - s.zer_store.zernike_coefficients 17) }
  let _outcome := drv (DriverCall.Apply_Relative_Commands s.zer_rel)
  let s := { s with calls := s.calls ++ [DriverCall.Apply_Relative_Commands s.zer_rel] }
  let s := { s with zer_store := s.zer_store.assign 17 Acoef }
  let s := { s with zer_rel := s.zer_rel.assign 17 0 }
  (DEVICE_OK, s)

/-- Source `Mirao52e_FAKE::OnSetZernMode_Tip`: a read reports `zer_store[1]`, a write calls the setter. -/
def Mirao52e_FAKE.OnSetZernMode_Tip (s : Mirao52e_FAKE) (drv : Driver) (pProp : ℚ) (eAct : ActionType) :
    Handled ℚ Mirao52e_FAKE :=
  if eAct = ActionType.BeforeGet then
    let Acoef := s.zer_store.zernike_coefficients 1
    ⟨DEVICE_OK, Acoef, s⟩
  else if eAct = ActionType.AfterSet then
    let Acoef := pProp
    let r := s.SetZernMode_Tip drv Acoef
    ⟨r.1, pProp, r.2⟩
  else ⟨DEVICE_OK, pProp, s⟩

/-- Source `Mirao52e_FAKE::OnSetZernMode_Tilt`: a read reports `zer_store[2]`, a write calls the setter. -/
def Mirao52e_FAKE.OnSetZernMode_Tilt (s : Mirao52e_FAKE) (drv : Driver) (pProp : ℚ) (eAct : ActionType) :
    Handled ℚ Mirao52e_FAKE :=
  if eAct = ActionType.BeforeGet then
    let Acoef := s.zer_store.zernike_coefficients 2
    ⟨DEVICE_OK, Acoef, s⟩
  else if eAct = ActionType.AfterSet then
    let Acoef := pProp
    let r := s.SetZernMode_Tilt drv Acoef
    ⟨r.1, pProp, r.2⟩
  else ⟨DEVICE_OK, pProp, s⟩

/-- Source `Mirao52e_FAKE::OnSetZernMode_Defocus`: a read reports `zer_store[3]`, a write calls the setter. -/
def Mirao52e_FAKE.OnSetZernMode_Defocus (s : Mirao52e_FAKE) (drv : Driver) (pProp : ℚ) (eAct : ActionType) :
    Handled ℚ Mirao52e_FAKE :=
  if eAct = ActionType.BeforeGet then
    let Acoef := s.zer_store.zernike_coefficients 3
    ⟨DEVICE_OK, Acoef, s⟩
  else if eAct = ActionType.AfterSet then
    let Acoef := pProp
    let r := s.SetZernMode_Defocus drv Acoef
    ⟨r.1, pProp, r.2⟩
  else ⟨DEVICE_OK, pProp, s⟩

/-- Source `Mirao52e_FAKE::OnSetZernMode_Astig0deg`: a read reports `zer_store[4]`, a write calls the setter. -/
def Mirao52e_FAKE.OnSetZernMode_Astig0deg (s : Mirao52e_FAKE) (drv : Driver) (pProp : ℚ) (eAct : ActionType) :
    Handled ℚ Mirao52e_FAKE :=
  if eAct = ActionType.BeforeGet then
    let Acoef := s.zer_store.zernike_coefficients 4
    ⟨DEVICE_OK, Acoef, s⟩
  else if eAct = ActionType.AfterSet then
    let Acoef := pProp
    let r := s.SetZernMode_Astig0deg drv Acoef
    ⟨r.1, pProp, r.2⟩
  else ⟨DEVICE_OK, pProp, s⟩

/-- Source `Mirao52e_FAKE::OnSetZernMode_Astig45deg`: a read reports `zer_store[5]`, a write calls the setter. -/
def Mirao52e_FAKE.OnSetZernMode_Astig45deg (s : Mirao52e_FAKE) (drv : Driver) (pProp : ℚ) (eAct : ActionType) :
    Handled ℚ Mirao52e_FAKE :=
  if eAct = ActionType.BeforeGet then
    let Acoef := s.zer_store.zernike_coefficients 5
    ⟨DEVICE_OK, Acoef, s⟩
  else if eAct = ActionType.AfterSet then
    let Acoef := pProp
    let r := s.SetZernMode_Astig45deg drv Acoef
    ⟨r.1, pProp, r.2⟩
  else ⟨DEVICE_OK, pProp, s⟩

/-- Source `Mirao52e_FAKE::OnSetZernMode_Coma0deg`: a read reports `zer_store[6]`, a write calls the setter. -/
def Mirao52e_FAKE.OnSetZernMode_Coma0deg (s : Mirao52e_FAKE) (drv : Driver) (pProp : ℚ) (eAct : ActionType) :
    Handled ℚ Mirao52e_FAKE :=
  if eAct = ActionType.BeforeGet then
    let Acoef := s.zer_store.zernike_coefficients 6
    ⟨DEVICE_OK, Acoef, s⟩
  else if eAct = ActionType.AfterSet then
    let Acoef := pProp
    let r := s.SetZernMode_Coma0deg drv Acoef
    ⟨r.1, pProp, r.2⟩
  else ⟨DEVICE_OK, pProp, s⟩

/-- Source `Mirao52e_FAKE::OnSetZernMode_Coma90deg`: a read reports `zer_store[7]`, a write calls the setter. -/
def Mirao52e_FAKE.OnSetZernMode_Coma90deg (s : Mirao52e_FAKE) (drv : Driver) (pProp : ℚ) (eAct : ActionType) :
    Handled ℚ Mirao52e_FAKE :=
  if eAct = ActionType.BeforeGet then
    let Acoef := s.zer_store.zernike_coefficients 7
    ⟨DEVICE_OK, Acoef, s⟩
  else if eAct = ActionType.AfterSet then
    let Acoef := pProp
    let r := s.SetZernMode_Coma90deg drv Acoef
    ⟨r.1, pProp, r.2⟩
  else ⟨DEVICE_OK, pProp, s⟩

/-- Source `Mirao52e_FAKE::OnSetZernMode_PrimSpherical`: a read reports `zer_store[8]`, a write calls the setter. -/
def Mirao52e_FAKE.OnSetZernMode_PrimSpherical (s : Mirao52e_FAKE) (drv : Driver) (pProp : ℚ) (eAct : ActionType) :
    Handled ℚ Mirao52e_FAKE :=
  if eAct = ActionType.BeforeGet then
    let Acoef := s.zer_store.zernike_coefficients 8
    ⟨DEVICE_OK, Acoef, s⟩
  else if eAct = ActionType.AfterSet then
    let Acoef := pProp
    let r := s.SetZernMode_PrimSpherical drv Acoef
    ⟨r.1, pProp, r.2⟩
  else ⟨DEVICE_OK, pProp, s⟩

/-- Source `Mirao52e_FAKE::OnSetZernMode_Trefoil0deg`: a read reports `zer_store[9]`, a write calls the setter. -/
def Mirao52e_FAKE.OnSetZernMode_Trefoil0deg (s : Mirao52e_FAKE) (drv : Driver) (pProp : ℚ) (eAct : ActionType) :
    Handled ℚ Mirao52e_FAKE :=
  if eAct = ActionType.BeforeGet then
    let Acoef := s.zer_store.zernike_coefficients 9
    ⟨DEVICE_OK, Acoef, s⟩
  else if eAct = ActionType.AfterSet then
    let Acoef := pProp
    let r := s.SetZernMode_Trefoil0deg drv Acoef
    ⟨r.1, pProp, r.2⟩
  else ⟨DEVICE_OK, pProp, s⟩

/-- Source `Mirao52e_FAKE::OnSetZernMode_Trefoil90deg`: a read reports `zer_store[10]`, a write calls the setter. -/
def Mirao52e_FAKE.OnSetZernMode_Trefoil90deg (s : Mirao52e_FAKE) (drv : Driver) (pProp : ℚ) (eAct : ActionType) :
    Handled ℚ Mirao52e_FAKE :=
  if eAct = ActionType.BeforeGet then
    let Acoef := s.zer_store.zernike_coefficients 10
    ⟨DEVICE_OK, Acoef, s⟩
  else if eAct = ActionType.AfterSet then
    let Acoef := pProp
    let r := s.SetZernMode_Trefoil90deg drv Acoef
    ⟨r.1, pProp, r.2⟩
  else ⟨DEVICE_OK, pProp, s⟩

/-- Source `Mirao52e_FAKE::OnSetZernMode_SecondAstig0deg`: a read reports `zer_store[11]`, a write calls the setter. -/
def Mirao52e_FAKE.OnSetZernMode_SecondAstig0deg (s : Mirao52e_FAKE) (drv : Driver) (pProp : ℚ) (eAct : ActionType) :
    Handled ℚ Mirao52e_FAKE :=
  if eAct = ActionType.BeforeGet then
    let Acoef := s.zer_store.zernike_coefficients 11
    ⟨DEVICE_OK, Acoef, s⟩
  else if eAct = ActionType.AfterSet then
    let Acoef := pProp
    let r := s.SetZernMode_SecondAstig0deg drv Acoef
    ⟨r.1, pProp, r.2⟩
  else ⟨DEVICE_OK, pProp, s⟩

/-- Source `Mirao52e_FAKE::OnSetZernMode_SecondAstig45deg`: a read reports `zer_store[12]`, a write calls the setter. -/
def Mirao52e_FAKE.OnSetZernMode_SecondAstig45deg (s : Mirao52e_FAKE) (drv : Driver) (pProp : ℚ) (eAct : ActionType) :
    Handled ℚ Mirao52e_FAKE :=
  if eAct = ActionType.BeforeGet then
    let Acoef := s.zer_store.zernike_coefficients 12
    ⟨DEVICE_OK, Acoef, s⟩
  else if eAct = ActionType.AfterSet then
    let Acoef := pProp
    let r := s.SetZernMode_SecondAstig45deg drv Acoef
    ⟨r.1, pProp, r.2⟩
  else ⟨DEVICE_OK, pProp, s⟩

/-- Source `Mirao52e_FAKE::OnSetZernMode_Quadrafoil0deg`: a read reports `zer_store[16]`, a write calls the setter. -/
def Mirao52e_FAKE.OnSetZernMode_Quadrafoil0deg (s : Mirao52e_FAKE) (drv : Driver) (pProp : ℚ) (eAct : ActionType) :
    Handled ℚ Mirao52e_FAKE :=
  if eAct = ActionType.BeforeGet then
    let Acoef := s.zer_store.zernike_coefficients 16
    ⟨DEVICE_OK, Acoef, s⟩
  else if eAct = ActionType.AfterSet then
    let Acoef := pProp
    let r := s.SetZernMode_Quadrafoil0deg drv Acoef
    ⟨r.1, pProp, r.2⟩
  else ⟨DEVICE_OK, pProp, s⟩

/-- Source `Mirao52e_FAKE::OnSetZernMode_Quadrafoil45deg`: a read reports `zer_store[17]`, a write calls the setter. -/
def Mirao52e_FAKE.OnSetZernMode_Quadrafoil45deg (s : Mirao52e_FAKE) (drv : Driver) (pProp : ℚ) (eAct : ActionType) :
    Handled ℚ Mirao52e_FAKE :=
  if eAct = ActionType.BeforeGet then
    let Acoef := s.zer_store.zernike_coefficients 17
    ⟨DEVICE_OK, Acoef, s⟩
  else if eAct = ActionType.AfterSet then
    let Acoef := pProp
    let r := s.SetZernMode_Quadrafoil45deg drv Acoef
    ⟨r.1, pProp, r.2⟩
  else ⟨DEVICE_OK, pProp, s⟩

/-- Source `Mirao52e_FAKE::OnPort`: identical to `Mirao52e::OnPort`. -/
def Mirao52e_FAKE.OnPort (s : Mirao52e_FAKE) (pProp : String) (eAct : ActionType) :
    Handled String Mirao52e_FAKE :=
  if eAct = ActionType.BeforeGet then
    ⟨DEVICE_OK, s.port_, s⟩
  else if eAct = ActionType.AfterSet then
    if s.initialized_ then
      ⟨ERR_PORT_CHANGE_FORBIDDEN, s.port_, s⟩
    else
      ⟨DEVICE_OK, pProp, { s with port_ := pProp }⟩
  else ⟨DEVICE_OK, pProp, s⟩

/-! ### Life cycle and calibration artifacts of `Mirao52e_FAKE` -/

/-- Source `Mirao52e_FAKE::Initialize`: as `Mirao52e::Initialize`, except that the mirror is opened
from `g_fakemirrorinit_path` and fewer properties are created.  The four configured files are
probed in order, the vendor objects are created and loaded, the default
wavefront file is applied when it exists, the properties are created, and only then is the
device marked initialized. -/
def Mirao52e_FAKE.Initialize (s : Mirao52e_FAKE) (fs : FileSystem) (drv : Driver) (host : Host) :
    Int × Mirao52e_FAKE :=
  if s.initialized_ then
    (DEVICE_OK, s)
  else if !fileexists fs s.mirrorinitpath_ then
    (ERR_MIRRORINIT_FILE_NONEXIST, s)
  else if !fileexists fs s.calibpath_ then
    (ERR_DIVINIT_FILE_NONEXIST, s)
  else if !fileexists fs s.calibparamspath_ then
    (ERR_CAL_FILE_NONEXIST, s)
  else if !fileexists fs s.divprefpath_ then
    (ERR_DIVPREF_FILE_NONEXIST, s)
  else
    let _outcome := drv (DriverCall.Mirror_new g_fakemirrorinit_path)
    let s := { s with
      mirrorhandle := some g_fakemirrorinit_path
      calls := s.calls ++ [DriverCall.Mirror_new g_fakemirrorinit_path] }
    let _outcome := drv DriverCall.init_hardware
    let s := { s with calls := s.calls ++ [DriverCall.init_hardware] }
    let _outcome := drv (DriverCall.Diversity_new s.calibpath_ s.mirrorhandle)
    let s := { s with
      diversityhandle := some s.calibpath_
      calls := s.calls ++ [DriverCall.Diversity_new s.calibpath_ s.mirrorhandle] }
    let _outcome := drv (DriverCall.CalibrationParams_Load s.calibparamspath_)
    let s := { s with
      calibparamshandle := some s.calibparamspath_
      calls := s.calls ++ [DriverCall.CalibrationParams_Load s.calibparamspath_] }
    let _outcome := drv (DriverCall.DiversityPreferences_Load s.divprefpath_)
    let s := { s with
      divprefshandle := some s.divprefpath_
      calls := s.calls ++ [DriverCall.DiversityPreferences_Load s.divprefpath_] }
    let _outcome := drv (DriverCall.Init_Diversity s.calibparamshandle s.divprefshandle)
    let s := { s with
      calls := s.calls ++ [DriverCall.Init_Diversity s.calibparamshandle s.divprefshandle] }
    let s := if fileexists fs g_wfc_initpath then (s.LoadWavefront fs drv g_wfc_initpath).2 else s
    let ret := createProperties host fakeInitProperties
    if ret ≠ DEVICE_OK then
      (ret, s)
    else
      (DEVICE_OK, { s with initialized_ := true })

/-- Source `Mirao52e_FAKE::Shutdown`. -/
def Mirao52e_FAKE.Shutdown (s : Mirao52e_FAKE) : Int × Mirao52e_FAKE :=
  (DEVICE_OK, { s with initialized_ := false })

/-- Source `Mirao52e_FAKE::SetCalibration`: when the file can be opened, stores the path, builds a new
`Diversity` object from it against the mirror handle and initializes the diversity engine. -/
def Mirao52e_FAKE.SetCalibration (s : Mirao52e_FAKE) (fs : FileSystem) (drv : Driver) (path : String) :
    Int × Mirao52e_FAKE :=
  if fileexists fs path then
    let s := { s with calibpath_ := path }
    let _outcome := drv (DriverCall.Diversity_new s.calibpath_ s.mirrorhandle)
    let s := { s with
      diversityhandle := some s.calibpath_
      calls := s.calls ++ [DriverCall.Diversity_new s.calibpath_ s.mirrorhandle] }
    let _outcome := drv (DriverCall.Init_Diversity s.calibparamshandle s.divprefshandle)
    let s := { s with
      calls := s.calls ++ [DriverCall.Init_Diversity s.calibparamshandle s.divprefshandle] }
    (DEVICE_OK, s)
  else
    (ERR_FILE_NONEXIST, s)

/-- Source `Mirao52e_FAKE::SetDiversityPref`: when the file can be opened, stores the path, loads it
into the existing preferences object and initializes the diversity engine. -/
def Mirao52e_FAKE.SetDiversityPref (s : Mirao52e_FAKE) (fs : FileSystem) (drv : Driver) (path : String) :
    Int × Mirao52e_FAKE :=
  if fileexists fs path then
    let s := { s with divprefpath_ := path }
    let _outcome := drv (DriverCall.DiversityPreferences_Load s.divprefpath_)
    let s := { s with
      divprefshandle := s.divprefshandle.map (fun _ => s.divprefpath_)
      calls := s.calls ++ [DriverCall.DiversityPreferences_Load s.divprefpath_] }
    let _outcome := drv (DriverCall.Init_Diversity s.calibparamshandle s.divprefshandle)
    let s := { s with
      calls := s.calls ++ [DriverCall.Init_Diversity s.calibparamshandle s.divprefshandle] }
    (DEVICE_OK, s)
  else
    (ERR_FILE_NONEXIST, s)

/-- Source `Mirao52e_FAKE::SetCalibrationParams`: when the file can be opened, stores the path, loads
it into the existing parameters object and initializes the diversity engine. -/
def Mirao52e_FAKE.SetCalibrationParams (s : Mirao52e_FAKE) (fs : FileSystem) (drv : Driver)
    (path : String) : Int × Mirao52e_FAKE :=
  if fileexists fs path then
    let s := { s with calibparamspath_ := path }
    let _outcome := drv (DriverCall.CalibrationParams_Load s.calibparamspath_)
    let s := { s with
      calibparamshandle := s.calibparamshandle.map (fun _ => s.calibparamspath_)
      calls := s.calls ++ [DriverCall.CalibrationParams_Load s.calibparamspath_] }
    let _outcome := drv (DriverCall.Init_Diversity s.calibparamshandle s.divprefshandle)
    let s := { s with
      calls := s.calls ++ [DriverCall.Init_Diversity s.calibparamshandle s.divprefshandle] }
    (DEVICE_OK, s)
  else
    (ERR_FILE_NONEXIST, s)

/-- Source `Mirao52e_FAKE::SaveCurrentPosition`: stores the path and asks the driver to save the
current positions to it. -/
def Mirao52e_FAKE.SaveCurrentPosition (s : Mirao52e_FAKE) (drv : Driver) (path : String) : Int × Mirao52e_FAKE :=
  let s := { s with savepath_ := path }
  let _outcome := drv (DriverCall.Save_Current_Positions_ToFile s.savepath_)
  let s := { s with calls := s.calls ++ [DriverCall.Save_Current_Positions_ToFile s.savepath_] }
  (DEVICE_OK, s)

/-! ## The mode tables -/

/-- The nineteen Zernike modes for which `Mirao52e` has a setter, in the order of the source. -/
inductive Mode
  | Tip
  | Tilt
  | Defocus
  | Astig0deg
  | Astig45deg
  | Coma0deg
  | Coma90deg
  | PrimSpherical
  | Trefoil0deg
  | Trefoil90deg
  | SecondAstig0deg
  | SecondAstig45deg
  | SecondComa0deg
  | SecondComa90deg
  | SecondSpherical
  | Quadrafoil0deg
  | Quadrafoil45deg
  | SecondTrefoil0deg
  | SecondTrefoil90deg
  deriving DecidableEq, Repr

/-- The coefficient index written by the setter of each mode (read off `Mirao52e::SetZernMode_*`). -/
def Mode.index : Mode → Nat
  | Mode.Tip => 1
  | Mode.Tilt => 2
  | Mode.Defocus => 3
  | Mode.Astig0deg => 4
  | Mode.Astig45deg => 5
  | Mode.Coma0deg => 6
  | Mode.Coma90deg => 7
  | Mode.PrimSpherical => 8
  | Mode.Trefoil0deg => 9
  | Mode.Trefoil90deg => 10
  | Mode.SecondAstig0deg => 11
  | Mode.SecondAstig45deg => 12
  | Mode.SecondComa0deg => 13
  | Mode.SecondComa90deg => 14
  | Mode.SecondSpherical => 15
  | Mode.Quadrafoil0deg => 16
  | Mode.Quadrafoil45deg => 17
  | Mode.SecondTrefoil0deg => 18
  | Mode.SecondTrefoil90deg => 19

/-- Dispatch to the `Mirao52e` setter of the named mode. -/
def Mirao52e.SetZernMode (s : Mirao52e) (m : Mode) (Acoef : ℚ) : Int × Mirao52e :=
  match m with
  | Mode.Tip => s.SetZernMode_Tip Acoef
  | Mode.Tilt => s.SetZernMode_Tilt Acoef
  | Mode.Defocus => s.SetZernMode_Defocus Acoef
  | Mode.Astig0deg => s.SetZernMode_Astig0deg Acoef
  | Mode.Astig45deg => s.SetZernMode_Astig45deg Acoef
  | Mode.Coma0deg => s.SetZernMode_Coma0deg Acoef
  | Mode.Coma90deg => s.SetZernMode_Coma90deg Acoef
  | Mode.PrimSpherical => s.SetZernMode_PrimSpherical Acoef
  | Mode.Trefoil0deg => s.SetZernMode_Trefoil0deg Acoef
  | Mode.Trefoil90deg => s.SetZernMode_Trefoil90deg Acoef
  | Mode.SecondAstig0deg => s.SetZernMode_SecondAstig0deg Acoef
  | Mode.SecondAstig45deg => s.SetZernMode_SecondAstig45deg Acoef
  | Mode.SecondComa0deg => s.SetZernMode_SecondComa0deg Acoef
  | Mode.SecondComa90deg => s.SetZernMode_SecondComa90deg Acoef
  | Mode.SecondSpherical => s.SetZernMode_SecondSpherical Acoef
  | Mode.Quadrafoil0deg => s.SetZernMode_Quadrafoil0deg Acoef
  | Mode.Quadrafoil45deg => s.SetZernMode_Quadrafoil45deg Acoef
  | Mode.SecondTrefoil0deg => s.SetZernMode_SecondTrefoil0deg Acoef
  | Mode.SecondTrefoil90deg => s.SetZernMode_SecondTrefoil90deg Acoef

/-- Dispatch to the `Mirao52e` property handler of the named mode.  In each handler the write
branch hands the value of the property to the setter as it is: the source narrows that `double`
to the setter's `float` parameter, a rounding that exact arithmetic does not have. -/
def Mirao52e.OnSetZernMode (s : Mirao52e) (m : Mode) (pProp : ℚ) (eAct : ActionType) : Handled ℚ Mirao52e :=
  match m with
  | Mode.Tip => s.OnSetZernMode_Tip pProp eAct
  | Mode.Tilt => s.OnSetZernMode_Tilt pProp eAct
  | Mode.Defocus => s.OnSetZernMode_Defocus pProp eAct
  | Mode.Astig0deg => s.OnSetZernMode_Astig0deg pProp eAct
  | Mode.Astig45deg => s.OnSetZernMode_Astig45deg pProp eAct
  | Mode.Coma0deg => s.OnSetZernMode_Coma0deg pProp eAct
  | Mode.Coma90deg => s.OnSetZernMode_Coma90deg pProp eAct
  | Mode.PrimSpherical => s.OnSetZernMode_PrimSpherical pProp eAct
  | Mode.Trefoil0deg => s.OnSetZernMode_Trefoil0deg pProp eAct
  | Mode.Trefoil90deg => s.OnSetZernMode_Trefoil90deg pProp eAct
  | Mode.SecondAstig0deg => s.OnSetZernMode_SecondAstig0deg pProp eAct
  | Mode.SecondAstig45deg => s.OnSetZernMode_SecondAstig45deg pProp eAct
  | Mode.SecondComa0deg => s.OnSetZernMode_SecondComa0deg pProp eAct
  | Mode.SecondComa90deg => s.OnSetZernMode_SecondComa90deg pProp eAct
  | Mode.SecondSpherical => s.OnSetZernMode_SecondSpherical pProp eAct
  | Mode.Quadrafoil0deg => s.OnSetZernMode_Quadrafoil0deg pProp eAct
  | Mode.Quadrafoil45deg => s.OnSetZernMode_Quadrafoil45deg pProp eAct
  | Mode.SecondTrefoil0deg => s.OnSetZernMode_SecondTrefoil0deg pProp eAct
  | Mode.SecondTrefoil90deg => s.OnSetZernMode_SecondTrefoil90deg pProp eAct

/-- The fourteen modes for which `Mirao52e_FAKE` has a setter, in the order of the source. -/
inductive FakeMode
  | Tip
  | Tilt
  | Defocus
  | Astig0deg
  | Astig45deg
  | Coma0deg
  | Coma90deg
  | PrimSpherical
  | Trefoil0deg
  | Trefoil90deg
  | SecondAstig0deg
  | SecondAstig45deg
  | Quadrafoil0deg
  | Quadrafoil45deg
  deriving DecidableEq, Repr

/-- The same-named mode of `Mirao52e`. -/
def FakeMode.toMode : FakeMode → Mode
  | FakeMode.Tip => Mode.Tip
  | FakeMode.Tilt => Mode.Tilt
  | FakeMode.Defocus => Mode.Defocus
  | FakeMode.Astig0deg => Mode.Astig0deg
  | FakeMode.Astig45deg => Mode.Astig45deg
  | FakeMode.Coma0deg => Mode.Coma0deg
  | FakeMode.Coma90deg => Mode.Coma90deg
  | FakeMode.PrimSpherical => Mode.PrimSpherical
  | FakeMode.Trefoil0deg => Mode.Trefoil0deg
  | FakeMode.Trefoil90deg => Mode.Trefoil90deg
  | FakeMode.SecondAstig0deg => Mode.SecondAstig0deg
  | FakeMode.SecondAstig45deg => Mode.SecondAstig45deg
  | FakeMode.Quadrafoil0deg => Mode.Quadrafoil0deg
  | FakeMode.Quadrafoil45deg => Mode.Quadrafoil45deg

/-- The coefficient index written by each `Mirao52e_FAKE` setter (read off `Mirao52e_FAKE::SetZernMode_*`). -/
def FakeMode.index : FakeMode → Nat
  | FakeMode.Tip => 1
  | FakeMode.Tilt => 2
  | FakeMode.Defocus => 3
  | FakeMode.Astig0deg => 4
  | FakeMode.Astig45deg => 5
  | FakeMode.Coma0deg => 6
  | FakeMode.Coma90deg => 7
  | FakeMode.PrimSpherical => 8
  | FakeMode.Trefoil0deg => 9
  | FakeMode.Trefoil90deg => 10
  | FakeMode.SecondAstig0deg => 11
  | FakeMode.SecondAstig45deg => 12
  | FakeMode.Quadrafoil0deg => 16
  | FakeMode.Quadrafoil45deg => 17

/-- Dispatch to the `Mirao52e_FAKE` setter of the named mode. -/
def Mirao52e_FAKE.SetZernMode (s : Mirao52e_FAKE) (drv : Driver) (m : FakeMode) (Acoef : ℚ) :
    Int × Mirao52e_FAKE :=
  match m with
  | FakeMode.Tip => s.SetZernMode_Tip drv Acoef
  | FakeMode.Tilt => s.SetZernMode_Tilt drv Acoef
  | FakeMode.Defocus => s.SetZernMode_Defocus drv Acoef
  | FakeMode.Astig0deg => s.SetZernMode_Astig0deg drv Acoef
  | FakeMode.Astig45deg => s.SetZernMode_Astig45deg drv Acoef
  | FakeMode.Coma0deg => s.SetZernMode_Coma0deg drv Acoef
  | FakeMode.Coma90deg => s.SetZernMode_Coma90deg drv Acoef
  | FakeMode.PrimSpherical => s.SetZernMode_PrimSpherical drv Acoef
  | FakeMode.Trefoil0deg => s.SetZernMode_Trefoil0deg drv Acoef
  | FakeMode.Trefoil90deg => s.SetZernMode_Trefoil90deg drv Acoef
  | FakeMode.SecondAstig0deg => s.SetZernMode_SecondAstig0deg drv Acoef
  | FakeMode.SecondAstig45deg => s.SetZernMode_SecondAstig45deg drv Acoef
  | FakeMode.Quadrafoil0deg => s.SetZernMode_Quadrafoil0deg drv Acoef
  | FakeMode.Quadrafoil45deg => s.SetZernMode_Quadrafoil45deg drv Acoef

/-- Dispatch to the `Mirao52e_FAKE` property handler of the named mode.  As for `Mirao52e`, the
write branch hands the value of the property to the setter without the rounding to `float`. -/
def Mirao52e_FAKE.OnSetZernMode (s : Mirao52e_FAKE) (drv : Driver) (m : FakeMode) (pProp : ℚ)
    (eAct : ActionType) : Handled ℚ Mirao52e_FAKE :=
  match m with
  | FakeMode.Tip => s.OnSetZernMode_Tip drv pProp eAct
  | FakeMode.Tilt => s.OnSetZernMode_Tilt drv pProp eAct
  | FakeMode.Defocus => s.OnSetZernMode_Defocus drv pProp eAct
  | FakeMode.Astig0deg => s.OnSetZernMode_Astig0deg drv pProp eAct
  | FakeMode.Astig45deg => s.OnSetZernMode_Astig45deg drv pProp eAct
  | FakeMode.Coma0deg => s.OnSetZernMode_Coma0deg drv pProp eAct
  | FakeMode.Coma90deg => s.OnSetZernMode_Coma90deg drv pProp eAct
  | FakeMode.PrimSpherical => s.OnSetZernMode_PrimSpherical drv pProp eAct
  | FakeMode.Trefoil0deg => s.OnSetZernMode_Trefoil0deg drv pProp eAct
  | FakeMode.Trefoil90deg => s.OnSetZernMode_Trefoil90deg drv pProp eAct
  | FakeMode.SecondAstig0deg => s.OnSetZernMode_SecondAstig0deg drv pProp eAct
  | FakeMode.SecondAstig45deg => s.OnSetZernMode_SecondAstig45deg drv pProp eAct
  | FakeMode.Quadrafoil0deg => s.OnSetZernMode_Quadrafoil0deg drv pProp eAct
  | FakeMode.Quadrafoil45deg => s.OnSetZernMode_Quadrafoil45deg drv pProp eAct

/-! ## Sequences of calls -/

/-- A finite sequence of `Mirao52e::SetZernMode_*` calls, run in order. -/
def Mirao52e.setModes (s : Mirao52e) (ops : List (Mode × ℚ)) : Mirao52e :=
  ops.foldl (fun st op => (st.SetZernMode op.1 op.2).2) s

/-- A finite sequence of `Mirao52e_FAKE::SetZernMode_*` calls, run in order. -/
def Mirao52e_FAKE.setModes (s : Mirao52e_FAKE) (drv : Driver) (ops : List (FakeMode × ℚ)) :
    Mirao52e_FAKE :=
  ops.foldl (fun st op => (st.SetZernMode drv op.1 op.2).2) s

/-- The last target passed for mode `m` in a sequence of calls, if `m` was set at all: a later
call to `m` wins over an earlier one. -/
def lastTarget (m : Mode) : List (Mode × ℚ) → Option ℚ
  | [] => none
  | op :: rest =>
    match lastTarget m rest with
    | some t => some t
    | none => if op.1 = m then some op.2 else none

/-- The spec's `clamp`: a value bounded to the interval from -1 to 1. -/
def clampTarget (t : ℚ) : ℚ :=
  if t < -1 then -1 else if 1 < t then 1 else t

/-! ## Sequences of operations -/

/-- One call of a member function of `Mirao52e`, with the arguments and the environment (file
system, driver, host) it meets. -/
inductive Mirao52e.Op
  | Initialize (fs : FileSystem) (drv : Driver) (host : Host)
  | Shutdown
  | OnPort (pProp : String) (eAct : ActionType)
  | SetCalibration (fs : FileSystem) (drv : Driver) (path : String)
  | SetDiversityPref (fs : FileSystem) (drv : Driver) (path : String)
  | SetCalibrationParams (fs : FileSystem) (drv : Driver) (path : String)
  | LoadWavefront (fs : FileSystem) (drv : Driver) (path : String)
  | SaveCurrentPosition (drv : Driver) (path : String)
  | ApplyZernmodes (drv : Driver)
  | SetZernMode (m : Mode) (Acoef : ℚ)
  | OnSetCalibration (fs : FileSystem) (drv : Driver) (pProp : String) (eAct : ActionType)
  | OnSetCalibrationParams (fs : FileSystem) (drv : Driver) (pProp : String) (eAct : ActionType)
  | OnSetDiversityPref (fs : FileSystem) (drv : Driver) (pProp : String) (eAct : ActionType)
  | OnLoadWavefront (fs : FileSystem) (drv : Driver) (pProp : String) (eAct : ActionType)
  | OnSaveCurrentPosition (drv : Driver) (pProp : String) (eAct : ActionType)
  | OnApplyZernmodes (drv : Driver) (pProp : Int) (eAct : ActionType)
  | OnSetZernMode (m : Mode) (pProp : ℚ) (eAct : ActionType)

/-- Whether the call is `Shutdown`. -/
def Mirao52e.Op.isShutdown : Mirao52e.Op → Bool
  | Mirao52e.Op.Shutdown => true
  | _ => false

/-- The result and the device after one call. -/
def Mirao52e.step (s : Mirao52e) : Mirao52e.Op → Int × Mirao52e
  | Mirao52e.Op.Initialize fs drv host => s.Initialize fs drv host
  | Mirao52e.Op.Shutdown => s.Shutdown
  | Mirao52e.Op.OnPort pProp eAct => ((s.OnPort pProp eAct).ret, (s.OnPort pProp eAct).dev)
  | Mirao52e.Op.SetCalibration fs drv path => s.SetCalibration fs drv path
  | Mirao52e.Op.SetDiversityPref fs drv path => s.SetDiversityPref fs drv path
  | Mirao52e.Op.SetCalibrationParams fs drv path => s.SetCalibrationParams fs drv path
  | Mirao52e.Op.LoadWavefront fs drv path => s.LoadWavefront fs drv path
  | Mirao52e.Op.SaveCurrentPosition drv path => s.SaveCurrentPosition drv path
  | Mirao52e.Op.ApplyZernmodes drv => s.ApplyZernmodes drv
  | Mirao52e.Op.SetZernMode m Acoef => s.SetZernMode m Acoef
  | Mirao52e.Op.OnSetCalibration fs drv pProp eAct =>
    ((s.OnSetCalibration fs drv pProp eAct).ret, (s.OnSetCalibration fs drv pProp eAct).dev)
  | Mirao52e.Op.OnSetCalibrationParams fs drv pProp eAct =>
    ((s.OnSetCalibrationParams fs drv pProp eAct).ret,
      (s.OnSetCalibrationParams fs drv pProp eAct).dev)
  | Mirao52e.Op.OnSetDiversityPref fs drv pProp eAct =>
    ((s.OnSetDiversityPref fs drv pProp eAct).ret, (s.OnSetDiversityPref fs drv pProp eAct).dev)
  | Mirao52e.Op.OnLoadWavefront fs drv pProp eAct =>
    ((s.OnLoadWavefront fs drv pProp eAct).ret, (s.OnLoadWavefront fs drv pProp eAct).dev)
  | Mirao52e.Op.OnSaveCurrentPosition drv pProp eAct =>
    ((s.OnSaveCurrentPosition drv pProp eAct).ret, (s.OnSaveCurrentPosition drv pProp eAct).dev)
  | Mirao52e.Op.OnApplyZernmodes drv pProp eAct =>
    ((s.OnApplyZernmodes drv pProp eAct).ret, (s.OnApplyZernmodes drv pProp eAct).dev)
  | Mirao52e.Op.OnSetZernMode m pProp eAct =>
    ((s.OnSetZernMode m pProp eAct).ret, (s.OnSetZernMode m pProp eAct).dev)

/-- The device after a finite sequence of calls, run in order. -/
def Mirao52e.run (s : Mirao52e) (ops : List Mirao52e.Op) : Mirao52e :=
  ops.foldl (fun st op => (st.step op).2) s

/-- A deferred-mode coefficient operation: a setter call or `ApplyZernmodes`. -/
inductive DeferredOp
  | set (m : Mode) (Acoef : ℚ)
  | apply

/-- The device after a finite sequence of setter calls and applies on `Mirao52e`, run in
order. -/
def Mirao52e.runDeferred (s : Mirao52e) (drv : Driver) (ops : List DeferredOp) : Mirao52e :=
  ops.foldl (fun st op =>
    match op with
    | DeferredOp.set m Acoef => (st.SetZernMode m Acoef).2
    | DeferredOp.apply => (st.ApplyZernmodes drv).2) s

/-- The delta a driver call hands to the relative-command entry point at index `i`: the
coefficient of the buffer passed to `Apply_Relative_Commands`, and 0 for any other call. -/
def DriverCall.relativeDelta : DriverCall → Nat → ℚ
  | DriverCall.Apply_Relative_Commands zer, i => zer.zernike_coefficients i
  | _, _ => 0

/-- The sum, over a sequence of driver calls, of the deltas dispatched at index `i`. -/
def dispatched (calls : List DriverCall) (i : Nat) : ℚ :=
  (calls.map (fun c => c.relativeDelta i)).sum

/-! ## Lemmas on coefficient buffers -/

theorem Zernikes.assign_apply (z : Zernikes) (i j : Nat) (v : ℚ) :
    (z.assign i v).zernike_coefficients j = if j = i then v else z.zernike_coefficients j :=
  rfl

theorem Zernikes.assign_assign (z : Zernikes) (i : Nat) (v w : ℚ) :
    (z.assign i v).assign i w = z.assign i w := by
  ext j
  by_cases h : j = i <;> simp [Zernikes.assign_apply, h]

theorem mem_zernIndices (j : Nat) : j ∈ zernIndices ↔ 1 ≤ j ∧ j ≤ 19 := by
  simp only [zernIndices, List.mem_cons, List.mem_singleton, List.not_mem_nil, or_false]
  omega

theorem zernIndices_nodup : zernIndices.Nodup := by
  decide

theorem foldl_assign_zero (l : List Nat) (z : Zernikes) (j : Nat) :
    (l.foldl (fun acc i => acc.assign i 0) z).zernike_coefficients j
      = if j ∈ l then 0 else z.zernike_coefficients j := by
  induction l generalizing z with
  | nil => simp
  | cons a l ih =>
    simp only [List.foldl_cons, ih, Zernikes.assign_apply, List.mem_cons]
    by_cases h1 : j ∈ l <;> by_cases h2 : j = a <;> simp [h1, h2]

theorem foldl_assign_add (rel : Zernikes) (l : List Nat) (hl : l.Nodup) (z : Zernikes) (j : Nat) :
    (l.foldl (fun acc i =>
        acc.assign i (acc.zernike_coefficients i + rel.zernike_coefficients i)) z).zernike_coefficients j
      = if j ∈ l then z.zernike_coefficients j + rel.zernike_coefficients j
        else z.zernike_coefficients j := by
  induction l generalizing z with
  | nil => simp
  | cons a l ih =>
    have hn := List.nodup_cons.mp hl
    simp only [List.foldl_cons, ih hn.2, Zernikes.assign_apply, List.mem_cons]
    by_cases h1 : j ∈ l <;> by_cases h2 : j = a
    · subst h2; exact absurd h1 hn.1
    · simp [h1, h2]
    · subst h2; simp [h1]
    · simp [h1, h2]

theorem Zernikes.clear_apply (z : Zernikes) (j : Nat) :
    z.clear.zernike_coefficients j = if 1 ≤ j ∧ j ≤ 19 then 0 else z.zernike_coefficients j := by
  unfold Zernikes.clear
  rw [foldl_assign_zero]
  by_cases h : j ∈ zernIndices
  · rw [if_pos h, if_pos ((mem_zernIndices j).mp h)]
  · rw [if_neg h, if_neg (fun h2 => h ((mem_zernIndices j).mpr h2))]

theorem Zernikes.merge_apply (store rel : Zernikes) (j : Nat) :
    (store.merge rel).zernike_coefficients j
      = if 1 ≤ j ∧ j ≤ 19 then store.zernike_coefficients j + rel.zernike_coefficients j
        else store.zernike_coefficients j := by
  unfold Zernikes.merge
  rw [foldl_assign_add rel zernIndices zernIndices_nodup]
  by_cases h : j ∈ zernIndices
  · rw [if_pos h, if_pos ((mem_zernIndices j).mp h)]
  · rw [if_neg h, if_neg (fun h2 => h ((mem_zernIndices j).mpr h2))]

/-! ## Lemmas on the mode tables -/

theorem Mode.index_pos (m : Mode) : 1 ≤ m.index := by
  cases m <;> decide

theorem Mode.index_le (m : Mode) : m.index ≤ 19 := by
  cases m <;> decide

theorem Mode.index_injective (m m' : Mode) (h : m.index = m'.index) : m = m' := by
  cases m <;> cases m' <;> first | rfl | exact absurd h (by decide)

theorem FakeMode.index_toMode (m : FakeMode) : m.toMode.index = m.index := by
  cases m <;> rfl

/-! ## The setters and the apply step in closed form -/

theorem Mirao52e.SetZernMode_eq (s : Mirao52e) (m : Mode) (t : ℚ) :
    s.SetZernMode m t
      = (DEVICE_OK, { s with
          zer_rel := s.zer_rel.assign m.index (t - s.zer_store.zernike_coefficients m.index) }) := by
  cases m <;> rfl

theorem Mirao52e.OnSetZernMode_BeforeGet (s : Mirao52e) (m : Mode) (p : ℚ) :
    s.OnSetZernMode m p ActionType.BeforeGet
      = ⟨DEVICE_OK,
          s.zer_store.zernike_coefficients m.index + s.zer_rel.zernike_coefficients m.index, s⟩ := by
  cases m <;> rfl

theorem Mirao52e.OnSetZernMode_AfterSet (s : Mirao52e) (m : Mode) (p : ℚ) :
    s.OnSetZernMode m p ActionType.AfterSet
      = ⟨(s.SetZernMode m p).1, p, (s.SetZernMode m p).2⟩ := by
  cases m <;> rfl

theorem Mirao52e.ApplyZernmodes_eq (s : Mirao52e) (drv : Driver) :
    s.ApplyZernmodes drv
      = (DEVICE_OK, { s with
          calls := s.calls ++ [DriverCall.Apply_Relative_Commands s.zer_rel]
          zer_store := s.zer_store.merge s.zer_rel
          zer_rel := s.zer_rel.clear }) :=
  rfl

theorem Mirao52e_FAKE.fake_SetZernMode_eq (s : Mirao52e_FAKE) (drv : Driver) (m : FakeMode) (t : ℚ) :
    s.SetZernMode drv m t
      = (DEVICE_OK, { s with
          calls := s.calls ++ [DriverCall.Apply_Relative_Commands
            (s.zer_rel.assign m.index (t - s.zer_store.zernike_coefficients m.index))]
          zer_store := s.zer_store.assign m.index t
          zer_rel := (s.zer_rel.assign m.index
            (t - s.zer_store.zernike_coefficients m.index)).assign m.index 0 }) := by
  cases m <;> rfl

theorem Mirao52e_FAKE.fake_OnSetZernMode_BeforeGet (s : Mirao52e_FAKE) (drv : Driver) (m : FakeMode)
    (p : ℚ) :
    s.OnSetZernMode drv m p ActionType.BeforeGet
      = ⟨DEVICE_OK, s.zer_store.zernike_coefficients m.index, s⟩ := by
  cases m <;> rfl

/-! ## Lemmas on sequences of setter calls -/

theorem Mirao52e.setModes_cons (s : Mirao52e) (op : Mode × ℚ) (ops : List (Mode × ℚ)) :
    s.setModes (op :: ops) = (s.SetZernMode op.1 op.2).2.setModes ops :=
  rfl

theorem Mirao52e.setModes_frame (s : Mirao52e) (ops : List (Mode × ℚ)) :
    s.setModes ops = { s with zer_rel := (s.setModes ops).zer_rel } := by
  induction ops generalizing s with
  | nil => rfl
  | cons op ops ih =>
    rw [Mirao52e.setModes_cons, ih]
    rw [Mirao52e.SetZernMode_eq]

theorem Mirao52e.setModes_zer_store (s : Mirao52e) (ops : List (Mode × ℚ)) :
    (s.setModes ops).zer_store = s.zer_store := by
  rw [Mirao52e.setModes_frame]

theorem lastTarget_cons_none (m : Mode) (op : Mode × ℚ) (ops : List (Mode × ℚ))
    (h : lastTarget m (op :: ops) = none) : lastTarget m ops = none ∧ op.1 ≠ m := by
  unfold lastTarget at h
  cases hr : lastTarget m ops with
  | some u => rw [hr] at h; simp at h
  | none =>
    rw [hr] at h
    refine ⟨rfl, fun he => ?_⟩
    simp [he] at h

theorem Mirao52e.setModes_untouched (s : Mirao52e) (ops : List (Mode × ℚ)) (j : Nat)
    (h : ∀ m : Mode, m.index = j → lastTarget m ops = none) :
    (s.setModes ops).zer_rel.zernike_coefficients j = s.zer_rel.zernike_coefficients j := by
  induction ops generalizing s with
  | nil => rfl
  | cons op ops ih =>
    rw [Mirao52e.setModes_cons]
    rw [ih _ (fun m hm => (lastTarget_cons_none m op ops (h m hm)).1)]
    rw [Mirao52e.SetZernMode_eq]
    have hne : j ≠ op.1.index := fun he =>
      (lastTarget_cons_none op.1 op ops (h op.1 he.symm)).2 rfl
    simp [Zernikes.assign_apply, hne]

theorem Mirao52e.setModes_last (s : Mirao52e) (ops : List (Mode × ℚ)) (m : Mode) (t : ℚ)
    (h : lastTarget m ops = some t) :
    (s.setModes ops).zer_rel.zernike_coefficients m.index
      = t - s.zer_store.zernike_coefficients m.index := by
  induction ops generalizing s with
  | nil => simp [lastTarget] at h
  | cons op ops ih =>
    rw [Mirao52e.setModes_cons]
    unfold lastTarget at h
    cases hr : lastTarget m ops with
    | some u =>
      rw [hr] at h
      simp only [Option.some.injEq] at h
      rw [ih _ (h ▸ hr), Mirao52e.SetZernMode_eq]
    | none =>
      rw [hr] at h
      by_cases he : op.1 = m
      · simp only [he, if_true, Option.some.injEq] at h
        rw [Mirao52e.setModes_untouched _ ops m.index
          (fun m' hm' => (Mode.index_injective m' m hm') ▸ hr)]
        rw [Mirao52e.SetZernMode_eq, he, ← h]
        simp [Zernikes.assign_apply]
      · simp [he] at h

theorem Mirao52e.setModes_congr (s : Mirao52e) (ops ops' : List (Mode × ℚ))
    (h : ∀ m, lastTarget m ops' = lastTarget m ops) : s.setModes ops' = s.setModes ops := by
  rw [Mirao52e.setModes_frame s ops', Mirao52e.setModes_frame s ops]
  have hrel : (s.setModes ops').zer_rel = (s.setModes ops).zer_rel := by
    ext j
    by_cases hj : ∃ m : Mode, m.index = j ∧ (lastTarget m ops).isSome = true
    · obtain ⟨m, hm, hs⟩ := hj
      obtain ⟨t, ht⟩ := Option.isSome_iff_exists.mp hs
      subst hm
      rw [Mirao52e.setModes_last s ops m t ht, Mirao52e.setModes_last s ops' m t ((h m).trans ht)]
    · have hn : ∀ m : Mode, m.index = j → lastTarget m ops = none := by
        intro m hm
        cases hl : lastTarget m ops with
        | none => rfl
        | some t => exact absurd ⟨m, hm, by simp [hl]⟩ hj
      rw [Mirao52e.setModes_untouched s ops j hn,
        Mirao52e.setModes_untouched s ops' j (fun m hm => (h m).trans (hn m hm))]
  rw [hrel]

/-! ## Deferred mode: set, apply, read -/

/-- C1: in deferred mode, for every starting state and every finite sequence of setter calls with
all targets between -1 and 1, followed by one `ApplyZernmodes`, the value a read reports for a
mode set in the sequence is the last target passed for that mode; and any other sequence with
the same last target per mode (in particular any reordering of calls to different modes) ends in
the same state. -/
theorem Mirao52e.deferred_reads_last_target (s : Mirao52e) (drv : Driver)
    (ops : List (Mode × ℚ)) (_hrange : ∀ op ∈ ops, -1 ≤ op.2 ∧ op.2 ≤ 1) :
    (∀ (m : Mode) (t p : ℚ), lastTarget m ops = some t →
      (((s.setModes ops).ApplyZernmodes drv).2.OnSetZernMode m p ActionType.BeforeGet).pProp = t) ∧
    (∀ ops' : List (Mode × ℚ), (∀ op ∈ ops', -1 ≤ op.2 ∧ op.2 ≤ 1) →
      (∀ m, lastTarget m ops' = lastTarget m ops) →
      (s.setModes ops').ApplyZernmodes drv = (s.setModes ops).ApplyZernmodes drv) := by
  refine ⟨fun m t p h => ?_, fun ops' _ h => ?_⟩
  · rw [Mirao52e.OnSetZernMode_BeforeGet, Mirao52e.ApplyZernmodes_eq]
    simp only [Zernikes.merge_apply, Zernikes.clear_apply, Mode.index_pos, Mode.index_le,
      and_self, if_true]
    rw [Mirao52e.setModes_last s ops m t h, Mirao52e.setModes_zer_store]
    ring
  · rw [Mirao52e.setModes_congr s ops ops' h]

/-- C1, at a concrete sequence: Tip 0.3, Tilt -1, Tip 0.5 from the fresh device, then apply;
Tip reads 0.5 and Tilt reads -1. -/
theorem Mirao52e.deferred_reads_last_target_witness :
    (∀ op ∈ [(Mode.Tip, (3/10 : ℚ)), (Mode.Tilt, -1), (Mode.Tip, 1/2)], -1 ≤ op.2 ∧ op.2 ≤ 1) ∧
    ((((Mirao52e.new.setModes [(Mode.Tip, 3/10), (Mode.Tilt, -1), (Mode.Tip, 1/2)]).ApplyZernmodes
        (fun _ => true)).2.OnSetZernMode Mode.Tip 0 ActionType.BeforeGet).pProp = 1/2) ∧
    ((((Mirao52e.new.setModes [(Mode.Tip, 3/10), (Mode.Tilt, -1), (Mode.Tip, 1/2)]).ApplyZernmodes
        (fun _ => true)).2.OnSetZernMode Mode.Tilt 0 ActionType.BeforeGet).pProp = -1) := by
  have hr : ∀ op ∈ [(Mode.Tip, (3/10 : ℚ)), (Mode.Tilt, -1), (Mode.Tip, 1/2)],
      -1 ≤ op.2 ∧ op.2 ≤ 1 := by
    intro op hop
    simp only [List.mem_cons, List.mem_singleton, List.not_mem_nil, or_false] at hop
    rcases hop with h | h | h <;> subst h <;> norm_num
  have h := Mirao52e.deferred_reads_last_target Mirao52e.new (fun _ => true)
    [(Mode.Tip, 3/10), (Mode.Tilt, -1), (Mode.Tip, 1/2)] hr
  exact ⟨hr, h.1 Mode.Tip (1/2) 0 (by simp [lastTarget]), h.1 Mode.Tilt (-1) 0 (by simp [lastTarget])⟩

/-- C2: for each of the 19 modes, with index i between 1 and 19, the setter returns `DEVICE_OK`
and leaves `zer_rel[i] = target - zer_store[i]`, with `zer_store` as it was on entry. -/
theorem Mirao52e.SetZernMode_stores_delta (s : Mirao52e) (m : Mode) (t : ℚ) :
    1 ≤ m.index ∧ m.index ≤ 19 ∧
    (s.SetZernMode m t).1 = DEVICE_OK ∧
    (s.SetZernMode m t).2.zer_rel.zernike_coefficients m.index
      = t - s.zer_store.zernike_coefficients m.index := by
  refine ⟨m.index_pos, m.index_le, ?_, ?_⟩
  · rw [Mirao52e.SetZernMode_eq]
  · rw [Mirao52e.SetZernMode_eq]
    simp [Zernikes.assign_apply]

/-- C3: `ApplyZernmodes` returns `DEVICE_OK` from every state and leaves, at every index i from 1
to 19, `zer_store[i]` equal to the entry value of `zer_store[i] + zer_rel[i]` and `zer_rel[i]`
equal to 0; result and post-state are the same for every outcome of the driver call. -/
theorem Mirao52e.ApplyZernmodes_commits (s : Mirao52e) (drv drv' : Driver) :
    (s.ApplyZernmodes drv).1 = DEVICE_OK ∧
    (∀ i, 1 ≤ i → i ≤ 19 →
      (s.ApplyZernmodes drv).2.zer_store.zernike_coefficients i
        = s.zer_store.zernike_coefficients i + s.zer_rel.zernike_coefficients i ∧
      (s.ApplyZernmodes drv).2.zer_rel.zernike_coefficients i = 0) ∧
    s.ApplyZernmodes drv' = s.ApplyZernmodes drv := by
  refine ⟨rfl, fun i h1 h19 => ?_, rfl⟩
  rw [Mirao52e.ApplyZernmodes_eq]
  simp [Zernikes.merge_apply, Zernikes.clear_apply, h1, h19]

/-- C3, at a concrete state: after Defocus is set to 1/4 on the fresh device, an apply whose
driver call fails commits index 3 exactly as an apply whose driver call succeeds. -/
theorem Mirao52e.ApplyZernmodes_commits_witness :
    (1 ≤ 3 ∧ 3 ≤ 19) ∧
    (((Mirao52e.new.SetZernMode_Defocus (1/4)).2.ApplyZernmodes
        (fun _ => false)).2.zer_store.zernike_coefficients 3
      = (Mirao52e.new.SetZernMode_Defocus (1/4)).2.zer_store.zernike_coefficients 3
        + (Mirao52e.new.SetZernMode_Defocus (1/4)).2.zer_rel.zernike_coefficients 3 ∧
    ((Mirao52e.new.SetZernMode_Defocus (1/4)).2.ApplyZernmodes
        (fun _ => false)).2.zer_rel.zernike_coefficients 3 = 0) ∧
    (Mirao52e.new.SetZernMode_Defocus (1/4)).2.zer_store.zernike_coefficients 3
        + (Mirao52e.new.SetZernMode_Defocus (1/4)).2.zer_rel.zernike_coefficients 3 = 1/4 :=
  ⟨⟨by decide, by decide⟩,
    (Mirao52e.ApplyZernmodes_commits (Mirao52e.new.SetZernMode_Defocus (1/4)).2
      (fun _ => false) (fun _ => true)).2.1 3 (by decide) (by decide),
    by norm_num [Mirao52e.SetZernMode_Defocus, Mirao52e.new, Zernikes.new, Zernikes.assign]⟩

/-- C4: for each of the 19 modes, a read through the property handler returns `DEVICE_OK`,
reports `zer_store[i] + zer_rel[i]` at the index i that the mode's setter writes, and leaves the
device, both buffers included, unchanged; a write through the handler runs that same setter. -/
theorem Mirao52e.OnSetZernMode_reads_tracked (s : Mirao52e) (m : Mode) (p : ℚ) :
    (s.OnSetZernMode m p ActionType.BeforeGet).ret = DEVICE_OK ∧
    (s.OnSetZernMode m p ActionType.BeforeGet).pProp
      = s.zer_store.zernike_coefficients m.index + s.zer_rel.zernike_coefficients m.index ∧
    (s.OnSetZernMode m p ActionType.BeforeGet).dev = s ∧
    (∀ t, (s.SetZernMode m t).2.zer_rel
      = s.zer_rel.assign m.index (t - s.zer_store.zernike_coefficients m.index)) ∧
    (∀ t, (s.OnSetZernMode m t ActionType.AfterSet).dev = (s.SetZernMode m t).2) := by
  refine ⟨?_, ?_, ?_, fun t => ?_, fun t => ?_⟩
  · rw [Mirao52e.OnSetZernMode_BeforeGet]
  · rw [Mirao52e.OnSetZernMode_BeforeGet]
  · rw [Mirao52e.OnSetZernMode_BeforeGet]
  · rw [Mirao52e.SetZernMode_eq]
  · rw [Mirao52e.OnSetZernMode_AfterSet]

/-- C5: last write wins in deferred mode.  Setting a mode to a and then to b gives the result and
state of setting it to b alone; and from an all-zero state, Tip set to 0.3 and then to 0.5 leaves
`zer_rel[1] = 0.5`, and after `ApplyZernmodes` `zer_store[1] = 0.5` and `zer_rel[1] = 0`. -/
theorem Mirao52e.SetZernMode_last_write_wins (s : Mirao52e) (m : Mode) (a b : ℚ) (drv : Driver) :
    (s.SetZernMode m a).2.SetZernMode m b = s.SetZernMode m b ∧
    ((∀ i, s.zer_store.zernike_coefficients i = 0) → (∀ i, s.zer_rel.zernike_coefficients i = 0) →
      ((s.SetZernMode_Tip 0.3).2.SetZernMode_Tip 0.5).2.zer_rel.zernike_coefficients 1 = 0.5 ∧
      (((s.SetZernMode_Tip 0.3).2.SetZernMode_Tip 0.5).2.ApplyZernmodes
        drv).2.zer_store.zernike_coefficients 1 = 0.5 ∧
      (((s.SetZernMode_Tip 0.3).2.SetZernMode_Tip 0.5).2.ApplyZernmodes
        drv).2.zer_rel.zernike_coefficients 1 = 0) := by
  constructor
  · rw [Mirao52e.SetZernMode_eq s m b, Mirao52e.SetZernMode_eq s m a, Mirao52e.SetZernMode_eq]
    simp only [Zernikes.assign_assign]
  · intro hs _
    rw [Mirao52e.ApplyZernmodes_eq]
    simp [Mirao52e.SetZernMode_Tip, Zernikes.merge_apply, Zernikes.clear_apply,
      Zernikes.assign_apply, hs 1]

/-- C5, on the fresh device, whose buffers are all zero. -/
theorem Mirao52e.SetZernMode_last_write_wins_witness :
    ((Mirao52e.new.SetZernMode_Tip 0.3).2.SetZernMode_Tip 0.5).2.zer_rel.zernike_coefficients 1
      = 0.5 ∧
    (((Mirao52e.new.SetZernMode_Tip 0.3).2.SetZernMode_Tip 0.5).2.ApplyZernmodes
      (fun _ => true)).2.zer_store.zernike_coefficients 1 = 0.5 ∧
    (((Mirao52e.new.SetZernMode_Tip 0.3).2.SetZernMode_Tip 0.5).2.ApplyZernmodes
      (fun _ => true)).2.zer_rel.zernike_coefficients 1 = 0 :=
  (Mirao52e.SetZernMode_last_write_wins Mirao52e.new Mode.Tip 0.3 0.5 (fun _ => true)).2
    (fun _ => rfl) (fun _ => rfl)

/-- C6: a setter of mode A changes `zer_rel` at A's index and nothing else: `zer_store` is
unchanged, `zer_rel` is unchanged at every other index and so at the index of every other mode B,
the stored paths, the port, the handles and the ready flag are unchanged, and no driver call is
made. -/
theorem Mirao52e.SetZernMode_frame (s : Mirao52e) (A : Mode) (t : ℚ) :
    (s.SetZernMode A t).2.zer_store = s.zer_store ∧
    (∀ j, j ≠ A.index →
      (s.SetZernMode A t).2.zer_rel.zernike_coefficients j = s.zer_rel.zernike_coefficients j) ∧
    (∀ B : Mode, B ≠ A →
      (s.SetZernMode A t).2.zer_rel.zernike_coefficients B.index
        = s.zer_rel.zernike_coefficients B.index) ∧
    ((s.SetZernMode A t).2.mirrorinitpath_ = s.mirrorinitpath_ ∧
      (s.SetZernMode A t).2.calibpath_ = s.calibpath_ ∧
      (s.SetZernMode A t).2.calibparamspath_ = s.calibparamspath_ ∧
      (s.SetZernMode A t).2.divprefpath_ = s.divprefpath_ ∧
      (s.SetZernMode A t).2.wfcpath_ = s.wfcpath_ ∧
      (s.SetZernMode A t).2.savepath_ = s.savepath_ ∧
      (s.SetZernMode A t).2.port_ = s.port_) ∧
    ((s.SetZernMode A t).2.mirrorhandle = s.mirrorhandle ∧
      (s.SetZernMode A t).2.diversityhandle = s.diversityhandle ∧
      (s.SetZernMode A t).2.calibparamshandle = s.calibparamshandle ∧
      (s.SetZernMode A t).2.divprefshandle = s.divprefshandle) ∧
    (s.SetZernMode A t).2.initialized_ = s.initialized_ ∧
    (s.SetZernMode A t).2.calls = s.calls := by
  rw [Mirao52e.SetZernMode_eq]
  refine ⟨rfl, fun j hj => ?_, fun B hB => ?_, ⟨rfl, rfl, rfl, rfl, rfl, rfl, rfl⟩,
    ⟨rfl, rfl, rfl, rfl⟩, rfl, rfl⟩
  · simp [Zernikes.assign_apply, hj]
  · have hne : B.index ≠ A.index := fun h => hB (Mode.index_injective B A h)
    simp [Zernikes.assign_apply, hne]

/-- C6, at a concrete state: with Tilt pending at 1/5, setting Tip to 7/10 leaves the pending
Tilt delta at 1/5. -/
theorem Mirao52e.SetZernMode_frame_witness :
    Mode.Tilt ≠ Mode.Tip ∧
    ((Mirao52e.new.SetZernMode Mode.Tilt (1/5)).2.SetZernMode Mode.Tip
        (7/10)).2.zer_rel.zernike_coefficients Mode.Tilt.index
      = (Mirao52e.new.SetZernMode Mode.Tilt (1/5)).2.zer_rel.zernike_coefficients Mode.Tilt.index ∧
    (Mirao52e.new.SetZernMode Mode.Tilt (1/5)).2.zer_rel.zernike_coefficients Mode.Tilt.index
      = 1/5 :=
  ⟨by decide,
    (Mirao52e.SetZernMode_frame (Mirao52e.new.SetZernMode Mode.Tilt (1/5)).2 Mode.Tip (7/10)).2.2.1
      Mode.Tilt (by decide),
    by norm_num [Mirao52e.SetZernMode, Mirao52e.SetZernMode_Tilt, Mirao52e.new, Zernikes.new,
      Zernikes.assign, Mode.index]⟩

/-! ## Immediate mode against deferred mode -/

theorem Zernikes.merge_of_clear (store rel : Zernikes)
    (h : ∀ i, 1 ≤ i → i ≤ 19 → rel.zernike_coefficients i = 0) : store.merge rel = store := by
  ext j
  rw [Zernikes.merge_apply]
  by_cases hj : 1 ≤ j ∧ j ≤ 19
  · rw [if_pos hj, h j hj.1 hj.2, add_zero]
  · rw [if_neg hj]

theorem Zernikes.clear_clear (z : Zernikes) : z.clear.clear = z.clear := by
  ext j
  simp only [Zernikes.clear_apply]
  by_cases hj : 1 ≤ j ∧ j ≤ 19 <;> simp [hj]

theorem Zernikes.assign_eq_merge_assign (store rel : Zernikes) (i : Nat) (t : ℚ) (h1 : 1 ≤ i)
    (h19 : i ≤ 19) :
    (store.merge rel).assign i t
      = store.merge (rel.assign i (t - store.zernike_coefficients i)) := by
  ext j
  simp only [Zernikes.assign_apply, Zernikes.merge_apply]
  by_cases hj : j = i
  · subst hj
    simp [h1, h19]
  · simp [hj]

theorem Mirao52e_FAKE.setModes_tracks (drv : Driver) (ops : List (FakeMode × ℚ))
    (sF : Mirao52e_FAKE) (s : Mirao52e) (h : sF.zer_store = s.zer_store.merge s.zer_rel) :
    (sF.setModes drv ops).zer_store
      = (s.setModes (ops.map (fun op => (op.1.toMode, op.2)))).zer_store.merge
          (s.setModes (ops.map (fun op => (op.1.toMode, op.2)))).zer_rel := by
  induction ops generalizing sF s with
  | nil => exact h
  | cons op ops ih =>
    simp only [List.map_cons, Mirao52e.setModes_cons]
    refine ih (sF.SetZernMode drv op.1 op.2).2 _ ?_
    rw [Mirao52e_FAKE.fake_SetZernMode_eq, Mirao52e.SetZernMode_eq, FakeMode.index_toMode]
    show sF.zer_store.assign op.1.index op.2 = _
    rw [h]
    exact Zernikes.assign_eq_merge_assign _ _ _ _
      (FakeMode.index_toMode op.1 ▸ Mode.index_pos _) (FakeMode.index_toMode op.1 ▸ Mode.index_le _)

/-- C7: immediate and deferred mode agree.  Starting from equal `zer_store` buffers and `zer_rel`
buffers that are zero at indices 1 to 19, for every finite sequence of setter calls over the
modes both classes implement, `zer_store` of `Mirao52e_FAKE` after the sequence equals
`zer_store` of `Mirao52e` after the same sequence followed by one `ApplyZernmodes`. -/
theorem Mirao52e_FAKE.setModes_agrees_with_deferred (sF : Mirao52e_FAKE) (s : Mirao52e)
    (drv drv' : Driver) (ops : List (FakeMode × ℚ))
    (hstore : sF.zer_store = s.zer_store)
    (_hrelF : ∀ i, 1 ≤ i → i ≤ 19 → sF.zer_rel.zernike_coefficients i = 0)
    (hrel : ∀ i, 1 ≤ i → i ≤ 19 → s.zer_rel.zernike_coefficients i = 0) :
    (sF.setModes drv ops).zer_store
      = ((s.setModes (ops.map (fun op => (op.1.toMode, op.2)))).ApplyZernmodes drv').2.zer_store := by
  rw [Mirao52e.ApplyZernmodes_eq]
  exact Mirao52e_FAKE.setModes_tracks drv ops sF s
    (by rw [Zernikes.merge_of_clear _ _ hrel]; exact hstore)

/-- C7, at a concrete sequence on the two fresh devices: Defocus 0.2, Quadrafoil0deg -0.4,
Defocus 0.6; both end with 0.6 at index 3 and -0.4 at index 16. -/
theorem Mirao52e_FAKE.setModes_agrees_with_deferred_witness :
    (Mirao52e_FAKE.new.setModes (fun _ => true)
        [(FakeMode.Defocus, 0.2), (FakeMode.Quadrafoil0deg, -0.4), (FakeMode.Defocus, 0.6)]).zer_store
      = ((Mirao52e.new.setModes
          ([(FakeMode.Defocus, (0.2 : ℚ)), (FakeMode.Quadrafoil0deg, -0.4),
            (FakeMode.Defocus, 0.6)].map (fun op => (op.1.toMode, op.2)))).ApplyZernmodes
          (fun _ => true)).2.zer_store ∧
    (Mirao52e_FAKE.new.setModes (fun _ => true)
        [(FakeMode.Defocus, 0.2), (FakeMode.Quadrafoil0deg, -0.4),
          (FakeMode.Defocus, 0.6)]).zer_store.zernike_coefficients 3 = 0.6 ∧
    (Mirao52e_FAKE.new.setModes (fun _ => true)
        [(FakeMode.Defocus, 0.2), (FakeMode.Quadrafoil0deg, -0.4),
          (FakeMode.Defocus, 0.6)]).zer_store.zernike_coefficients 16 = -0.4 :=
  ⟨Mirao52e_FAKE.setModes_agrees_with_deferred Mirao52e_FAKE.new Mirao52e.new (fun _ => true)
      (fun _ => true) _ rfl (fun _ _ _ => rfl) (fun _ _ _ => rfl),
    by norm_num [Mirao52e_FAKE.setModes, Mirao52e_FAKE.SetZernMode,
      Mirao52e_FAKE.SetZernMode_Defocus, Mirao52e_FAKE.SetZernMode_Quadrafoil0deg,
      Mirao52e_FAKE.new, Zernikes.new, Zernikes.assign],
    by norm_num [Mirao52e_FAKE.setModes, Mirao52e_FAKE.SetZernMode,
      Mirao52e_FAKE.SetZernMode_Defocus, Mirao52e_FAKE.SetZernMode_Quadrafoil0deg,
      Mirao52e_FAKE.new, Zernikes.new, Zernikes.assign]⟩

/-! ## Loading an absolute wavefront -/

/-- C8: for every state and every path whose file exists, `LoadWavefront` returns `DEVICE_OK` and
leaves `zer_store[i] = 0` and `zer_rel[i] = 0` for every i from 1 to 19, so that a following read
of any mode reports 0, whatever the buffers held before and whatever the driver did with the
file; this holds for `Mirao52e` (19 mode handlers) and for `Mirao52e_FAKE` (the 14 mode handlers
it has). -/
theorem LoadWavefront_resets_tracked (fs : FileSystem) (drv : Driver) (path : String)
    (hexists : fileexists fs path = true) (s : Mirao52e) (sF : Mirao52e_FAKE) :
    ((s.LoadWavefront fs drv path).1 = DEVICE_OK ∧
      (∀ i, 1 ≤ i → i ≤ 19 →
        (s.LoadWavefront fs drv path).2.zer_store.zernike_coefficients i = 0 ∧
        (s.LoadWavefront fs drv path).2.zer_rel.zernike_coefficients i = 0) ∧
      (∀ (m : Mode) (p : ℚ),
        ((s.LoadWavefront fs drv path).2.OnSetZernMode m p ActionType.BeforeGet).pProp = 0)) ∧
    ((sF.LoadWavefront fs drv path).1 = DEVICE_OK ∧
      (∀ i, 1 ≤ i → i ≤ 19 →
        (sF.LoadWavefront fs drv path).2.zer_store.zernike_coefficients i = 0 ∧
        (sF.LoadWavefront fs drv path).2.zer_rel.zernike_coefficients i = 0) ∧
      (∀ (m : FakeMode) (p : ℚ),
        ((sF.LoadWavefront fs drv path).2.OnSetZernMode drv m p ActionType.BeforeGet).pProp = 0)) := by
  have hs : s.LoadWavefront fs drv path
      = (DEVICE_OK, { s with
          wfcpath_ := path
          calls := s.calls ++ [DriverCall.Apply_Absolute_Commands_From_File path]
          zer_store := s.zer_store.clear
          zer_rel := s.zer_rel.clear }) := by
    simp [Mirao52e.LoadWavefront, hexists]
  have hF : sF.LoadWavefront fs drv path
      = (DEVICE_OK, { sF with
          wfcpath_ := path
          calls := sF.calls ++ [DriverCall.Apply_Absolute_Commands_From_File path]
          zer_store := sF.zer_store.clear
          zer_rel := sF.zer_rel.clear }) := by
    simp [Mirao52e_FAKE.LoadWavefront, hexists]
  rw [hs, hF]
  refine ⟨⟨rfl, fun i h1 h19 => ?_, fun m p => ?_⟩, ⟨rfl, fun i h1 h19 => ?_, fun m p => ?_⟩⟩
  · simp [Zernikes.clear_apply, h1, h19]
  · rw [Mirao52e.OnSetZernMode_BeforeGet]
    simp [Zernikes.clear_apply, Mode.index_pos, Mode.index_le]
  · simp [Zernikes.clear_apply, h1, h19]
  · rw [Mirao52e_FAKE.fake_OnSetZernMode_BeforeGet]
    have h1 : 1 ≤ m.index := FakeMode.index_toMode m ▸ Mode.index_pos _
    have h19 : m.index ≤ 19 := FakeMode.index_toMode m ▸ Mode.index_le _
    simp [Zernikes.clear_apply, h1, h19]

/-- C8, at a concrete state: with only the default wavefront file present, loading it after
Coma0deg was set to 0.7 and applied makes Coma0deg read 0 again on both devices. -/
theorem LoadWavefront_resets_tracked_witness :
    fileexists (fun p => p == g_wfc_initpath) g_wfc_initpath = true ∧
    ((((Mirao52e.new.SetZernMode_Coma0deg 0.7).2.ApplyZernmodes (fun _ => true)).2.LoadWavefront
        (fun p => p == g_wfc_initpath) (fun _ => false) g_wfc_initpath).2.OnSetZernMode
          Mode.Coma0deg 0 ActionType.BeforeGet).pProp = 0 ∧
    (((Mirao52e_FAKE.new.SetZernMode_Coma0deg (fun _ => true) 0.7).2.LoadWavefront
        (fun p => p == g_wfc_initpath) (fun _ => false) g_wfc_initpath).2.OnSetZernMode
          (fun _ => false) FakeMode.Coma0deg 0 ActionType.BeforeGet).pProp = 0 :=
  have hex : fileexists (fun p => p == g_wfc_initpath) g_wfc_initpath = true := by
    simp [fileexists]
  have h := LoadWavefront_resets_tracked (fun p => p == g_wfc_initpath) (fun _ => false)
    g_wfc_initpath hex ((Mirao52e.new.SetZernMode_Coma0deg 0.7).2.ApplyZernmodes (fun _ => true)).2
    (Mirao52e_FAKE.new.SetZernMode_Coma0deg (fun _ => true) 0.7).2
  ⟨hex, h.1.2.2 Mode.Coma0deg 0, h.2.2.2 FakeMode.Coma0deg 0⟩

/-! ## Range of the targets -/

/-- C9 fails as stated: on the fresh device, after `SetZernMode_Tip(1.5)` a read reports 1.5,
not the clamped value 1, and after `SetZernMode_Tip(-2.0)` it reports -2, not -1; so the current
target does not stay between -1 and 1. -/
theorem Mirao52e.SetZernMode_out_of_range_kept :
    ((Mirao52e.new.SetZernMode_Tip 1.5).2.OnSetZernMode_Tip 0 ActionType.BeforeGet).pProp = 1.5 ∧
    clampTarget 1.5 = 1 ∧
    ((Mirao52e.new.SetZernMode_Tip 1.5).2.OnSetZernMode_Tip 0 ActionType.BeforeGet).pProp
      ≠ clampTarget 1.5 ∧
    ¬ ((Mirao52e.new.SetZernMode_Tip 1.5).2.OnSetZernMode_Tip 0 ActionType.BeforeGet).pProp ≤ 1 ∧
    ((Mirao52e.new.SetZernMode_Tip (-2.0)).2.OnSetZernMode_Tip 0 ActionType.BeforeGet).pProp = -2 ∧
    clampTarget (-2.0) = -1 ∧
    ¬ -1 ≤ ((Mirao52e.new.SetZernMode_Tip (-2.0)).2.OnSetZernMode_Tip 0
      ActionType.BeforeGet).pProp := by
  norm_num [Mirao52e.SetZernMode_Tip, Mirao52e.OnSetZernMode_Tip, Mirao52e.new, Zernikes.new,
    Zernikes.assign, clampTarget]

/-- C9 as amended: for every mode and every target t the setter uses t itself, never the clamped
target, and always succeeds: it returns `DEVICE_OK` and stores `t - zer_store[i]` in `zer_rel[i]`,
so that a read afterwards reports `zer_store[i] + (t - zer_store[i])`.  From a state with
`zer_store[i] = 0` a read after `SetZernMode(1.5)` reports 1.5 and after `SetZernMode(-2.0)`
reports -2.  In exact arithmetic the value read is t, so it lies between -1 and 1 exactly when t
does, and it coincides with the clamped target for such t only. -/
theorem Mirao52e.SetZernMode_keeps_target (s : Mirao52e) (m : Mode) (t p : ℚ) :
    (s.SetZernMode m t).1 = DEVICE_OK ∧
    (s.SetZernMode m t).2.zer_rel.zernike_coefficients m.index
      = t - s.zer_store.zernike_coefficients m.index ∧
    (s.SetZernMode m t).2.zer_store = s.zer_store ∧
    ((s.SetZernMode m t).2.OnSetZernMode m p ActionType.BeforeGet).pProp
      = s.zer_store.zernike_coefficients m.index
        + (t - s.zer_store.zernike_coefficients m.index) ∧
    (s.zer_store.zernike_coefficients m.index = 0 →
      ((s.SetZernMode m 1.5).2.OnSetZernMode m p ActionType.BeforeGet).pProp = 1.5 ∧
      ((s.SetZernMode m (-2.0)).2.OnSetZernMode m p ActionType.BeforeGet).pProp = -2.0) ∧
    ((s.SetZernMode m t).2.OnSetZernMode m p ActionType.BeforeGet).pProp = t ∧
    ((-1 ≤ ((s.SetZernMode m t).2.OnSetZernMode m p ActionType.BeforeGet).pProp ∧
        ((s.SetZernMode m t).2.OnSetZernMode m p ActionType.BeforeGet).pProp ≤ 1)
      ↔ (-1 ≤ t ∧ t ≤ 1)) ∧
    (((s.SetZernMode m t).2.OnSetZernMode m p ActionType.BeforeGet).pProp = clampTarget t
      ↔ (-1 ≤ t ∧ t ≤ 1)) := by
  have hsrc : ∀ u : ℚ, ((s.SetZernMode m u).2.OnSetZernMode m p ActionType.BeforeGet).pProp
      = s.zer_store.zernike_coefficients m.index
        + (u - s.zer_store.zernike_coefficients m.index) := by
    intro u
    rw [Mirao52e.OnSetZernMode_BeforeGet, Mirao52e.SetZernMode_eq]
    simp [Zernikes.assign_apply]
  have hread : ((s.SetZernMode m t).2.OnSetZernMode m p ActionType.BeforeGet).pProp = t := by
    rw [hsrc t]
    ring
  refine ⟨?_, ?_, ?_, hsrc t, fun h0 => ?_, hread, ?_, ?_⟩
  · rw [Mirao52e.SetZernMode_eq]
  · rw [Mirao52e.SetZernMode_eq]
    simp [Zernikes.assign_apply]
  · rw [Mirao52e.SetZernMode_eq]
  · rw [hsrc, hsrc, h0]
    constructor <;> norm_num
  · rw [hread]
  · rw [hread]
    unfold clampTarget
    constructor
    · intro h
      by_cases hlo : t < -1
      · rw [if_pos hlo] at h
        rw [h] at hlo
        exact absurd hlo (lt_irrefl _)
      · rw [if_neg hlo] at h
        by_cases hhi : 1 < t
        · rw [if_pos hhi] at h
          rw [h] at hhi
          exact absurd hhi (lt_irrefl _)
        · exact ⟨not_lt.mp hlo, not_lt.mp hhi⟩
    · intro ht
      rw [if_neg (not_lt.mpr ht.1), if_neg (not_lt.mpr ht.2)]

/-- C9 as amended, at a concrete input: on the fresh device, where nothing is applied at index
4, Astig0deg set to 1.5 reads 1.5 and set to -2.0 reads -2. -/
theorem Mirao52e.SetZernMode_keeps_target_witness :
    Mirao52e.new.zer_store.zernike_coefficients Mode.Astig0deg.index = 0 ∧
    ((Mirao52e.new.SetZernMode Mode.Astig0deg 1.5).2.OnSetZernMode Mode.Astig0deg 0
      ActionType.BeforeGet).pProp = 1.5 ∧
    ((Mirao52e.new.SetZernMode Mode.Astig0deg (-2.0)).2.OnSetZernMode Mode.Astig0deg 0
      ActionType.BeforeGet).pProp = -2.0 :=
  ⟨rfl, (Mirao52e.SetZernMode_keeps_target Mirao52e.new Mode.Astig0deg 0.25 0).2.2.2.2.1 rfl⟩

/-! ## Applying with nothing pending -/

/-- C10: from every state in which `zer_rel` is zero at indices 1 to 19, `ApplyZernmodes` returns
`DEVICE_OK` and leaves `zer_store` as it was at every index; and from every state, applying twice
in a row succeeds and gives the same `zer_store` and `zer_rel` as applying once. -/
theorem Mirao52e.ApplyZernmodes_idempotent (s : Mirao52e) (drv drv' : Driver) :
    ((∀ i, 1 ≤ i → i ≤ 19 → s.zer_rel.zernike_coefficients i = 0) →
      (s.ApplyZernmodes drv).1 = DEVICE_OK ∧ (s.ApplyZernmodes drv).2.zer_store = s.zer_store) ∧
    (((s.ApplyZernmodes drv).2.ApplyZernmodes drv').1 = DEVICE_OK ∧
      ((s.ApplyZernmodes drv).2.ApplyZernmodes drv').2.zer_store
        = (s.ApplyZernmodes drv).2.zer_store ∧
      ((s.ApplyZernmodes drv).2.ApplyZernmodes drv').2.zer_rel
        = (s.ApplyZernmodes drv).2.zer_rel) := by
  refine ⟨fun h => ⟨rfl, ?_⟩, rfl, ?_, ?_⟩
  · rw [Mirao52e.ApplyZernmodes_eq]
    exact Zernikes.merge_of_clear _ _ h
  · rw [Mirao52e.ApplyZernmodes_eq, Mirao52e.ApplyZernmodes_eq]
    refine Zernikes.merge_of_clear _ _ (fun i h1 h19 => ?_)
    simp [Zernikes.clear_apply, h1, h19]
  · rw [Mirao52e.ApplyZernmodes_eq, Mirao52e.ApplyZernmodes_eq]
    exact Zernikes.clear_clear _

/-- C10, at a concrete state: once Tip 0.5 has been applied on the fresh device nothing is
pending, and a further apply leaves `zer_store` as it is, with 0.5 at index 1. -/
theorem Mirao52e.ApplyZernmodes_idempotent_witness :
    (∀ i, 1 ≤ i → i ≤ 19 →
      ((Mirao52e.new.SetZernMode_Tip 0.5).2.ApplyZernmodes
        (fun _ => true)).2.zer_rel.zernike_coefficients i = 0) ∧
    ((((Mirao52e.new.SetZernMode_Tip 0.5).2.ApplyZernmodes (fun _ => true)).2.ApplyZernmodes
        (fun _ => true)).1 = DEVICE_OK ∧
      (((Mirao52e.new.SetZernMode_Tip 0.5).2.ApplyZernmodes (fun _ => true)).2.ApplyZernmodes
        (fun _ => true)).2.zer_store
        = ((Mirao52e.new.SetZernMode_Tip 0.5).2.ApplyZernmodes (fun _ => true)).2.zer_store) ∧
    ((Mirao52e.new.SetZernMode_Tip 0.5).2.ApplyZernmodes
      (fun _ => true)).2.zer_store.zernike_coefficients 1 = 0.5 :=
  have hz : ∀ i, 1 ≤ i → i ≤ 19 →
      ((Mirao52e.new.SetZernMode_Tip 0.5).2.ApplyZernmodes
        (fun _ => true)).2.zer_rel.zernike_coefficients i = 0 := by
    intro i h1 h19
    rw [Mirao52e.ApplyZernmodes_eq]
    simp [Zernikes.clear_apply, h1, h19]
  ⟨hz,
    (Mirao52e.ApplyZernmodes_idempotent
      ((Mirao52e.new.SetZernMode_Tip 0.5).2.ApplyZernmodes (fun _ => true)).2
      (fun _ => true) (fun _ => true)).1 hz,
    by
      rw [Mirao52e.ApplyZernmodes_eq]
      norm_num [Zernikes.merge_apply, Mirao52e.SetZernMode_Tip, Mirao52e.new, Zernikes.new,
        Zernikes.assign]⟩


/-! ## Initialization -/

theorem createProperties_ok (host : Host) (names : List String)
    (h : ∀ name ∈ names, host name = DEVICE_OK) : createProperties host names = DEVICE_OK := by
  induction names with
  | nil => rfl
  | cons name rest ih =>
    have h0 : host name = DEVICE_OK := h name (List.mem_cons_self _ _)
    simp only [createProperties, h0, ne_eq, not_true_eq_false, if_false]
    exact ih (fun n hn => h n (List.mem_cons_of_mem _ hn))

theorem Mirao52e.Initialize_calls (s : Mirao52e) (fs : FileSystem) (drv : Driver) (host : Host)
    (hinit : s.initialized_ = false)
    (h1 : fileexists fs s.mirrorinitpath_ = true) (h2 : fileexists fs s.calibpath_ = true)
    (h3 : fileexists fs s.calibparamspath_ = true) (h4 : fileexists fs s.divprefpath_ = true) :
    (s.Initialize fs drv host).2.calls
      = s.calls ++
        [DriverCall.Mirror_new g_mirrorinit_path, DriverCall.init_hardware,
          DriverCall.Diversity_new s.calibpath_ (some g_mirrorinit_path),
          DriverCall.CalibrationParams_Load s.calibparamspath_,
          DriverCall.DiversityPreferences_Load s.divprefpath_,
          DriverCall.Init_Diversity (some s.calibparamspath_) (some s.divprefpath_)] ++
        (if fileexists fs g_wfc_initpath = true then
          [DriverCall.Apply_Absolute_Commands_From_File g_wfc_initpath]
        else []) := by
  by_cases hw : fileexists fs g_wfc_initpath = true <;>
    by_cases hp : createProperties host initProperties = DEVICE_OK <;>
    simp [Mirao52e.Initialize, Mirao52e.LoadWavefront, hinit, h1, h2, h3, h4, hw, hp]

/-- C11: on an uninitialized device with at least one of the four configured files missing,
`Initialize` returns the code of the first missing file in the order mirror-init, calibration,
calibration-params, diversity-preferences; the four codes and `DEVICE_OK` are pairwise distinct;
the device record is left as it was, so it stays uninitialized and no driver call is made.  In
particular, with only the calibration-params file missing the result is
`ERR_CAL_FILE_NONEXIST`. -/
theorem Mirao52e.Initialize_reports_first_missing (s : Mirao52e) (fs : FileSystem) (drv : Driver)
    (host : Host) (hinit : s.initialized_ = false)
    (hmiss : ¬ (fileexists fs s.mirrorinitpath_ = true ∧ fileexists fs s.calibpath_ = true ∧
      fileexists fs s.calibparamspath_ = true ∧ fileexists fs s.divprefpath_ = true)) :
    (fileexists fs s.mirrorinitpath_ = false →
      (s.Initialize fs drv host).1 = ERR_MIRRORINIT_FILE_NONEXIST) ∧
    (fileexists fs s.mirrorinitpath_ = true → fileexists fs s.calibpath_ = false →
      (s.Initialize fs drv host).1 = ERR_DIVINIT_FILE_NONEXIST) ∧
    (fileexists fs s.mirrorinitpath_ = true → fileexists fs s.calibpath_ = true →
      fileexists fs s.calibparamspath_ = false →
      (s.Initialize fs drv host).1 = ERR_CAL_FILE_NONEXIST) ∧
    (fileexists fs s.mirrorinitpath_ = true → fileexists fs s.calibpath_ = true →
      fileexists fs s.calibparamspath_ = true → fileexists fs s.divprefpath_ = false →
      (s.Initialize fs drv host).1 = ERR_DIVPREF_FILE_NONEXIST) ∧
    [ERR_MIRRORINIT_FILE_NONEXIST, ERR_DIVINIT_FILE_NONEXIST, ERR_CAL_FILE_NONEXIST,
      ERR_DIVPREF_FILE_NONEXIST, DEVICE_OK].Nodup ∧
    (s.Initialize fs drv host).1 ≠ DEVICE_OK ∧
    (s.Initialize fs drv host).2 = s ∧
    (s.Initialize fs drv host).2.initialized_ = false ∧
    (s.Initialize fs drv host).2.calls = s.calls := by
  have hnodup : [ERR_MIRRORINIT_FILE_NONEXIST, ERR_DIVINIT_FILE_NONEXIST, ERR_CAL_FILE_NONEXIST,
      ERR_DIVPREF_FILE_NONEXIST, DEVICE_OK].Nodup := by decide
  have hstate : (s.Initialize fs drv host).1 ≠ DEVICE_OK ∧ (s.Initialize fs drv host).2 = s := by
    cases h1 : fileexists fs s.mirrorinitpath_ <;> cases h2 : fileexists fs s.calibpath_ <;>
      cases h3 : fileexists fs s.calibparamspath_ <;> cases h4 : fileexists fs s.divprefpath_ <;>
      first
      | (simp [Mirao52e.Initialize, hinit, h1, h2, h3, h4, ERR_MIRRORINIT_FILE_NONEXIST,
          ERR_DIVINIT_FILE_NONEXIST, ERR_CAL_FILE_NONEXIST, ERR_DIVPREF_FILE_NONEXIST,
          DEVICE_OK]; done)
      | exact absurd (And.intro h1 (And.intro h2 (And.intro h3 h4))) hmiss
  refine ⟨fun h1 => ?_, fun h1 h2 => ?_, fun h1 h2 h3 => ?_, fun h1 h2 h3 h4 => ?_, hnodup,
    hstate.1, hstate.2, ?_, ?_⟩
  · simp [Mirao52e.Initialize, hinit, h1]
  · simp [Mirao52e.Initialize, hinit, h1, h2]
  · simp [Mirao52e.Initialize, hinit, h1, h2, h3]
  · simp [Mirao52e.Initialize, hinit, h1, h2, h3, h4]
  · rw [hstate.2]; exact hinit
  · rw [hstate.2]

/-- C11, on the fresh device when every file but the calibration-params file is present: the
result is `ERR_CAL_FILE_NONEXIST`. -/
theorem Mirao52e.Initialize_reports_first_missing_witness :
    (Mirao52e.new.Initialize (fun p => p != g_calibparams_initpath) (fun _ => true)
      (fun _ => DEVICE_OK)).1 = ERR_CAL_FILE_NONEXIST ∧
    (Mirao52e.new.Initialize (fun p => p != g_calibparams_initpath) (fun _ => true)
      (fun _ => DEVICE_OK)).2.initialized_ = false :=
  have h := Mirao52e.Initialize_reports_first_missing Mirao52e.new
    (fun p => p != g_calibparams_initpath) (fun _ => true) (fun _ => DEVICE_OK) rfl
    (fun hall => absurd hall.2.2.1 (by decide))
  ⟨h.2.2.1 (by decide) (by decide) (by decide), h.2.2.2.2.2.2.2.1⟩

/-- C12: when all four configured files exist and every property creation succeeds, `Initialize`
on an uninitialized device returns `DEVICE_OK` and leaves the device initialized, having made
the driver calls, in this order: open the mirror (and start its hardware), build the calibration
model against that mirror, load the calibration params, load the diversity preferences,
initialize the diversity engine with those two; the default wavefront file is then applied when
it exists. -/
theorem Mirao52e.Initialize_succeeds (s : Mirao52e) (fs : FileSystem) (drv : Driver) (host : Host)
    (hinit : s.initialized_ = false)
    (h1 : fileexists fs s.mirrorinitpath_ = true) (h2 : fileexists fs s.calibpath_ = true)
    (h3 : fileexists fs s.calibparamspath_ = true) (h4 : fileexists fs s.divprefpath_ = true)
    (hhost : ∀ name ∈ initProperties, host name = DEVICE_OK) :
    (s.Initialize fs drv host).1 = DEVICE_OK ∧
    (s.Initialize fs drv host).2.initialized_ = true ∧
    (s.Initialize fs drv host).2.calls
      = s.calls ++
        [DriverCall.Mirror_new g_mirrorinit_path, DriverCall.init_hardware,
          DriverCall.Diversity_new s.calibpath_ (some g_mirrorinit_path),
          DriverCall.CalibrationParams_Load s.calibparamspath_,
          DriverCall.DiversityPreferences_Load s.divprefpath_,
          DriverCall.Init_Diversity (some s.calibparamspath_) (some s.divprefpath_)] ++
        (if fileexists fs g_wfc_initpath = true then
          [DriverCall.Apply_Absolute_Commands_From_File g_wfc_initpath]
        else []) := by
  have hp := createProperties_ok host initProperties hhost
  refine ⟨?_, ?_, Mirao52e.Initialize_calls s fs drv host hinit h1 h2 h3 h4⟩
  · simp [Mirao52e.Initialize, hinit, h1, h2, h3, h4, hp]
  · simp [Mirao52e.Initialize, hinit, h1, h2, h3, h4, hp]

/-- C12, on the fresh device with the four configured files present and no default wavefront
file: six driver calls are made and the device is initialized. -/
theorem Mirao52e.Initialize_succeeds_witness :
    (Mirao52e.new.Initialize (fun p => p != g_wfc_initpath) (fun _ => true)
      (fun _ => DEVICE_OK)).1 = DEVICE_OK ∧
    (Mirao52e.new.Initialize (fun p => p != g_wfc_initpath) (fun _ => true)
      (fun _ => DEVICE_OK)).2.initialized_ = true ∧
    (Mirao52e.new.Initialize (fun p => p != g_wfc_initpath) (fun _ => true)
      (fun _ => DEVICE_OK)).2.calls.length = 6 :=
  have h := Mirao52e.Initialize_succeeds Mirao52e.new (fun p => p != g_wfc_initpath)
    (fun _ => true) (fun _ => DEVICE_OK) rfl (by decide) (by decide) (by decide) (by decide)
    (fun _ _ => rfl)
  ⟨h.1, h.2.1, by rw [h.2.2]; decide⟩

/-! ## Swapping a calibration artifact -/

/-- C13: for each of `SetCalibration`, `SetCalibrationParams` and `SetDiversityPref` and every
path whose file does not exist, the call returns `ERR_FILE_NONEXIST` and leaves the device
record as it was: the three stored paths, the four handles and the sequence of driver calls are
unchanged, so no driver call, and in particular no `Init_Diversity`, is made. -/
theorem Mirao52e.swap_missing_file (s : Mirao52e) (fs : FileSystem) (drv : Driver) (path : String)
    (hmiss : fileexists fs path = false) :
    (s.SetCalibration fs drv path = (ERR_FILE_NONEXIST, s) ∧
      (s.SetCalibration fs drv path).2.calibpath_ = s.calibpath_ ∧
      (s.SetCalibration fs drv path).2.diversityhandle = s.diversityhandle ∧
      (s.SetCalibration fs drv path).2.calls = s.calls) ∧
    (s.SetCalibrationParams fs drv path = (ERR_FILE_NONEXIST, s) ∧
      (s.SetCalibrationParams fs drv path).2.calibparamspath_ = s.calibparamspath_ ∧
      (s.SetCalibrationParams fs drv path).2.calibparamshandle = s.calibparamshandle ∧
      (s.SetCalibrationParams fs drv path).2.calls = s.calls) ∧
    (s.SetDiversityPref fs drv path = (ERR_FILE_NONEXIST, s) ∧
      (s.SetDiversityPref fs drv path).2.divprefpath_ = s.divprefpath_ ∧
      (s.SetDiversityPref fs drv path).2.divprefshandle = s.divprefshandle ∧
      (s.SetDiversityPref fs drv path).2.calls = s.calls) := by
  have h1 : s.SetCalibration fs drv path = (ERR_FILE_NONEXIST, s) := by
    simp [Mirao52e.SetCalibration, hmiss]
  have h2 : s.SetCalibrationParams fs drv path = (ERR_FILE_NONEXIST, s) := by
    simp [Mirao52e.SetCalibrationParams, hmiss]
  have h3 : s.SetDiversityPref fs drv path = (ERR_FILE_NONEXIST, s) := by
    simp [Mirao52e.SetDiversityPref, hmiss]
  rw [h1, h2, h3]
  exact ⟨⟨rfl, rfl, rfl, rfl⟩, ⟨rfl, rfl, rfl, rfl⟩, ⟨rfl, rfl, rfl, rfl⟩⟩

/-- C13, on the initialized device when the new calibration-params file is absent: the default
path stays stored and the six driver calls of the initialization stay the only ones. -/
theorem Mirao52e.swap_missing_file_witness :
    fileexists (fun p => p != "MIRAO/new_params.xml") "MIRAO/new_params.xml" = false ∧
    ((Mirao52e.new.Initialize (fun p => p != g_wfc_initpath) (fun _ => true)
        (fun _ => DEVICE_OK)).2.SetCalibrationParams (fun p => p != "MIRAO/new_params.xml")
        (fun _ => true) "MIRAO/new_params.xml").1 = ERR_FILE_NONEXIST ∧
    ((Mirao52e.new.Initialize (fun p => p != g_wfc_initpath) (fun _ => true)
        (fun _ => DEVICE_OK)).2.SetCalibrationParams (fun p => p != "MIRAO/new_params.xml")
        (fun _ => true) "MIRAO/new_params.xml").2.calibparamspath_ = g_calibparams_initpath ∧
    ((Mirao52e.new.Initialize (fun p => p != g_wfc_initpath) (fun _ => true)
        (fun _ => DEVICE_OK)).2.SetCalibrationParams (fun p => p != "MIRAO/new_params.xml")
        (fun _ => true) "MIRAO/new_params.xml").2.calls.length = 6 :=
  have hmiss : fileexists (fun p => p != "MIRAO/new_params.xml") "MIRAO/new_params.xml" = false := by
    decide
  have h := (Mirao52e.swap_missing_file
    (Mirao52e.new.Initialize (fun p => p != g_wfc_initpath) (fun _ => true)
      (fun _ => DEVICE_OK)).2
    (fun p => p != "MIRAO/new_params.xml") (fun _ => true) "MIRAO/new_params.xml" hmiss).2.1.1
  ⟨hmiss, by rw [h], by rw [h]; decide, by rw [h]; decide⟩

/-- C14: for each of `SetCalibration`, `SetCalibrationParams` and `SetDiversityPref` and every
path whose file exists, the call returns `DEVICE_OK`, sets the stored path of the targeted
artifact to the given path and leaves the other two paths unchanged, reloads the targeted
artifact only, leaves the mirror handle as it was, and makes exactly two driver calls: the
reload, then one `Init_Diversity` with the calibration-params and diversity-preferences objects
as they are after the reload. -/
theorem Mirao52e.swap_existing_file (s : Mirao52e) (fs : FileSystem) (drv : Driver)
    (path : String) (hexists : fileexists fs path = true) :
    ((s.SetCalibration fs drv path).1 = DEVICE_OK ∧
      (s.SetCalibration fs drv path).2.calibpath_ = path ∧
      (s.SetCalibration fs drv path).2.calibparamspath_ = s.calibparamspath_ ∧
      (s.SetCalibration fs drv path).2.divprefpath_ = s.divprefpath_ ∧
      (s.SetCalibration fs drv path).2.mirrorhandle = s.mirrorhandle ∧
      (s.SetCalibration fs drv path).2.diversityhandle = some path ∧
      (s.SetCalibration fs drv path).2.calibparamshandle = s.calibparamshandle ∧
      (s.SetCalibration fs drv path).2.divprefshandle = s.divprefshandle ∧
      (s.SetCalibration fs drv path).2.calls
        = s.calls ++ [DriverCall.Diversity_new path s.mirrorhandle,
            DriverCall.Init_Diversity s.calibparamshandle s.divprefshandle]) ∧
    ((s.SetCalibrationParams fs drv path).1 = DEVICE_OK ∧
      (s.SetCalibrationParams fs drv path).2.calibparamspath_ = path ∧
      (s.SetCalibrationParams fs drv path).2.calibpath_ = s.calibpath_ ∧
      (s.SetCalibrationParams fs drv path).2.divprefpath_ = s.divprefpath_ ∧
      (s.SetCalibrationParams fs drv path).2.mirrorhandle = s.mirrorhandle ∧
      (s.SetCalibrationParams fs drv path).2.diversityhandle = s.diversityhandle ∧
      (s.SetCalibrationParams fs drv path).2.calibparamshandle
        = s.calibparamshandle.map (fun _ => path) ∧
      (s.SetCalibrationParams fs drv path).2.divprefshandle = s.divprefshandle ∧
      (s.SetCalibrationParams fs drv path).2.calls
        = s.calls ++ [DriverCall.CalibrationParams_Load path,
            DriverCall.Init_Diversity (s.calibparamshandle.map (fun _ => path))
              s.divprefshandle]) ∧
    ((s.SetDiversityPref fs drv path).1 = DEVICE_OK ∧
      (s.SetDiversityPref fs drv path).2.divprefpath_ = path ∧
      (s.SetDiversityPref fs drv path).2.calibpath_ = s.calibpath_ ∧
      (s.SetDiversityPref fs drv path).2.calibparamspath_ = s.calibparamspath_ ∧
      (s.SetDiversityPref fs drv path).2.mirrorhandle = s.mirrorhandle ∧
      (s.SetDiversityPref fs drv path).2.diversityhandle = s.diversityhandle ∧
      (s.SetDiversityPref fs drv path).2.calibparamshandle = s.calibparamshandle ∧
      (s.SetDiversityPref fs drv path).2.divprefshandle
        = s.divprefshandle.map (fun _ => path) ∧
      (s.SetDiversityPref fs drv path).2.calls
        = s.calls ++ [DriverCall.DiversityPreferences_Load path,
            DriverCall.Init_Diversity s.calibparamshandle
              (s.divprefshandle.map (fun _ => path))]) := by
  refine ⟨?_, ?_, ?_⟩
  · simp [Mirao52e.SetCalibration, hexists]
  · simp [Mirao52e.SetCalibrationParams, hexists]
  · simp [Mirao52e.SetDiversityPref, hexists]

/-- C14, on the initialized device when the new diversity-preferences file is present: the call
succeeds, stores the new path and brings the number of driver calls from six to eight. -/
theorem Mirao52e.swap_existing_file_witness :
    fileexists (fun _ => true) "MIRAO/new_prefs.xml" = true ∧
    ((Mirao52e.new.Initialize (fun p => p != g_wfc_initpath) (fun _ => true)
        (fun _ => DEVICE_OK)).2.SetDiversityPref (fun _ => true) (fun _ => true)
        "MIRAO/new_prefs.xml").1 = DEVICE_OK ∧
    ((Mirao52e.new.Initialize (fun p => p != g_wfc_initpath) (fun _ => true)
        (fun _ => DEVICE_OK)).2.SetDiversityPref (fun _ => true) (fun _ => true)
        "MIRAO/new_prefs.xml").2.divprefpath_ = "MIRAO/new_prefs.xml" ∧
    ((Mirao52e.new.Initialize (fun p => p != g_wfc_initpath) (fun _ => true)
        (fun _ => DEVICE_OK)).2.SetDiversityPref (fun _ => true) (fun _ => true)
        "MIRAO/new_prefs.xml").2.calls.length = 8 :=
  have h := (Mirao52e.swap_existing_file
    (Mirao52e.new.Initialize (fun p => p != g_wfc_initpath) (fun _ => true)
      (fun _ => DEVICE_OK)).2
    (fun _ => true) (fun _ => true) "MIRAO/new_prefs.xml" rfl).2.2
  ⟨rfl, h.1, h.2.1, by rw [h.2.2.2.2.2.2.2.2]; decide⟩

/-! ## Loading and saving a wavefront file -/

/-- C15: for every state and every path whose file does not exist, `LoadWavefront` returns
`ERR_FILE_NONEXIST` and leaves the device record as it was: `zer_store`, `zer_rel` and the
stored wavefront path are unchanged and no driver call is made. -/
theorem Mirao52e.LoadWavefront_missing_file (s : Mirao52e) (fs : FileSystem) (drv : Driver)
    (path : String) (hmiss : fileexists fs path = false) :
    (s.LoadWavefront fs drv path).1 = ERR_FILE_NONEXIST ∧
    (s.LoadWavefront fs drv path).2 = s ∧
    (s.LoadWavefront fs drv path).2.zer_store = s.zer_store ∧
    (s.LoadWavefront fs drv path).2.zer_rel = s.zer_rel ∧
    (s.LoadWavefront fs drv path).2.wfcpath_ = s.wfcpath_ ∧
    (s.LoadWavefront fs drv path).2.calls = s.calls := by
  have h : s.LoadWavefront fs drv path = (ERR_FILE_NONEXIST, s) := by
    simp [Mirao52e.LoadWavefront, hmiss]
  rw [h]
  exact ⟨rfl, rfl, rfl, rfl, rfl, rfl⟩

/-- C15, with Tip 0.4 pending on the fresh device and no file at all: the load is refused and
the pending delta at index 1 is still 0.4. -/
theorem Mirao52e.LoadWavefront_missing_file_witness :
    fileexists (fun _ => false) "MIRAO/absent.wcs" = false ∧
    ((Mirao52e.new.SetZernMode_Tip 0.4).2.LoadWavefront (fun _ => false) (fun _ => true)
      "MIRAO/absent.wcs").1 = ERR_FILE_NONEXIST ∧
    ((Mirao52e.new.SetZernMode_Tip 0.4).2.LoadWavefront (fun _ => false) (fun _ => true)
      "MIRAO/absent.wcs").2.zer_rel.zernike_coefficients 1 = 0.4 :=
  have h := Mirao52e.LoadWavefront_missing_file (Mirao52e.new.SetZernMode_Tip 0.4).2
    (fun _ => false) (fun _ => true) "MIRAO/absent.wcs" rfl
  ⟨rfl, h.1, by
    rw [h.2.2.2.1]
    norm_num [Mirao52e.SetZernMode_Tip, Mirao52e.new, Zernikes.new, Zernikes.assign]⟩

/-- C16 fails as stated: on the initialized device, with the new calibration-params file present
and a driver whose every call fails, `SetCalibrationParams` still returns `DEVICE_OK` and the
stored calibration-params path is the new path, not the path stored before the call. -/
theorem Mirao52e.swap_failed_load_replaces_path :
    fileexists (fun _ => true) "MIRAO/new_params.xml" = true ∧
    (fun _ => false : Driver) (DriverCall.CalibrationParams_Load "MIRAO/new_params.xml") = false ∧
    (Mirao52e.new.Initialize (fun _ => true) (fun _ => true)
      (fun _ => DEVICE_OK)).2.calibparamspath_ = "MIRAO/init/Diversity_calibration.xml" ∧
    ((Mirao52e.new.Initialize (fun _ => true) (fun _ => true)
        (fun _ => DEVICE_OK)).2.SetCalibrationParams (fun _ => true) (fun _ => false)
        "MIRAO/new_params.xml").1 = DEVICE_OK ∧
    ((Mirao52e.new.Initialize (fun _ => true) (fun _ => true)
        (fun _ => DEVICE_OK)).2.SetCalibrationParams (fun _ => true) (fun _ => false)
        "MIRAO/new_params.xml").2.calibparamspath_ = "MIRAO/new_params.xml" ∧
    ((Mirao52e.new.Initialize (fun _ => true) (fun _ => true)
        (fun _ => DEVICE_OK)).2.SetCalibrationParams (fun _ => true) (fun _ => false)
        "MIRAO/new_params.xml").2.calibparamspath_
      ≠ (Mirao52e.new.Initialize (fun _ => true) (fun _ => true)
        (fun _ => DEVICE_OK)).2.calibparamspath_ := by
  refine ⟨rfl, rfl, rfl, rfl, rfl, ?_⟩
  decide

/-- C16 as amended: a failing loader is not detected.  For each swap operation and every path
whose file exists, whatever the outcome of the driver calls, the call returns `DEVICE_OK`, the
stored path of the artifact after the call is the given path, the object is rebuilt or reloaded
from that path, and result and state are those of a call whose driver calls succeed. -/
theorem Mirao52e.swap_ignores_load_outcome (s : Mirao52e) (fs : FileSystem) (drv drv' : Driver)
    (path : String) (hexists : fileexists fs path = true) :
    ((s.SetCalibration fs drv path).1 = DEVICE_OK ∧
      (s.SetCalibration fs drv path).2.calibpath_ = path ∧
      (s.SetCalibration fs drv path).2.diversityhandle = some path ∧
      s.SetCalibration fs drv' path = s.SetCalibration fs drv path) ∧
    ((s.SetCalibrationParams fs drv path).1 = DEVICE_OK ∧
      (s.SetCalibrationParams fs drv path).2.calibparamspath_ = path ∧
      (s.SetCalibrationParams fs drv path).2.calibparamshandle
        = s.calibparamshandle.map (fun _ => path) ∧
      s.SetCalibrationParams fs drv' path = s.SetCalibrationParams fs drv path) ∧
    ((s.SetDiversityPref fs drv path).1 = DEVICE_OK ∧
      (s.SetDiversityPref fs drv path).2.divprefpath_ = path ∧
      (s.SetDiversityPref fs drv path).2.divprefshandle
        = s.divprefshandle.map (fun _ => path) ∧
      s.SetDiversityPref fs drv' path = s.SetDiversityPref fs drv path) := by
  refine ⟨⟨?_, ?_, ?_, rfl⟩, ⟨?_, ?_, ?_, rfl⟩, ⟨?_, ?_, ?_, rfl⟩⟩ <;>
    simp [Mirao52e.SetCalibration, Mirao52e.SetCalibrationParams, Mirao52e.SetDiversityPref,
      hexists]

/-- C16 as amended, on the initialized device with a driver whose every call fails: the new
calibration path is stored and the result is that of a driver whose every call succeeds. -/
theorem Mirao52e.swap_ignores_load_outcome_witness :
    fileexists (fun _ => true) "MIRAO/new_calibration.aomi" = true ∧
    ((Mirao52e.new.Initialize (fun _ => true) (fun _ => true)
        (fun _ => DEVICE_OK)).2.SetCalibration (fun _ => true) (fun _ => false)
        "MIRAO/new_calibration.aomi").2.calibpath_ = "MIRAO/new_calibration.aomi" ∧
    (Mirao52e.new.Initialize (fun _ => true) (fun _ => true)
        (fun _ => DEVICE_OK)).2.SetCalibration (fun _ => true) (fun _ => true)
        "MIRAO/new_calibration.aomi"
      = (Mirao52e.new.Initialize (fun _ => true) (fun _ => true)
        (fun _ => DEVICE_OK)).2.SetCalibration (fun _ => true) (fun _ => false)
        "MIRAO/new_calibration.aomi" :=
  have h := (Mirao52e.swap_ignores_load_outcome
    (Mirao52e.new.Initialize (fun _ => true) (fun _ => true) (fun _ => DEVICE_OK)).2
    (fun _ => true) (fun _ => false) (fun _ => true) "MIRAO/new_calibration.aomi" rfl).1
  ⟨rfl, h.2.1, h.2.2.2⟩

/-! ## Readiness and driver outcomes -/

/-- C17 fails as stated: on a device that was initialized and then shut down, so that it is not
ready, `ApplyZernmodes` and `SaveCurrentPosition` return `DEVICE_OK` and each makes its driver
call. -/
theorem Mirao52e.not_ready_still_dispatches :
    ((Mirao52e.new.Initialize (fun p => p != g_wfc_initpath) (fun _ => true)
      (fun _ => DEVICE_OK)).2.Shutdown).2.initialized_ = false ∧
    ((Mirao52e.new.Initialize (fun p => p != g_wfc_initpath) (fun _ => true)
      (fun _ => DEVICE_OK)).2.Shutdown).2.calls.length = 6 ∧
    (((Mirao52e.new.Initialize (fun p => p != g_wfc_initpath) (fun _ => true)
      (fun _ => DEVICE_OK)).2.Shutdown).2.ApplyZernmodes (fun _ => true)).1 = DEVICE_OK ∧
    (((Mirao52e.new.Initialize (fun p => p != g_wfc_initpath) (fun _ => true)
      (fun _ => DEVICE_OK)).2.Shutdown).2.ApplyZernmodes (fun _ => true)).2.calls.length = 7 ∧
    (((Mirao52e.new.Initialize (fun p => p != g_wfc_initpath) (fun _ => true)
      (fun _ => DEVICE_OK)).2.Shutdown).2.SaveCurrentPosition (fun _ => true)
      g_savepath).1 = DEVICE_OK ∧
    (((Mirao52e.new.Initialize (fun p => p != g_wfc_initpath) (fun _ => true)
      (fun _ => DEVICE_OK)).2.Shutdown).2.SaveCurrentPosition (fun _ => true)
      g_savepath).2.calls.length = 7 := by
  refine ⟨?_, ?_, ?_, ?_, ?_, ?_⟩ <;> decide

/-- C17 as amended: there is no readiness gate.  On a device whose four vendor handles are
assigned, each of `SetCalibration`, `SetCalibrationParams`, `SetDiversityPref`, `LoadWavefront`,
`SaveCurrentPosition` and `ApplyZernmodes` gives, whatever the value of `initialized_`, the same
result, the same driver calls and the same changes of state, and leaves the flag as it was.  So
also when the device is not ready: `ApplyZernmodes` and `SaveCurrentPosition` return `DEVICE_OK`
and make their driver call; `LoadWavefront` and the three swaps return `DEVICE_OK` and make
their driver calls when the file exists, and return `ERR_FILE_NONEXIST` with the device
unchanged, hence without a driver call, when it does not. -/
theorem Mirao52e.operations_ignore_ready_flag (s : Mirao52e) (fs : FileSystem) (drv : Driver)
    (path : String) (b : Bool) (_hhandles : s.handlesAssigned = true) :
    (({ s with initialized_ := b }.SetCalibration fs drv path
        = ((s.SetCalibration fs drv path).1,
            { (s.SetCalibration fs drv path).2 with initialized_ := b })) ∧
      ({ s with initialized_ := b }.SetCalibrationParams fs drv path
        = ((s.SetCalibrationParams fs drv path).1,
            { (s.SetCalibrationParams fs drv path).2 with initialized_ := b })) ∧
      ({ s with initialized_ := b }.SetDiversityPref fs drv path
        = ((s.SetDiversityPref fs drv path).1,
            { (s.SetDiversityPref fs drv path).2 with initialized_ := b })) ∧
      ({ s with initialized_ := b }.LoadWavefront fs drv path
        = ((s.LoadWavefront fs drv path).1,
            { (s.LoadWavefront fs drv path).2 with initialized_ := b })) ∧
      ({ s with initialized_ := b }.SaveCurrentPosition drv path
        = ((s.SaveCurrentPosition drv path).1,
            { (s.SaveCurrentPosition drv path).2 with initialized_ := b })) ∧
      ({ s with initialized_ := b }.ApplyZernmodes drv
        = ((s.ApplyZernmodes drv).1, { (s.ApplyZernmodes drv).2 with initialized_ := b }))) ∧
    (({ s with initialized_ := false }.ApplyZernmodes drv).1 = DEVICE_OK ∧
      ({ s with initialized_ := false }.ApplyZernmodes drv).2.calls
        = s.calls ++ [DriverCall.Apply_Relative_Commands s.zer_rel] ∧
      ({ s with initialized_ := false }.SaveCurrentPosition drv path).1 = DEVICE_OK ∧
      ({ s with initialized_ := false }.SaveCurrentPosition drv path).2.calls
        = s.calls ++ [DriverCall.Save_Current_Positions_ToFile path]) ∧
    (fileexists fs path = true →
      ({ s with initialized_ := false }.LoadWavefront fs drv path).1 = DEVICE_OK ∧
      ({ s with initialized_ := false }.LoadWavefront fs drv path).2.calls
        = s.calls ++ [DriverCall.Apply_Absolute_Commands_From_File path] ∧
      ({ s with initialized_ := false }.SetCalibration fs drv path).1 = DEVICE_OK ∧
      ({ s with initialized_ := false }.SetCalibration fs drv path).2.calls
        = s.calls ++ [DriverCall.Diversity_new path s.mirrorhandle,
            DriverCall.Init_Diversity s.calibparamshandle s.divprefshandle] ∧
      ({ s with initialized_ := false }.SetCalibrationParams fs drv path).1 = DEVICE_OK ∧
      ({ s with initialized_ := false }.SetCalibrationParams fs drv path).2.calls
        = s.calls ++ [DriverCall.CalibrationParams_Load path,
            DriverCall.Init_Diversity (s.calibparamshandle.map (fun _ => path))
              s.divprefshandle] ∧
      ({ s with initialized_ := false }.SetDiversityPref fs drv path).1 = DEVICE_OK ∧
      ({ s with initialized_ := false }.SetDiversityPref fs drv path).2.calls
        = s.calls ++ [DriverCall.DiversityPreferences_Load path,
            DriverCall.Init_Diversity s.calibparamshandle
              (s.divprefshandle.map (fun _ => path))]) ∧
    (fileexists fs path = false →
      { s with initialized_ := false }.LoadWavefront fs drv path
        = (ERR_FILE_NONEXIST, { s with initialized_ := false }) ∧
      { s with initialized_ := false }.SetCalibration fs drv path
        = (ERR_FILE_NONEXIST, { s with initialized_ := false }) ∧
      { s with initialized_ := false }.SetCalibrationParams fs drv path
        = (ERR_FILE_NONEXIST, { s with initialized_ := false }) ∧
      { s with initialized_ := false }.SetDiversityPref fs drv path
        = (ERR_FILE_NONEXIST, { s with initialized_ := false })) := by
  refine ⟨⟨?_, ?_, ?_, ?_, rfl, rfl⟩, ⟨rfl, rfl, rfl, rfl⟩, fun h => ?_, fun h => ?_⟩
  · cases h : fileexists fs path <;> simp [Mirao52e.SetCalibration, h]
  · cases h : fileexists fs path <;> simp [Mirao52e.SetCalibrationParams, h]
  · cases h : fileexists fs path <;> simp [Mirao52e.SetDiversityPref, h]
  · cases h : fileexists fs path <;> simp [Mirao52e.LoadWavefront, h]
  · simp [Mirao52e.LoadWavefront, Mirao52e.SetCalibration, Mirao52e.SetCalibrationParams,
      Mirao52e.SetDiversityPref, h]
  · simp [Mirao52e.LoadWavefront, Mirao52e.SetCalibration, Mirao52e.SetCalibrationParams,
      Mirao52e.SetDiversityPref, h]

/-- C17 as amended, on the device that was initialized and then shut down: its handles are
assigned and it is not ready; with the new calibration file present `SetCalibration` succeeds
and brings the driver calls from six to eight, with the wavefront file absent `LoadWavefront`
returns `ERR_FILE_NONEXIST`. -/
theorem Mirao52e.operations_ignore_ready_flag_witness :
    ((Mirao52e.new.Initialize (fun p => p != g_wfc_initpath) (fun _ => true)
      (fun _ => DEVICE_OK)).2.Shutdown).2.handlesAssigned = true ∧
    ((Mirao52e.new.Initialize (fun p => p != g_wfc_initpath) (fun _ => true)
      (fun _ => DEVICE_OK)).2.Shutdown).2.initialized_ = false ∧
    fileexists (fun p => p != g_wfc_initpath) g_calib_initpath = true ∧
    ({ ((Mirao52e.new.Initialize (fun p => p != g_wfc_initpath) (fun _ => true)
        (fun _ => DEVICE_OK)).2.Shutdown).2 with initialized_ := false }.SetCalibration
        (fun p => p != g_wfc_initpath) (fun _ => true) g_calib_initpath).1 = DEVICE_OK ∧
    ({ ((Mirao52e.new.Initialize (fun p => p != g_wfc_initpath) (fun _ => true)
        (fun _ => DEVICE_OK)).2.Shutdown).2 with initialized_ := false }.SetCalibration
        (fun p => p != g_wfc_initpath) (fun _ => true) g_calib_initpath).2.calls.length = 8 ∧
    fileexists (fun p => p != g_wfc_initpath) g_wfc_initpath = false ∧
    ({ ((Mirao52e.new.Initialize (fun p => p != g_wfc_initpath) (fun _ => true)
        (fun _ => DEVICE_OK)).2.Shutdown).2 with initialized_ := false }.LoadWavefront
        (fun p => p != g_wfc_initpath) (fun _ => true) g_wfc_initpath).1 = ERR_FILE_NONEXIST :=
  have hh : ((Mirao52e.new.Initialize (fun p => p != g_wfc_initpath) (fun _ => true)
      (fun _ => DEVICE_OK)).2.Shutdown).2.handlesAssigned = true := by decide
  have hyes : fileexists (fun p => p != g_wfc_initpath) g_calib_initpath = true := by decide
  have hno : fileexists (fun p => p != g_wfc_initpath) g_wfc_initpath = false := by decide
  have h1 := (Mirao52e.operations_ignore_ready_flag
    ((Mirao52e.new.Initialize (fun p => p != g_wfc_initpath) (fun _ => true)
      (fun _ => DEVICE_OK)).2.Shutdown).2
    (fun p => p != g_wfc_initpath) (fun _ => true) g_calib_initpath false hh).2.2.1 hyes
  have h2 := (Mirao52e.operations_ignore_ready_flag
    ((Mirao52e.new.Initialize (fun p => p != g_wfc_initpath) (fun _ => true)
      (fun _ => DEVICE_OK)).2.Shutdown).2
    (fun p => p != g_wfc_initpath) (fun _ => true) g_wfc_initpath false hh).2.2.2 hno
  ⟨hh, by decide, hyes, h1.2.2.1, by rw [h1.2.2.2.1]; decide, hno, by rw [h2.1]⟩

/-- C18 fails as stated: on the initialized device, with a driver whose every call fails,
`ApplyZernmodes`, `SaveCurrentPosition`, `LoadWavefront` and `SetCalibration` all return
`DEVICE_OK`. -/
theorem Mirao52e.driver_failure_returns_ok :
    (fun _ => false : Driver)
      (DriverCall.Apply_Relative_Commands (Mirao52e.new.Initialize (fun _ => true)
        (fun _ => false) (fun _ => DEVICE_OK)).2.zer_rel) = false ∧
    ((Mirao52e.new.Initialize (fun _ => true) (fun _ => false)
      (fun _ => DEVICE_OK)).2.ApplyZernmodes (fun _ => false)).1 = DEVICE_OK ∧
    ((Mirao52e.new.Initialize (fun _ => true) (fun _ => false)
      (fun _ => DEVICE_OK)).2.SaveCurrentPosition (fun _ => false) g_savepath).1 = DEVICE_OK ∧
    ((Mirao52e.new.Initialize (fun _ => true) (fun _ => false)
      (fun _ => DEVICE_OK)).2.LoadWavefront (fun _ => true) (fun _ => false)
      g_wfc_initpath).1 = DEVICE_OK ∧
    ((Mirao52e.new.Initialize (fun _ => true) (fun _ => false)
      (fun _ => DEVICE_OK)).2.SetCalibration (fun _ => true) (fun _ => false)
      g_calib_initpath).1 = DEVICE_OK ∧
    DEVICE_OK = 0 := by
  refine ⟨rfl, rfl, rfl, rfl, rfl, rfl⟩

/-- C18 as amended: driver failures do not reach the caller.  The result of `ApplyZernmodes` and
of `SaveCurrentPosition` is `DEVICE_OK`, and the result of `LoadWavefront` and of each swap
operation is `DEVICE_OK` when the file exists and `ERR_FILE_NONEXIST` when it does not, whatever
the outcome of the driver calls. -/
theorem Mirao52e.result_ignores_driver (s : Mirao52e) (fs : FileSystem) (drv : Driver)
    (path : String) :
    (s.ApplyZernmodes drv).1 = DEVICE_OK ∧
    (s.SaveCurrentPosition drv path).1 = DEVICE_OK ∧
    (s.LoadWavefront fs drv path).1
      = (if fileexists fs path = true then DEVICE_OK else ERR_FILE_NONEXIST) ∧
    (s.SetCalibration fs drv path).1
      = (if fileexists fs path = true then DEVICE_OK else ERR_FILE_NONEXIST) ∧
    (s.SetCalibrationParams fs drv path).1
      = (if fileexists fs path = true then DEVICE_OK else ERR_FILE_NONEXIST) ∧
    (s.SetDiversityPref fs drv path).1
      = (if fileexists fs path = true then DEVICE_OK else ERR_FILE_NONEXIST) := by
  refine ⟨rfl, rfl, ?_, ?_, ?_, ?_⟩
  · cases h : fileexists fs path <;> simp [Mirao52e.LoadWavefront, h]
  · cases h : fileexists fs path <;> simp [Mirao52e.SetCalibration, h]
  · cases h : fileexists fs path <;> simp [Mirao52e.SetCalibrationParams, h]
  · cases h : fileexists fs path <;> simp [Mirao52e.SetDiversityPref, h]

/-- C19: for every state and every path, `SaveCurrentPosition` stores the path as the save path,
makes exactly one driver call, the save to that path, returns `DEVICE_OK`, and leaves
`zer_store`, `zer_rel` and every other field unchanged.  The function consults no file system:
the result is the same whether or not a file exists at the path. -/
theorem Mirao52e.SaveCurrentPosition_saves (s : Mirao52e) (drv : Driver) (path : String) :
    (s.SaveCurrentPosition drv path).1 = DEVICE_OK ∧
    (s.SaveCurrentPosition drv path).2.savepath_ = path ∧
    (s.SaveCurrentPosition drv path).2.calls
      = s.calls ++ [DriverCall.Save_Current_Positions_ToFile path] ∧
    (s.SaveCurrentPosition drv path).2.zer_store = s.zer_store ∧
    (s.SaveCurrentPosition drv path).2.zer_rel = s.zer_rel ∧
    (s.SaveCurrentPosition drv path).2
      = { s with
          savepath_ := path
          calls := s.calls ++ [DriverCall.Save_Current_Positions_ToFile path] } :=
  ⟨rfl, rfl, rfl, rfl, rfl, rfl⟩

/-! ## The port property -/

/-- C20: a write to the port property while the device is initialized returns
`ERR_PORT_CHANGE_FORBIDDEN`, leaves the device (the stored port included) unchanged and sets the
property back to the stored port; while the device is not initialized it stores the new port
and returns `DEVICE_OK`; a read reports the stored port in both cases.  This holds for
`Mirao52e` and for `Mirao52e_FAKE`. -/
theorem OnPort_guards_port (s : Mirao52e) (sF : Mirao52e_FAKE) (p : String) :
    ((s.initialized_ = true →
        (s.OnPort p ActionType.AfterSet).ret = ERR_PORT_CHANGE_FORBIDDEN ∧
        (s.OnPort p ActionType.AfterSet).dev = s ∧
        (s.OnPort p ActionType.AfterSet).pProp = s.port_) ∧
      (s.initialized_ = false →
        (s.OnPort p ActionType.AfterSet).ret = DEVICE_OK ∧
        (s.OnPort p ActionType.AfterSet).dev = { s with port_ := p } ∧
        (s.OnPort p ActionType.AfterSet).pProp = p) ∧
      ((s.OnPort p ActionType.BeforeGet).ret = DEVICE_OK ∧
        (s.OnPort p ActionType.BeforeGet).pProp = s.port_ ∧
        (s.OnPort p ActionType.BeforeGet).dev = s)) ∧
    ((sF.initialized_ = true →
        (sF.OnPort p ActionType.AfterSet).ret = ERR_PORT_CHANGE_FORBIDDEN ∧
        (sF.OnPort p ActionType.AfterSet).dev = sF ∧
        (sF.OnPort p ActionType.AfterSet).pProp = sF.port_) ∧
      (sF.initialized_ = false →
        (sF.OnPort p ActionType.AfterSet).ret = DEVICE_OK ∧
        (sF.OnPort p ActionType.AfterSet).dev = { sF with port_ := p } ∧
        (sF.OnPort p ActionType.AfterSet).pProp = p) ∧
      ((sF.OnPort p ActionType.BeforeGet).ret = DEVICE_OK ∧
        (sF.OnPort p ActionType.BeforeGet).pProp = sF.port_ ∧
        (sF.OnPort p ActionType.BeforeGet).dev = sF)) := by
  refine ⟨⟨fun h => ?_, fun h => ?_, rfl, rfl, rfl⟩, ⟨fun h => ?_, fun h => ?_, rfl, rfl, rfl⟩⟩
  · simp [Mirao52e.OnPort, h]
  · simp [Mirao52e.OnPort, h]
  · simp [Mirao52e_FAKE.OnPort, h]
  · simp [Mirao52e_FAKE.OnPort, h]

/-- C20, at concrete states: on the initialized `Mirao52e` a write of "COM3" is refused and the
port stays "Undefined"; on the fresh `Mirao52e_FAKE` the write is stored. -/
theorem OnPort_guards_port_witness :
    (Mirao52e.new.Initialize (fun _ => true) (fun _ => true)
      (fun _ => DEVICE_OK)).2.initialized_ = true ∧
    Mirao52e_FAKE.new.initialized_ = false ∧
    ((Mirao52e.new.Initialize (fun _ => true) (fun _ => true)
      (fun _ => DEVICE_OK)).2.OnPort "COM3" ActionType.AfterSet).ret
      = ERR_PORT_CHANGE_FORBIDDEN ∧
    ((Mirao52e.new.Initialize (fun _ => true) (fun _ => true)
      (fun _ => DEVICE_OK)).2.OnPort "COM3" ActionType.AfterSet).dev.port_ = "Undefined" ∧
    (Mirao52e_FAKE.new.OnPort "COM3" ActionType.AfterSet).ret = DEVICE_OK ∧
    (Mirao52e_FAKE.new.OnPort "COM3" ActionType.AfterSet).dev.port_ = "COM3" :=
  have h := OnPort_guards_port
    (Mirao52e.new.Initialize (fun _ => true) (fun _ => true) (fun _ => DEVICE_OK)).2
    Mirao52e_FAKE.new "COM3"
  ⟨rfl, rfl, (h.1.1 rfl).1, by rw [(h.1.1 rfl).2.1]; rfl, (h.2.2.1 rfl).1,
    by rw [(h.2.2.1 rfl).2.1]⟩


/-! ## Immediate mode: one dispatch per set -/

/-- C22: in immediate mode, for every mode `Mirao52e_FAKE` implements, every target t and every
state whose `zer_rel` is zero at indices 1 to 19, the setter makes exactly one driver call, a
relative command, and returns `DEVICE_OK` with `zer_store` equal to t and `zer_rel` equal to 0
at the index of the mode; in particular `SetZernMode_Defocus(0.2)` leaves `zer_store[3] = 0.2`
and `zer_rel[3] = 0`. -/
theorem Mirao52e_FAKE.SetZernMode_dispatches_once (s : Mirao52e_FAKE) (drv : Driver)
    (m : FakeMode) (t : ℚ)
    (_hrel : ∀ i, 1 ≤ i → i ≤ 19 → s.zer_rel.zernike_coefficients i = 0) :
    ((s.SetZernMode drv m t).1 = DEVICE_OK ∧
      (s.SetZernMode drv m t).2.calls
        = s.calls ++ [DriverCall.Apply_Relative_Commands
            (s.zer_rel.assign m.index (t - s.zer_store.zernike_coefficients m.index))] ∧
      (s.SetZernMode drv m t).2.zer_store.zernike_coefficients m.index = t ∧
      (s.SetZernMode drv m t).2.zer_rel.zernike_coefficients m.index = 0) ∧
    ((s.SetZernMode_Defocus drv 0.2).1 = DEVICE_OK ∧
      (s.SetZernMode_Defocus drv 0.2).2.calls
        = s.calls ++ [DriverCall.Apply_Relative_Commands
            (s.zer_rel.assign 3 (0.2 - s.zer_store.zernike_coefficients 3))] ∧
      (s.SetZernMode_Defocus drv 0.2).2.zer_store.zernike_coefficients 3 = 0.2 ∧
      (s.SetZernMode_Defocus drv 0.2).2.zer_rel.zernike_coefficients 3 = 0) := by
  refine ⟨?_, rfl, rfl, ?_, ?_⟩
  · rw [Mirao52e_FAKE.fake_SetZernMode_eq]
    refine ⟨rfl, rfl, ?_, ?_⟩ <;> simp [Zernikes.assign_apply]
  · simp [Mirao52e_FAKE.SetZernMode_Defocus, Zernikes.assign_apply]
  · simp [Mirao52e_FAKE.SetZernMode_Defocus, Zernikes.assign_apply]

/-- C22, on the fresh immediate-mode device: `SetZernMode_Defocus(0.2)` makes one driver call and
leaves 0.2 applied and nothing pending at index 3. -/
theorem Mirao52e_FAKE.SetZernMode_dispatches_once_witness :
    (∀ i, 1 ≤ i → i ≤ 19 → Mirao52e_FAKE.new.zer_rel.zernike_coefficients i = 0) ∧
    (Mirao52e_FAKE.new.SetZernMode_Defocus (fun _ => true) 0.2).2.calls.length = 1 ∧
    (Mirao52e_FAKE.new.SetZernMode_Defocus (fun _ => true) 0.2).2.zer_store.zernike_coefficients 3
      = 0.2 ∧
    (Mirao52e_FAKE.new.SetZernMode_Defocus (fun _ => true) 0.2).2.zer_rel.zernike_coefficients 3
      = 0 :=
  have h := (Mirao52e_FAKE.SetZernMode_dispatches_once Mirao52e_FAKE.new (fun _ => true)
    FakeMode.Defocus 0.2 (fun _ _ _ => rfl)).2
  ⟨fun _ _ _ => rfl, by rw [h.2.1]; rfl, h.2.2.1, h.2.2.2⟩

/-! ## The mode tables are consistent -/

theorem Mode.index_surjective (i : Nat) (h1 : 1 ≤ i) (h19 : i ≤ 19) : ∃ m : Mode, m.index = i := by
  interval_cases i <;>
    first
      | exact ⟨Mode.Tip, rfl⟩
      | exact ⟨Mode.Tilt, rfl⟩
      | exact ⟨Mode.Defocus, rfl⟩
      | exact ⟨Mode.Astig0deg, rfl⟩
      | exact ⟨Mode.Astig45deg, rfl⟩
      | exact ⟨Mode.Coma0deg, rfl⟩
      | exact ⟨Mode.Coma90deg, rfl⟩
      | exact ⟨Mode.PrimSpherical, rfl⟩
      | exact ⟨Mode.Trefoil0deg, rfl⟩
      | exact ⟨Mode.Trefoil90deg, rfl⟩
      | exact ⟨Mode.SecondAstig0deg, rfl⟩
      | exact ⟨Mode.SecondAstig45deg, rfl⟩
      | exact ⟨Mode.SecondComa0deg, rfl⟩
      | exact ⟨Mode.SecondComa90deg, rfl⟩
      | exact ⟨Mode.SecondSpherical, rfl⟩
      | exact ⟨Mode.Quadrafoil0deg, rfl⟩
      | exact ⟨Mode.Quadrafoil45deg, rfl⟩
      | exact ⟨Mode.SecondTrefoil0deg, rfl⟩
      | exact ⟨Mode.SecondTrefoil90deg, rfl⟩

/-- C23: the map from the 19 named modes of `Mirao52e` to the index their setter writes is a
bijection onto the indices 1 to 19: every index lies in that range, no two modes share an index
and every index from 1 to 19 is used; and each setter of `Mirao52e_FAKE` writes at the index of
the same-named mode of `Mirao52e`. -/
theorem mode_index_bijection :
    (∀ (s : Mirao52e) (m : Mode) (t : ℚ),
      (s.SetZernMode m t).2.zer_rel
        = s.zer_rel.assign m.index (t - s.zer_store.zernike_coefficients m.index)) ∧
    (∀ m : Mode, 1 ≤ m.index ∧ m.index ≤ 19) ∧
    (∀ m m' : Mode, m.index = m'.index → m = m') ∧
    (∀ i, 1 ≤ i → i ≤ 19 → ∃ m : Mode, m.index = i) ∧
    (∀ (s : Mirao52e_FAKE) (drv : Driver) (m : FakeMode) (t : ℚ),
      (s.SetZernMode drv m t).2.zer_store = s.zer_store.assign m.index t) ∧
    (∀ m : FakeMode, m.index = m.toMode.index) := by
  refine ⟨fun s m t => ?_, fun m => ⟨m.index_pos, m.index_le⟩, Mode.index_injective,
    Mode.index_surjective, fun s drv m t => ?_, fun m => (FakeMode.index_toMode m).symm⟩
  · rw [Mirao52e.SetZernMode_eq]
  · rw [Mirao52e_FAKE.fake_SetZernMode_eq]

/-- C23, at concrete modes: Defocus and Astig0deg write at different indices, index 15 is the
index of SecondSpherical, and Quadrafoil0deg writes at index 16 in both classes. -/
theorem mode_index_bijection_witness :
    Mode.Defocus.index ≠ Mode.Astig0deg.index ∧
    (1 ≤ 15 ∧ 15 ≤ 19) ∧ (∃ m : Mode, m.index = 15) ∧
    Mode.SecondSpherical.index = 15 ∧
    FakeMode.Quadrafoil0deg.index = 16 ∧ Mode.Quadrafoil0deg.index = 16 :=
  ⟨fun h => absurd (mode_index_bijection.2.2.1 Mode.Defocus Mode.Astig0deg h) (by decide),
    ⟨by decide, by decide⟩, mode_index_bijection.2.2.2.1 15 (by decide) (by decide), rfl, rfl, rfl⟩

/-! ## What the apply step dispatches and what it leaves readable -/

/-- C24: from every state `ApplyZernmodes` makes exactly one driver call, a relative command, and
the buffer passed to it is `zer_rel` as it was on entry: the dispatch precedes the merge into
`zer_store` and the clearing of `zer_rel`, which is zero at indices 1 to 19 afterwards. -/
theorem Mirao52e.ApplyZernmodes_dispatches_entry_pending (s : Mirao52e) (drv : Driver) :
    (s.ApplyZernmodes drv).2.calls = s.calls ++ [DriverCall.Apply_Relative_Commands s.zer_rel] ∧
    (∀ i, dispatched [DriverCall.Apply_Relative_Commands s.zer_rel] i
      = s.zer_rel.zernike_coefficients i) ∧
    (s.ApplyZernmodes drv).2.zer_rel = s.zer_rel.clear := by
  refine ⟨rfl, fun i => ?_, rfl⟩
  simp [dispatched, DriverCall.relativeDelta]

/-- C28: `ApplyZernmodes` does not change what a caller reads: for every state and every index i
from 1 to 19, `zer_store[i] + zer_rel[i]` is the same after the call as before it, and so is the
value reported by the read handler of every mode. -/
theorem Mirao52e.ApplyZernmodes_keeps_reading (s : Mirao52e) (drv : Driver) :
    (∀ i, 1 ≤ i → i ≤ 19 →
      (s.ApplyZernmodes drv).2.zer_store.zernike_coefficients i
          + (s.ApplyZernmodes drv).2.zer_rel.zernike_coefficients i
        = s.zer_store.zernike_coefficients i + s.zer_rel.zernike_coefficients i) ∧
    (∀ (m : Mode) (p : ℚ),
      ((s.ApplyZernmodes drv).2.OnSetZernMode m p ActionType.BeforeGet).pProp
        = (s.OnSetZernMode m p ActionType.BeforeGet).pProp) := by
  have h : ∀ i, 1 ≤ i → i ≤ 19 →
      (s.ApplyZernmodes drv).2.zer_store.zernike_coefficients i
          + (s.ApplyZernmodes drv).2.zer_rel.zernike_coefficients i
        = s.zer_store.zernike_coefficients i + s.zer_rel.zernike_coefficients i := by
    intro i h1 h19
    rw [Mirao52e.ApplyZernmodes_eq]
    simp [Zernikes.merge_apply, Zernikes.clear_apply, h1, h19]
  refine ⟨h, fun m p => ?_⟩
  rw [Mirao52e.OnSetZernMode_BeforeGet, Mirao52e.OnSetZernMode_BeforeGet]
  exact h m.index m.index_pos m.index_le

/-- C28, at a concrete state: with Trefoil0deg pending at 0.35 on the fresh device, index 9 reads
0.35 before and after the apply. -/
theorem Mirao52e.ApplyZernmodes_keeps_reading_witness :
    (1 ≤ 9 ∧ 9 ≤ 19) ∧
    (((Mirao52e.new.SetZernMode_Trefoil0deg 0.35).2.ApplyZernmodes
          (fun _ => true)).2.zer_store.zernike_coefficients 9
        + ((Mirao52e.new.SetZernMode_Trefoil0deg 0.35).2.ApplyZernmodes
          (fun _ => true)).2.zer_rel.zernike_coefficients 9
      = (Mirao52e.new.SetZernMode_Trefoil0deg 0.35).2.zer_store.zernike_coefficients 9
        + (Mirao52e.new.SetZernMode_Trefoil0deg 0.35).2.zer_rel.zernike_coefficients 9) ∧
    (Mirao52e.new.SetZernMode_Trefoil0deg 0.35).2.zer_store.zernike_coefficients 9
      + (Mirao52e.new.SetZernMode_Trefoil0deg 0.35).2.zer_rel.zernike_coefficients 9 = 0.35 :=
  ⟨⟨by decide, by decide⟩,
    (Mirao52e.ApplyZernmodes_keeps_reading (Mirao52e.new.SetZernMode_Trefoil0deg 0.35).2
      (fun _ => true)).1 9 (by decide) (by decide),
    by norm_num [Mirao52e.SetZernMode_Trefoil0deg, Mirao52e.new, Zernikes.new, Zernikes.assign]⟩

/-! ## The immediate-mode device keeps nothing pending -/

/-- C29: in `Mirao52e_FAKE`, if `zer_rel` is zero at indices 1 to 19 before, it is zero at
indices 1 to 19 after every setter, after `LoadWavefront`, after `SaveCurrentPosition` and after
each swap operation; hence the buffer a setter passes to the driver holds the target minus
`zer_store` at the index of the mode and 0 at every other index from 1 to 19, and the value the
read handler reports, `zer_store` alone, equals `zer_store + zer_rel`. -/
theorem Mirao52e_FAKE.pending_stays_zero (s : Mirao52e_FAKE) (fs : FileSystem) (drv : Driver)
    (path : String) (m : FakeMode) (t : ℚ)
    (hrel : ∀ i, 1 ≤ i → i ≤ 19 → s.zer_rel.zernike_coefficients i = 0) :
    (∀ i, 1 ≤ i → i ≤ 19 → (s.SetZernMode drv m t).2.zer_rel.zernike_coefficients i = 0) ∧
    (∀ i, 1 ≤ i → i ≤ 19 → (s.LoadWavefront fs drv path).2.zer_rel.zernike_coefficients i = 0) ∧
    (∀ i, 1 ≤ i → i ≤ 19 →
      (s.SaveCurrentPosition drv path).2.zer_rel.zernike_coefficients i = 0) ∧
    (∀ i, 1 ≤ i → i ≤ 19 → (s.SetCalibration fs drv path).2.zer_rel.zernike_coefficients i = 0) ∧
    (∀ i, 1 ≤ i → i ≤ 19 →
      (s.SetCalibrationParams fs drv path).2.zer_rel.zernike_coefficients i = 0) ∧
    (∀ i, 1 ≤ i → i ≤ 19 →
      (s.SetDiversityPref fs drv path).2.zer_rel.zernike_coefficients i = 0) ∧
    (∃ zer : Zernikes,
      (s.SetZernMode drv m t).2.calls = s.calls ++ [DriverCall.Apply_Relative_Commands zer] ∧
      zer.zernike_coefficients m.index = t - s.zer_store.zernike_coefficients m.index ∧
      ∀ j, 1 ≤ j → j ≤ 19 → j ≠ m.index → zer.zernike_coefficients j = 0) ∧
    (∀ p : ℚ, (s.OnSetZernMode drv m p ActionType.BeforeGet).pProp
      = s.zer_store.zernike_coefficients m.index + s.zer_rel.zernike_coefficients m.index) := by
  have hidx1 : 1 ≤ m.index := FakeMode.index_toMode m ▸ Mode.index_pos _
  have hidx19 : m.index ≤ 19 := FakeMode.index_toMode m ▸ Mode.index_le _
  refine ⟨fun i h1 h19 => ?_, fun i h1 h19 => ?_, fun i h1 h19 => hrel i h1 h19,
    fun i h1 h19 => ?_, fun i h1 h19 => ?_, fun i h1 h19 => ?_, ?_, fun p => ?_⟩
  · rw [Mirao52e_FAKE.fake_SetZernMode_eq]
    by_cases hi : i = m.index
    · simp [Zernikes.assign_apply, hi]
    · simp [Zernikes.assign_apply, hi, hrel i h1 h19]
  · cases h : fileexists fs path
    · simp [Mirao52e_FAKE.LoadWavefront, h, hrel i h1 h19]
    · simp [Mirao52e_FAKE.LoadWavefront, h, Zernikes.clear_apply, h1, h19]
  · cases h : fileexists fs path <;> simp [Mirao52e_FAKE.SetCalibration, h, hrel i h1 h19]
  · cases h : fileexists fs path <;> simp [Mirao52e_FAKE.SetCalibrationParams, h, hrel i h1 h19]
  · cases h : fileexists fs path <;> simp [Mirao52e_FAKE.SetDiversityPref, h, hrel i h1 h19]
  · refine ⟨s.zer_rel.assign m.index (t - s.zer_store.zernike_coefficients m.index), ?_, ?_,
      fun j h1 h19 hj => ?_⟩
    · rw [Mirao52e_FAKE.fake_SetZernMode_eq]
    · simp [Zernikes.assign_apply]
    · simp [Zernikes.assign_apply, hj, hrel j h1 h19]
  · rw [Mirao52e_FAKE.fake_OnSetZernMode_BeforeGet, hrel m.index hidx1 hidx19, add_zero]

/-- C29, on the fresh immediate-mode device: after Coma90deg is set to 0.3 nothing is pending at
indices 1 to 19, and Coma90deg reads 0.3. -/
theorem Mirao52e_FAKE.pending_stays_zero_witness :
    (∀ i, 1 ≤ i → i ≤ 19 → Mirao52e_FAKE.new.zer_rel.zernike_coefficients i = 0) ∧
    (∀ i, 1 ≤ i → i ≤ 19 →
      (Mirao52e_FAKE.new.SetZernMode (fun _ => true) FakeMode.Coma90deg
        0.3).2.zer_rel.zernike_coefficients i = 0) ∧
    ((Mirao52e_FAKE.new.SetZernMode (fun _ => true) FakeMode.Coma90deg 0.3).2.OnSetZernMode
      (fun _ => true) FakeMode.Coma90deg 0 ActionType.BeforeGet).pProp = 0.3 :=
  ⟨fun _ _ _ => rfl,
    (Mirao52e_FAKE.pending_stays_zero Mirao52e_FAKE.new (fun _ => true) (fun _ => true)
      g_wfc_initpath FakeMode.Coma90deg 0.3 (fun _ _ _ => rfl)).1,
    by norm_num [Mirao52e_FAKE.SetZernMode, Mirao52e_FAKE.SetZernMode_Coma90deg,
      Mirao52e_FAKE.OnSetZernMode, Mirao52e_FAKE.OnSetZernMode_Coma90deg, Mirao52e_FAKE.new,
      Zernikes.new, Zernikes.assign]⟩

/-! ## Repeated initialization -/

/-- C30: `Initialize` on an already initialized device returns `DEVICE_OK` and leaves the device
record as it was, so `zer_store`, `zer_rel`, the stored paths and the ready flag are unchanged
and no driver call is made; the result does not depend on the file system, so no file is
probed and a configured file that no longer exists changes nothing.  This holds for `Mirao52e`
and for `Mirao52e_FAKE`. -/
theorem Initialize_again_is_noop (s : Mirao52e) (sF : Mirao52e_FAKE) (fs fs' : FileSystem)
    (drv : Driver) (host : Host) (hs : s.initialized_ = true) (hsF : sF.initialized_ = true) :
    (s.Initialize fs drv host = (DEVICE_OK, s) ∧
      s.Initialize fs' drv host = s.Initialize fs drv host ∧
      (s.Initialize fs drv host).2.calls = s.calls ∧
      (s.Initialize fs drv host).2.initialized_ = true) ∧
    (sF.Initialize fs drv host = (DEVICE_OK, sF) ∧
      sF.Initialize fs' drv host = sF.Initialize fs drv host ∧
      (sF.Initialize fs drv host).2.calls = sF.calls ∧
      (sF.Initialize fs drv host).2.initialized_ = true) := by
  have h : ∀ f : FileSystem, s.Initialize f drv host = (DEVICE_OK, s) := fun f => by
    simp [Mirao52e.Initialize, hs]
  have hF : ∀ f : FileSystem, sF.Initialize f drv host = (DEVICE_OK, sF) := fun f => by
    simp [Mirao52e_FAKE.Initialize, hsF]
  rw [h fs, h fs', hF fs, hF fs']
  exact ⟨⟨rfl, rfl, rfl, hs⟩, ⟨rfl, rfl, rfl, hsF⟩⟩

/-- C30, on the two initialized devices when no file exists any more: the second `Initialize`
returns `DEVICE_OK` and adds no driver call to the six of the first. -/
theorem Initialize_again_is_noop_witness :
    (Mirao52e.new.Initialize (fun p => p != g_wfc_initpath) (fun _ => true)
      (fun _ => DEVICE_OK)).2.initialized_ = true ∧
    (Mirao52e_FAKE.new.Initialize (fun p => p != g_wfc_initpath) (fun _ => true)
      (fun _ => DEVICE_OK)).2.initialized_ = true ∧
    ((Mirao52e.new.Initialize (fun p => p != g_wfc_initpath) (fun _ => true)
      (fun _ => DEVICE_OK)).2.Initialize (fun _ => false) (fun _ => true)
      (fun _ => DEVICE_OK)).1 = DEVICE_OK ∧
    ((Mirao52e.new.Initialize (fun p => p != g_wfc_initpath) (fun _ => true)
      (fun _ => DEVICE_OK)).2.Initialize (fun _ => false) (fun _ => true)
      (fun _ => DEVICE_OK)).2.calls.length = 6 ∧
    ((Mirao52e_FAKE.new.Initialize (fun p => p != g_wfc_initpath) (fun _ => true)
      (fun _ => DEVICE_OK)).2.Initialize (fun _ => false) (fun _ => true)
      (fun _ => DEVICE_OK)).1 = DEVICE_OK ∧
    ((Mirao52e_FAKE.new.Initialize (fun p => p != g_wfc_initpath) (fun _ => true)
      (fun _ => DEVICE_OK)).2.Initialize (fun _ => false) (fun _ => true)
      (fun _ => DEVICE_OK)).2.calls.length = 6 :=
  have hs : (Mirao52e.new.Initialize (fun p => p != g_wfc_initpath) (fun _ => true)
      (fun _ => DEVICE_OK)).2.initialized_ = true := by decide
  have hsF : (Mirao52e_FAKE.new.Initialize (fun p => p != g_wfc_initpath) (fun _ => true)
      (fun _ => DEVICE_OK)).2.initialized_ = true := by decide
  have h := Initialize_again_is_noop
    (Mirao52e.new.Initialize (fun p => p != g_wfc_initpath) (fun _ => true)
      (fun _ => DEVICE_OK)).2
    (Mirao52e_FAKE.new.Initialize (fun p => p != g_wfc_initpath) (fun _ => true)
      (fun _ => DEVICE_OK)).2
    (fun _ => false) (fun _ => true) (fun _ => true) (fun _ => DEVICE_OK) hs hsF
  ⟨hs, hsF, by rw [h.1.1], by rw [h.1.1]; decide, by rw [h.2.1], by rw [h.2.1]; decide⟩

/-! ## Coverage of the modes and the mirror file -/

/-- C27 fails as stated: no setter of `Mirao52e_FAKE` writes index 13, the index of
SecondComa0deg in `Mirao52e`; nor index 14, 15, 18 or 19. -/
theorem Mirao52e_FAKE.no_setter_for_index_13 :
    Mode.SecondComa0deg.index = 13 ∧
    (¬ ∃ m : FakeMode, m.index = 13) ∧
    (¬ ∃ m : FakeMode, m.index = 14) ∧
    (¬ ∃ m : FakeMode, m.index = 15) ∧
    (¬ ∃ m : FakeMode, m.index = 18) ∧
    (¬ ∃ m : FakeMode, m.index = 19) ∧
    (¬ ∃ m : FakeMode, m.toMode = Mode.SecondComa0deg) := by
  refine ⟨rfl, ?_, ?_, ?_, ?_, ?_, ?_⟩ <;>
    (rintro ⟨m, hm⟩; cases m <;> exact absurd hm (by decide))

/-- C27 as amended: `Mirao52e` has a setter and a read handler for each of the 19 modes, and the
indices its setters write are exactly 1 to 19; `Mirao52e_FAKE` has a setter and a read handler
for 14 modes only, and the indices its setters write are exactly 1 to 12, 16 and 17, each setter
changing `zer_store` at the index of its mode only. -/
theorem Mirao52e_FAKE.setters_cover_fourteen_indices (i : Nat) :
    ((∃ m : Mode, m.index = i) ↔ (1 ≤ i ∧ i ≤ 19)) ∧
    ((∃ m : FakeMode, m.index = i) ↔ ((1 ≤ i ∧ i ≤ 12) ∨ i = 16 ∨ i = 17)) ∧
    (∀ (s : Mirao52e_FAKE) (drv : Driver) (m : FakeMode) (t : ℚ),
      (s.SetZernMode drv m t).2.zer_store.zernike_coefficients m.index = t ∧
      ((s.SetZernMode drv m t).2.OnSetZernMode drv m 0 ActionType.BeforeGet).pProp = t ∧
      (s.SetZernMode drv m t).2.zer_store = s.zer_store.assign m.index t) := by
  refine ⟨⟨?_, fun h => Mode.index_surjective i h.1 h.2⟩, ⟨?_, ?_⟩, fun s drv m t => ?_⟩
  · rintro ⟨m, rfl⟩
    exact ⟨m.index_pos, m.index_le⟩
  · rintro ⟨m, rfl⟩
    cases m <;> decide
  · intro h
    have hi : i ≤ 17 := by omega
    interval_cases i <;>
      first
      | exact ⟨FakeMode.Tip, rfl⟩
      | exact ⟨FakeMode.Tilt, rfl⟩
      | exact ⟨FakeMode.Defocus, rfl⟩
      | exact ⟨FakeMode.Astig0deg, rfl⟩
      | exact ⟨FakeMode.Astig45deg, rfl⟩
      | exact ⟨FakeMode.Coma0deg, rfl⟩
      | exact ⟨FakeMode.Coma90deg, rfl⟩
      | exact ⟨FakeMode.PrimSpherical, rfl⟩
      | exact ⟨FakeMode.Trefoil0deg, rfl⟩
      | exact ⟨FakeMode.Trefoil90deg, rfl⟩
      | exact ⟨FakeMode.SecondAstig0deg, rfl⟩
      | exact ⟨FakeMode.SecondAstig45deg, rfl⟩
      | exact ⟨FakeMode.Quadrafoil0deg, rfl⟩
      | exact ⟨FakeMode.Quadrafoil45deg, rfl⟩
      | omega
  · rw [Mirao52e_FAKE.fake_OnSetZernMode_BeforeGet, Mirao52e_FAKE.fake_SetZernMode_eq]
    refine ⟨?_, ?_, rfl⟩
    · simp [Zernikes.assign_apply]
    · simp [Zernikes.assign_apply]

/-- C26 at its failing input: the fresh `Mirao52e_FAKE`, with its four configured files present
and no file at `g_fakemirrorinit_path`.  `Initialize` probes the configured mirror-init path,
returns `DEVICE_OK` and marks the device initialized, yet the mirror is opened from
`g_fakemirrorinit_path`, a different path that was not probed and does not exist; the three
other objects are loaded from the configured paths that were probed. -/
theorem Mirao52e_FAKE.Initialize_opens_unprobed_mirror_file :
    Mirao52e_FAKE.new.mirrorinitpath_ = "MIRAO/init/MIRAO_initialization.dat" ∧
    fileexists (fun p => p != g_fakemirrorinit_path) Mirao52e_FAKE.new.mirrorinitpath_ = true ∧
    fileexists (fun p => p != g_fakemirrorinit_path) g_fakemirrorinit_path = false ∧
    (Mirao52e_FAKE.new.Initialize (fun p => p != g_fakemirrorinit_path) (fun _ => true)
      (fun _ => DEVICE_OK)).1 = DEVICE_OK ∧
    (Mirao52e_FAKE.new.Initialize (fun p => p != g_fakemirrorinit_path) (fun _ => true)
      (fun _ => DEVICE_OK)).2.initialized_ = true ∧
    (Mirao52e_FAKE.new.Initialize (fun p => p != g_fakemirrorinit_path) (fun _ => true)
      (fun _ => DEVICE_OK)).2.mirrorhandle = some "MIRAO/init/Fake_Mirao52-e_0219.dat" ∧
    (Mirao52e_FAKE.new.Initialize (fun p => p != g_fakemirrorinit_path) (fun _ => true)
      (fun _ => DEVICE_OK)).2.mirrorhandle ≠ some Mirao52e_FAKE.new.mirrorinitpath_ ∧
    (Mirao52e_FAKE.new.Initialize (fun p => p != g_fakemirrorinit_path) (fun _ => true)
      (fun _ => DEVICE_OK)).2.calls
      = [DriverCall.Mirror_new g_fakemirrorinit_path, DriverCall.init_hardware,
          DriverCall.Diversity_new Mirao52e_FAKE.new.calibpath_ (some g_fakemirrorinit_path),
          DriverCall.CalibrationParams_Load Mirao52e_FAKE.new.calibparamspath_,
          DriverCall.DiversityPreferences_Load Mirao52e_FAKE.new.divprefpath_,
          DriverCall.Init_Diversity (some Mirao52e_FAKE.new.calibparamspath_)
            (some Mirao52e_FAKE.new.divprefpath_),
          DriverCall.Apply_Absolute_Commands_From_File g_wfc_initpath] := by
  refine ⟨rfl, by decide, by decide, by decide, by decide, by decide, by decide, ?_⟩
  rfl

/-! ## Life cycle of the ready flag -/

theorem Mirao52e.run_append_singleton (s : Mirao52e) (ops : List Mirao52e.Op)
    (op : Mirao52e.Op) : s.run (ops ++ [op]) = ((s.run ops).step op).2 := by
  simp [Mirao52e.run, List.foldl_append]

theorem Mirao52e.LoadWavefront_flag (s : Mirao52e) (fs : FileSystem) (drv : Driver)
    (path : String) : (s.LoadWavefront fs drv path).2.initialized_ = s.initialized_ := by
  cases h : fileexists fs path <;> simp [Mirao52e.LoadWavefront, h]

theorem Mirao52e.SetCalibration_flag (s : Mirao52e) (fs : FileSystem) (drv : Driver)
    (path : String) : (s.SetCalibration fs drv path).2.initialized_ = s.initialized_ := by
  cases h : fileexists fs path <;> simp [Mirao52e.SetCalibration, h]

theorem Mirao52e.SetCalibrationParams_flag (s : Mirao52e) (fs : FileSystem) (drv : Driver)
    (path : String) : (s.SetCalibrationParams fs drv path).2.initialized_ = s.initialized_ := by
  cases h : fileexists fs path <;> simp [Mirao52e.SetCalibrationParams, h]

theorem Mirao52e.SetDiversityPref_flag (s : Mirao52e) (fs : FileSystem) (drv : Driver)
    (path : String) : (s.SetDiversityPref fs drv path).2.initialized_ = s.initialized_ := by
  cases h : fileexists fs path <;> simp [Mirao52e.SetDiversityPref, h]

theorem Mirao52e.OnSetZernMode_flag (s : Mirao52e) (m : Mode) (p : ℚ) (eAct : ActionType) :
    (s.OnSetZernMode m p eAct).dev.initialized_ = s.initialized_ := by
  cases m <;> cases eAct <;> rfl

theorem Mirao52e.Initialize_sets_flag (s : Mirao52e) (fs : FileSystem) (drv : Driver)
    (host : Host) (hs : s.initialized_ = false)
    (h : (s.Initialize fs drv host).2.initialized_ = true) :
    fileexists fs s.mirrorinitpath_ = true ∧ fileexists fs s.calibpath_ = true ∧
    fileexists fs s.calibparamspath_ = true ∧ fileexists fs s.divprefpath_ = true ∧
    (s.Initialize fs drv host).1 = DEVICE_OK := by
  cases h1 : fileexists fs s.mirrorinitpath_
  · simp [Mirao52e.Initialize, hs, h1] at h
  cases h2 : fileexists fs s.calibpath_
  · simp [Mirao52e.Initialize, hs, h1, h2] at h
  cases h3 : fileexists fs s.calibparamspath_
  · simp [Mirao52e.Initialize, hs, h1, h2, h3] at h
  cases h4 : fileexists fs s.divprefpath_
  · simp [Mirao52e.Initialize, hs, h1, h2, h3, h4] at h
  refine ⟨rfl, rfl, rfl, rfl, ?_⟩
  by_cases hp : createProperties host initProperties = DEVICE_OK
  · simp [Mirao52e.Initialize, hs, h1, h2, h3, h4, hp]
  · exfalso
    cases hw : fileexists fs g_wfc_initpath <;>
      simp [Mirao52e.Initialize, Mirao52e.LoadWavefront, hs, h1, h2, h3, h4, hp, hw] at h

theorem Mirao52e.step_sets_flag (s : Mirao52e) (op : Mirao52e.Op) (hs : s.initialized_ = false)
    (h : (s.step op).2.initialized_ = true) :
    ∃ (fs : FileSystem) (drv : Driver) (host : Host),
      op = Mirao52e.Op.Initialize fs drv host ∧
      fileexists fs s.mirrorinitpath_ = true ∧ fileexists fs s.calibpath_ = true ∧
      fileexists fs s.calibparamspath_ = true ∧ fileexists fs s.divprefpath_ = true ∧
      (s.Initialize fs drv host).1 = DEVICE_OK := by
  have hne : s.initialized_ ≠ true := by simp [hs]
  cases op with
  | Initialize fs drv host =>
    exact ⟨fs, drv, host, rfl, Mirao52e.Initialize_sets_flag s fs drv host hs h⟩
  | Shutdown => simp [Mirao52e.step, Mirao52e.Shutdown] at h
  | OnPort pProp eAct =>
    exfalso
    cases eAct <;> simp [Mirao52e.step, Mirao52e.OnPort, hs] at h
  | SetCalibration fs drv path =>
    exact absurd ((Mirao52e.SetCalibration_flag s fs drv path).symm.trans h) hne
  | SetDiversityPref fs drv path =>
    exact absurd ((Mirao52e.SetDiversityPref_flag s fs drv path).symm.trans h) hne
  | SetCalibrationParams fs drv path =>
    exact absurd ((Mirao52e.SetCalibrationParams_flag s fs drv path).symm.trans h) hne
  | LoadWavefront fs drv path =>
    exact absurd ((Mirao52e.LoadWavefront_flag s fs drv path).symm.trans h) hne
  | SaveCurrentPosition drv path => exact absurd h hne
  | ApplyZernmodes drv => exact absurd h hne
  | SetZernMode m Acoef =>
    simp only [Mirao52e.step, Mirao52e.SetZernMode_eq] at h
    exact absurd h hne
  | OnSetCalibration fs drv pProp eAct =>
    exfalso
    cases eAct <;>
      simp [Mirao52e.step, Mirao52e.OnSetCalibration, Mirao52e.SetCalibration_flag, hs] at h
  | OnSetCalibrationParams fs drv pProp eAct =>
    exfalso
    cases eAct <;>
      simp [Mirao52e.step, Mirao52e.OnSetCalibrationParams, Mirao52e.SetCalibrationParams_flag,
        hs] at h
  | OnSetDiversityPref fs drv pProp eAct =>
    exfalso
    cases eAct <;>
      simp [Mirao52e.step, Mirao52e.OnSetDiversityPref, Mirao52e.SetDiversityPref_flag, hs] at h
  | OnLoadWavefront fs drv pProp eAct =>
    exfalso
    cases eAct <;>
      simp [Mirao52e.step, Mirao52e.OnLoadWavefront, Mirao52e.LoadWavefront_flag, hs] at h
  | OnSaveCurrentPosition drv pProp eAct =>
    exfalso
    cases eAct <;>
      simp [Mirao52e.step, Mirao52e.OnSaveCurrentPosition, Mirao52e.SaveCurrentPosition, hs] at h
  | OnApplyZernmodes drv pProp eAct =>
    exfalso
    cases eAct <;>
      simp [Mirao52e.step, Mirao52e.OnApplyZernmodes, Mirao52e.ApplyZernmodes, hs] at h
  | OnSetZernMode m pProp eAct =>
    exact absurd ((Mirao52e.OnSetZernMode_flag s m pProp eAct).symm.trans h) hne

/-- C21: `Shutdown` returns `DEVICE_OK` and leaves the device not ready from every state; a single
call can turn a device that is not ready into a ready one only if it is an `Initialize` that
passes the four file checks and returns `DEVICE_OK`; and after any sequence of calls on a device
that starts not ready, the device is ready only if the sequence contains such an `Initialize`,
made on a device that was not ready, with no `Shutdown` after it. -/
theorem Mirao52e.ready_only_after_Initialize (s : Mirao52e) (ops : List Mirao52e.Op)
    (hs : s.initialized_ = false) :
    (∀ st : Mirao52e, st.Shutdown.1 = DEVICE_OK ∧ st.Shutdown.2.initialized_ = false) ∧
    (∀ (st : Mirao52e) (op : Mirao52e.Op), st.initialized_ = false →
      (st.step op).2.initialized_ = true →
      ∃ (fs : FileSystem) (drv : Driver) (host : Host),
        op = Mirao52e.Op.Initialize fs drv host ∧
        fileexists fs st.mirrorinitpath_ = true ∧ fileexists fs st.calibpath_ = true ∧
        fileexists fs st.calibparamspath_ = true ∧ fileexists fs st.divprefpath_ = true ∧
        (st.Initialize fs drv host).1 = DEVICE_OK) ∧
    ((s.run ops).initialized_ = true →
      ∃ (pre : List Mirao52e.Op) (fs : FileSystem) (drv : Driver) (host : Host)
        (post : List Mirao52e.Op),
        ops = pre ++ Mirao52e.Op.Initialize fs drv host :: post ∧
        (s.run pre).initialized_ = false ∧
        fileexists fs (s.run pre).mirrorinitpath_ = true ∧
        fileexists fs (s.run pre).calibpath_ = true ∧
        fileexists fs (s.run pre).calibparamspath_ = true ∧
        fileexists fs (s.run pre).divprefpath_ = true ∧
        ((s.run pre).Initialize fs drv host).1 = DEVICE_OK ∧
        ∀ op ∈ post, op.isShutdown = false) := by
  refine ⟨fun st => ⟨rfl, rfl⟩, fun st op hst h => Mirao52e.step_sets_flag st op hst h, ?_⟩
  induction ops using List.reverseRecOn with
  | nil =>
    intro h
    have h0 : s.initialized_ = true := h
    rw [hs] at h0
    exact absurd h0 (by decide)
  | append_singleton pre op ih =>
    intro h
    rw [Mirao52e.run_append_singleton] at h
    cases hpre : (s.run pre).initialized_ with
    | false =>
      obtain ⟨fs, drv, host, hop, h1, h2, h3, h4, hret⟩ :=
        Mirao52e.step_sets_flag (s.run pre) op hpre h
      exact ⟨pre, fs, drv, host, [], by rw [hop], hpre, h1, h2, h3, h4, hret,
        fun o ho => absurd ho (List.not_mem_nil o)⟩
    | true =>
      obtain ⟨p0, fs, drv, host, post, hsplit, hflag, h1, h2, h3, h4, hret, hpost⟩ := ih hpre
      have hop : op.isShutdown = false := by
        cases op with
        | Shutdown => simp [Mirao52e.step, Mirao52e.Shutdown] at h
        | _ => rfl
      refine ⟨p0, fs, drv, host, post ++ [op], ?_, hflag, h1, h2, h3, h4, hret, ?_⟩
      · rw [hsplit, List.append_assoc, List.cons_append]
      · intro o ho
        rcases List.mem_append.mp ho with ho | ho
        · exact hpost o ho
        · rw [List.mem_singleton.mp ho]; exact hop

/-- C21, on the fresh device: after initialize, shut down, save, initialize, apply the device is
ready, and the theorem yields the second `Initialize`; after initialize, shut down, apply it is
not ready. -/
theorem Mirao52e.ready_only_after_Initialize_witness :
    Mirao52e.new.initialized_ = false ∧
    (Mirao52e.new.run
      [Mirao52e.Op.Initialize (fun _ => true) (fun _ => true) (fun _ => DEVICE_OK),
        Mirao52e.Op.Shutdown,
        Mirao52e.Op.ApplyZernmodes (fun _ => true)]).initialized_ = false ∧
    (Mirao52e.new.run
      [Mirao52e.Op.Initialize (fun _ => true) (fun _ => true) (fun _ => DEVICE_OK),
        Mirao52e.Op.Shutdown,
        Mirao52e.Op.SaveCurrentPosition (fun _ => true) g_savepath,
        Mirao52e.Op.Initialize (fun _ => true) (fun _ => true) (fun _ => DEVICE_OK),
        Mirao52e.Op.ApplyZernmodes (fun _ => true)]).initialized_ = true ∧
    (∃ (pre : List Mirao52e.Op) (fs : FileSystem) (drv : Driver) (host : Host)
        (post : List Mirao52e.Op),
        [Mirao52e.Op.Initialize (fun _ => true) (fun _ => true) (fun _ => DEVICE_OK),
          Mirao52e.Op.Shutdown,
          Mirao52e.Op.SaveCurrentPosition (fun _ => true) g_savepath,
          Mirao52e.Op.Initialize (fun _ => true) (fun _ => true) (fun _ => DEVICE_OK),
          Mirao52e.Op.ApplyZernmodes (fun _ => true)]
          = pre ++ Mirao52e.Op.Initialize fs drv host :: post ∧
        (Mirao52e.new.run pre).initialized_ = false ∧
        fileexists fs (Mirao52e.new.run pre).mirrorinitpath_ = true ∧
        fileexists fs (Mirao52e.new.run pre).calibpath_ = true ∧
        fileexists fs (Mirao52e.new.run pre).calibparamspath_ = true ∧
        fileexists fs (Mirao52e.new.run pre).divprefpath_ = true ∧
        ((Mirao52e.new.run pre).Initialize fs drv host).1 = DEVICE_OK ∧
        ∀ op ∈ post, op.isShutdown = false) :=
  ⟨rfl, by decide, by decide,
    (Mirao52e.ready_only_after_Initialize Mirao52e.new
      [Mirao52e.Op.Initialize (fun _ => true) (fun _ => true) (fun _ => DEVICE_OK),
        Mirao52e.Op.Shutdown,
        Mirao52e.Op.SaveCurrentPosition (fun _ => true) g_savepath,
        Mirao52e.Op.Initialize (fun _ => true) (fun _ => true) (fun _ => DEVICE_OK),
        Mirao52e.Op.ApplyZernmodes (fun _ => true)] rfl).2.2 (by decide)⟩

/-! ## Tracked state against dispatched commands -/

theorem dispatched_append (a b : List DriverCall) (i : Nat) :
    dispatched (a ++ b) i = dispatched a i + dispatched b i := by
  simp [dispatched, List.map_append, List.sum_append]

theorem dispatched_nil (i : Nat) : dispatched [] i = 0 := by
  simp [dispatched]

theorem dispatched_relative (zer : Zernikes) (i : Nat) :
    dispatched [DriverCall.Apply_Relative_Commands zer] i = zer.zernike_coefficients i := by
  simp [dispatched, DriverCall.relativeDelta]

theorem Mirao52e.runDeferred_cons (s : Mirao52e) (drv : Driver) (op : DeferredOp)
    (ops : List DeferredOp) :
    s.runDeferred drv (op :: ops)
      = Mirao52e.runDeferred
          (match op with
            | DeferredOp.set m Acoef => (s.SetZernMode m Acoef).2
            | DeferredOp.apply => (s.ApplyZernmodes drv).2) drv ops :=
  rfl

theorem Mirao52e.runDeferred_tracks (drv : Driver) (ops : List DeferredOp) (s : Mirao52e)
    (i : Nat) (h1 : 1 ≤ i) (h19 : i ≤ 19) :
    ∃ extra : List DriverCall,
      (s.runDeferred drv ops).calls = s.calls ++ extra ∧
      dispatched extra i
        = (s.runDeferred drv ops).zer_store.zernike_coefficients i
          - s.zer_store.zernike_coefficients i := by
  induction ops generalizing s with
  | nil => exact ⟨[], by simp [Mirao52e.runDeferred], by simp [Mirao52e.runDeferred, dispatched]⟩
  | cons op ops ih =>
    rw [Mirao52e.runDeferred_cons]
    cases op with
    | set m Acoef =>
      obtain ⟨extra, hc, hd⟩ := ih (s.SetZernMode m Acoef).2
      have hcalls : (s.SetZernMode m Acoef).2.calls = s.calls := by rw [Mirao52e.SetZernMode_eq]
      have hstore : (s.SetZernMode m Acoef).2.zer_store = s.zer_store := by
        rw [Mirao52e.SetZernMode_eq]
      rw [hcalls] at hc
      rw [hstore] at hd
      exact ⟨extra, hc, hd⟩
    | apply =>
      obtain ⟨extra, hc, hd⟩ := ih (s.ApplyZernmodes drv).2
      have hcalls : (s.ApplyZernmodes drv).2.calls
          = s.calls ++ [DriverCall.Apply_Relative_Commands s.zer_rel] := rfl
      have hstore : (s.ApplyZernmodes drv).2.zer_store.zernike_coefficients i
          = s.zer_store.zernike_coefficients i + s.zer_rel.zernike_coefficients i := by
        rw [Mirao52e.ApplyZernmodes_eq]
        simp [Zernikes.merge_apply, h1, h19]
      rw [hcalls] at hc
      rw [hstore] at hd
      refine ⟨DriverCall.Apply_Relative_Commands s.zer_rel :: extra, ?_, ?_⟩
      · rw [hc, List.append_assoc]
        rfl
      · have hcons : dispatched (DriverCall.Apply_Relative_Commands s.zer_rel :: extra) i
            = s.zer_rel.zernike_coefficients i + dispatched extra i := by
          simp [dispatched, DriverCall.relativeDelta]
        rw [hcons, hd]
        show _ = ((s.ApplyZernmodes drv).2.runDeferred drv ops).zer_store.zernike_coefficients i
          - s.zer_store.zernike_coefficients i
        ring

theorem Mirao52e_FAKE.fake_setModes_cons (s : Mirao52e_FAKE) (drv : Driver) (op : FakeMode × ℚ)
    (ops : List (FakeMode × ℚ)) :
    s.setModes drv (op :: ops) = (s.SetZernMode drv op.1 op.2).2.setModes drv ops :=
  rfl

theorem Mirao52e_FAKE.setModes_dispatch_tracks (drv : Driver) (ops : List (FakeMode × ℚ))
    (s : Mirao52e_FAKE) (hrel : ∀ j, 1 ≤ j → j ≤ 19 → s.zer_rel.zernike_coefficients j = 0)
    (i : Nat) (h1 : 1 ≤ i) (h19 : i ≤ 19) :
    ∃ extra : List DriverCall,
      (s.setModes drv ops).calls = s.calls ++ extra ∧
      dispatched extra i
        = (s.setModes drv ops).zer_store.zernike_coefficients i
          - s.zer_store.zernike_coefficients i := by
  induction ops generalizing s with
  | nil => exact ⟨[], by simp [Mirao52e_FAKE.setModes], by simp [Mirao52e_FAKE.setModes, dispatched]⟩
  | cons op ops ih =>
    rw [Mirao52e_FAKE.fake_setModes_cons]
    have hrel1 : ∀ j, 1 ≤ j → j ≤ 19 →
        (s.SetZernMode drv op.1 op.2).2.zer_rel.zernike_coefficients j = 0 := by
      intro j hj1 hj19
      rw [Mirao52e_FAKE.fake_SetZernMode_eq]
      by_cases hj : j = op.1.index
      · simp [Zernikes.assign_apply, hj]
      · simp [Zernikes.assign_apply, hj, hrel j hj1 hj19]
    obtain ⟨extra, hc, hd⟩ := ih (s.SetZernMode drv op.1 op.2).2 hrel1
    have hcalls : (s.SetZernMode drv op.1 op.2).2.calls
        = s.calls ++ [DriverCall.Apply_Relative_Commands
            (s.zer_rel.assign op.1.index
              (op.2 - s.zer_store.zernike_coefficients op.1.index))] := by
      rw [Mirao52e_FAKE.fake_SetZernMode_eq]
    have hstore : (s.SetZernMode drv op.1 op.2).2.zer_store.zernike_coefficients i
        = if i = op.1.index then op.2 else s.zer_store.zernike_coefficients i := by
      rw [Mirao52e_FAKE.fake_SetZernMode_eq]
      rfl
    rw [hcalls] at hc
    rw [hstore] at hd
    refine ⟨DriverCall.Apply_Relative_Commands
      (s.zer_rel.assign op.1.index (op.2 - s.zer_store.zernike_coefficients op.1.index))
        :: extra, ?_, ?_⟩
    · rw [hc, List.append_assoc]
      rfl
    · have hcons : dispatched (DriverCall.Apply_Relative_Commands
          (s.zer_rel.assign op.1.index (op.2 - s.zer_store.zernike_coefficients op.1.index))
            :: extra) i
          = (if i = op.1.index then op.2 - s.zer_store.zernike_coefficients op.1.index
              else s.zer_rel.zernike_coefficients i)
            + dispatched extra i := by
        simp [dispatched, DriverCall.relativeDelta, Zernikes.assign_apply]
      rw [hcons, hd]
      by_cases hi : i = op.1.index
      · rw [if_pos hi, if_pos hi, hi]
        ring
      · rw [if_neg hi, if_neg hi, hrel i h1 h19]
        ring

theorem LoadWavefront_resets_tracked_buffers (fs : FileSystem) (drv : Driver) (path : String)
    (hexists : fileexists fs path = true) (s : Mirao52e) (sF : Mirao52e_FAKE) :
    (∀ i, 1 ≤ i → i ≤ 19 →
      (s.LoadWavefront fs drv path).2.zer_store.zernike_coefficients i = 0 ∧
      (s.LoadWavefront fs drv path).2.zer_rel.zernike_coefficients i = 0) ∧
    (∀ i, 1 ≤ i → i ≤ 19 →
      (sF.LoadWavefront fs drv path).2.zer_store.zernike_coefficients i = 0 ∧
      (sF.LoadWavefront fs drv path).2.zer_rel.zernike_coefficients i = 0) := by
  refine ⟨fun i h1 h19 => ?_, fun i h1 h19 => ?_⟩
  · simp [Mirao52e.LoadWavefront, hexists, Zernikes.clear_apply, h1, h19]
  · simp [Mirao52e_FAKE.LoadWavefront, hexists, Zernikes.clear_apply, h1, h19]

/-- C25: tracked state matches what was dispatched.  Starting just after a `LoadWavefront` on an
existing file, after every finite sequence of setter calls and applies on `Mirao52e`, and after
every finite sequence of setter calls on `Mirao52e_FAKE`, the driver calls made since the load
have, at every index from 1 to 19, dispatched relative deltas whose sum equals `zer_store` at
that index. -/
theorem dispatched_sum_equals_applied (s : Mirao52e) (sF : Mirao52e_FAKE) (fs : FileSystem)
    (drv : Driver) (path : String) (hexists : fileexists fs path = true)
    (ops : List DeferredOp) (opsF : List (FakeMode × ℚ)) (i : Nat) (h1 : 1 ≤ i) (h19 : i ≤ 19) :
    (∃ extra : List DriverCall,
      ((s.LoadWavefront fs drv path).2.runDeferred drv ops).calls
        = (s.LoadWavefront fs drv path).2.calls ++ extra ∧
      dispatched extra i
        = ((s.LoadWavefront fs drv path).2.runDeferred drv ops).zer_store.zernike_coefficients i) ∧
    (∃ extra : List DriverCall,
      ((sF.LoadWavefront fs drv path).2.setModes drv opsF).calls
        = (sF.LoadWavefront fs drv path).2.calls ++ extra ∧
      dispatched extra i
        = ((sF.LoadWavefront fs drv path).2.setModes drv opsF).zer_store.zernike_coefficients i) := by
  have hload := LoadWavefront_resets_tracked_buffers fs drv path hexists s sF
  constructor
  · obtain ⟨extra, hc, hd⟩ :=
      Mirao52e.runDeferred_tracks drv ops (s.LoadWavefront fs drv path).2 i h1 h19
    exact ⟨extra, hc, by rw [hd, (hload.1 i h1 h19).1, sub_zero]⟩
  · obtain ⟨extra, hc, hd⟩ :=
      Mirao52e_FAKE.setModes_dispatch_tracks drv opsF (sF.LoadWavefront fs drv path).2
        (fun j hj1 hj19 => (hload.2 j hj1 hj19).2) i h1 h19
    exact ⟨extra, hc, by rw [hd, (hload.2 i h1 h19).1, sub_zero]⟩

/-- C25, on the two fresh devices after loading the default wavefront file: Defocus set to 0.5,
applied, set to 0.2, applied on `Mirao52e`, and Defocus set to 0.5 then to 0.2 on
`Mirao52e_FAKE`; at index 3 the dispatched deltas sum to the applied value, which is 0.2 on
both. -/
theorem dispatched_sum_equals_applied_witness :
    fileexists (fun _ => true) g_wfc_initpath = true ∧ (1 ≤ 3 ∧ 3 ≤ 19) ∧
    (∃ extra : List DriverCall,
      ((Mirao52e.new.LoadWavefront (fun _ => true) (fun _ => true) g_wfc_initpath).2.runDeferred
          (fun _ => true)
          [DeferredOp.set Mode.Defocus 0.5, DeferredOp.apply, DeferredOp.set Mode.Defocus 0.2,
            DeferredOp.apply]).calls
        = (Mirao52e.new.LoadWavefront (fun _ => true) (fun _ => true) g_wfc_initpath).2.calls
          ++ extra ∧
      dispatched extra 3
        = ((Mirao52e.new.LoadWavefront (fun _ => true) (fun _ => true)
            g_wfc_initpath).2.runDeferred (fun _ => true)
            [DeferredOp.set Mode.Defocus 0.5, DeferredOp.apply, DeferredOp.set Mode.Defocus 0.2,
              DeferredOp.apply]).zer_store.zernike_coefficients 3) ∧
    (∃ extra : List DriverCall,
      ((Mirao52e_FAKE.new.LoadWavefront (fun _ => true) (fun _ => true) g_wfc_initpath).2.setModes
          (fun _ => true) [(FakeMode.Defocus, 0.5), (FakeMode.Defocus, 0.2)]).calls
        = (Mirao52e_FAKE.new.LoadWavefront (fun _ => true) (fun _ => true)
            g_wfc_initpath).2.calls ++ extra ∧
      dispatched extra 3
        = ((Mirao52e_FAKE.new.LoadWavefront (fun _ => true) (fun _ => true)
            g_wfc_initpath).2.setModes (fun _ => true)
            [(FakeMode.Defocus, 0.5), (FakeMode.Defocus, 0.2)]).zer_store.zernike_coefficients 3) ∧
    ((Mirao52e_FAKE.new.LoadWavefront (fun _ => true) (fun _ => true) g_wfc_initpath).2.setModes
      (fun _ => true)
      [(FakeMode.Defocus, 0.5), (FakeMode.Defocus, 0.2)]).zer_store.zernike_coefficients 3 = 0.2 :=
  have h := dispatched_sum_equals_applied Mirao52e.new Mirao52e_FAKE.new (fun _ => true)
    (fun _ => true) g_wfc_initpath rfl
    [DeferredOp.set Mode.Defocus 0.5, DeferredOp.apply, DeferredOp.set Mode.Defocus 0.2,
      DeferredOp.apply]
    [(FakeMode.Defocus, 0.5), (FakeMode.Defocus, 0.2)] 3 (by decide) (by decide)
  ⟨rfl, ⟨by decide, by decide⟩, h.1, h.2, by
    norm_num [Mirao52e_FAKE.setModes, Mirao52e_FAKE.SetZernMode,
      Mirao52e_FAKE.SetZernMode_Defocus, Mirao52e_FAKE.LoadWavefront, fileexists,
      Zernikes.assign]⟩

/-- C27 as amended, at concrete indices: index 16 is written by a setter of `Mirao52e_FAKE`,
index 13 is written by a setter of `Mirao52e` and lies outside the indices of `Mirao52e_FAKE`. -/
theorem Mirao52e_FAKE.setters_cover_fourteen_indices_witness :
    (∃ m : FakeMode, m.index = 16) ∧ (∃ m : Mode, m.index = 13) ∧
    ¬ ((1 ≤ 13 ∧ 13 ≤ 12) ∨ 13 = 16 ∨ 13 = 17) :=
  ⟨(Mirao52e_FAKE.setters_cover_fourteen_indices 16).2.1.mpr (Or.inr (Or.inl rfl)),
    (Mirao52e_FAKE.setters_cover_fourteen_indices 13).1.mpr ⟨by decide, by decide⟩,
    by decide⟩

